import Mathlib

/-! # rubrik-exporter: the backup-system client layer

A shallow embedding of package `rubrik` (session.go, rubrik_api.go, graphql_client.go and the
resource files node.go, virtual_machine.go, managed_volume.go, archive.go, stat.go, report.go).

How the Go code is rendered:

* The appliance and the Go libraries the package calls (net/http, encoding/json, net/url,
  machinebox/graphql) are the fields of `World`: what `http.NewRequest` answers, what a round trip
  answers, what a graph-query run decodes to, what a body decodes to.  A world is a function of the
  request; no operation of the package sends the same request twice.
* A Go function with effects is a value of `Run α`: the outcome (a returned value, or the process
  exit of `log.Fatal`) together with the trace of what it did, in order (log lines, graph-query
  runs, `makeRequest` calls, HTTP round trips, entries into the authentication strategies).
* Log lines are recorded by their format string; the formatted arguments are left out.
* `defer resp.Body.Close()` has no effect that the package can observe and is left out.
* Go `int` is `Int`, `float64` is `Float64` (its bit pattern), `error` is the error text, a
  pointer that may be nil is an `Option`, a slice that is returned to a caller is a `Slice`
  (nil or not), and a slice that is only ranged over, measured or indexed is a `List`.
-/

namespace RubrikExporter

/-! ## Go values -/

/-- A Go slice as its holder observes it: the nil slice, or a non-nil slice and its elements. -/
inductive Slice (α : Type) where
  | nil : Slice α
  | mk (elems : List α) : Slice α
  deriving DecidableEq, Repr

instance {α : Type} : Inhabited (Slice α) := ⟨Slice.nil⟩

/-- The elements of a slice; the nil slice has none. -/
def Slice.toList {α : Type} : Slice α → List α
  | .nil => []
  | .mk xs => xs

/-- Go `len(s)`. -/
def Slice.len {α : Type} (s : Slice α) : Nat := s.toList.length

/-- Go `s == nil`. -/
def Slice.isNil {α : Type} : Slice α → Bool
  | .nil => true
  | .mk _ => false

/-- Go `append(s, t...)`: with nothing to add the result is `s` itself (nil stays nil). -/
def Slice.append {α : Type} (s t : Slice α) : Slice α :=
  match t.toList with
  | [] => s
  | y :: ys => .mk (s.toList ++ y :: ys)

/-- A Go `map[string]V` as its holder observes it: the nil map, or a map and its entries.
Entries are kept in the order in which their keys were first set. -/
inductive Map (V : Type) where
  | nil : Map V
  | mk (entries : List (String × V)) : Map V
  deriving DecidableEq, Repr

instance {V : Type} : Inhabited (Map V) := ⟨Map.nil⟩

/-- The entries of a map; the nil map has none. -/
def Map.entries {V : Type} : Map V → List (String × V)
  | .nil => []
  | .mk es => es

/-- Go `len(m)`. -/
def Map.len {V : Type} (m : Map V) : Nat := m.entries.length

/-- Go `m == nil`. -/
def Map.isNil {V : Type} : Map V → Bool
  | .nil => true
  | .mk _ => false

/-- The keys of a map. -/
def Map.keys {V : Type} (m : Map V) : List String := m.entries.map Prod.fst

/-- Go `v, ok := m[k]`. -/
def Map.get? {V : Type} (m : Map V) (k : String) : Option V := m.entries.lookup k

/-- Go `m[k]`: the zero value when the key is absent (also on the nil map). -/
def Map.get {V : Type} [Inhabited V] (m : Map V) (k : String) : V := (m.get? k).getD default

/-- Replace the value at key `k` in an entry list, or add the entry at the end. -/
def Map.setEntries {V : Type} (k : String) (v : V) : List (String × V) → List (String × V)
  | [] => [(k, v)]
  | (k0, v0) :: rest => if k0 = k then (k, v) :: rest else (k0, v0) :: Map.setEntries k v rest

/-- Go `m[k] = v` on a non-nil map (the package never assigns into a nil map). -/
def Map.set {V : Type} (m : Map V) (k : String) (v : V) : Map V := .mk (Map.setEntries k v m.entries)

/-- Go `url.Values`, a `map[string][]string`. -/
abbrev Values := Map (List String)

/-- A Go `float64`, kept as its IEEE-754 bit pattern; the package copies floats and converts
them to `int`, nothing else. The zero value is `+0`, bit pattern 0. -/
structure Float64 where
  bits : Nat
  deriving DecidableEq, Repr, Inhabited

/-- Go `make([]B, len(xs))` followed by the loop `for i, x := range xs` with body
`out[i] = f x`: slot `i` is written at step `i`. -/
def rangeFill {α β : Type} (f : α → β) : List α → Nat → List β → List β
  | [], _, out => out
  | x :: rest, i, out => rangeFill f rest (i + 1) (out.set i (f x))

/-- The made-and-filled slice of a conversion loop. -/
def makeFilled {α β : Type} [Inhabited β] (f : α → β) (xs : List α) : Slice β :=
  .mk (rangeFill f xs 0 (List.replicate xs.length default))

/-- Go `strings.TrimSuffix(s, "/")`. -/
def TrimSuffixSlash (s : String) : String :=
  match s.data.reverse with
  | '/' :: rest => String.mk rest.reverse
  | _ => s

/-! ## Requests, responses, trace -/

/-- RequestParams of rubrik_api.go. -/
structure RequestParams where
  body : String := ""
  header : String := ""
  params : Values := Map.nil
  deriving DecidableEq, Repr, Inhabited

/-- An `http.Request` as the package builds it. A nil body is `none`. -/
structure HttpRequest where
  method : String
  url : String
  body : Option String
  header : List (String × String)
  basicAuth : Option (String × String)
  deriving DecidableEq, Repr

/-- An `http.Response` as the package reads it. -/
structure HttpResponse where
  StatusCode : Int
  Body : String
  deriving DecidableEq, Repr

/-- A `graphql.Request` as `ExecuteQuery` builds it, with the endpoint it is run against. -/
structure GraphRequest where
  endpoint : String
  query : String
  header : List (String × String)
  vars : List (String × String)
  deriving DecidableEq, Repr

/-- What a function did, in order. -/
inductive Event where
  | log (line : String)
  | call (fn : String)
  | makeRequest (reqType action : String) (p : RequestParams)
  | graphRun (req : GraphRequest)
  | httpDo (req : HttpRequest)
  deriving DecidableEq, Repr

/-- How a Go function ends: it returns a value, or the process exits (`log.Fatal`). -/
inductive Outcome (α : Type) where
  | ret (value : α)
  | exit (code : Nat)
  deriving DecidableEq, Repr

/-- A run of a Go function: how it ended and what it did. -/
structure Run (α : Type) where
  out : Outcome α
  trace : List Event

/-- Return a value, doing nothing. -/
def Run.pure {α : Type} (a : α) : Run α := ⟨.ret a, []⟩

/-- Sequencing: what follows runs only when the first part returned. -/
def Run.bind {α β : Type} (m : Run α) (f : α → Run β) : Run β :=
  match m.out with
  | .ret a => ⟨(f a).out, m.trace ++ (f a).trace⟩
  | .exit c => ⟨.exit c, m.trace⟩

instance : Monad Run where
  pure := Run.pure
  bind := Run.bind

/-- Record one event. -/
def emit (e : Event) : Run Unit := ⟨.ret (), [e]⟩

/-- Go `log.Print` and `log.Printf`, recorded by format string. -/
def logPrint (line : String) : Run Unit := emit (.log line)

/-- Go `log.Fatal(err)`: prints the error and exits the process with status 1. -/
def logFatal {α : Type} (err : String) : Run α := ⟨.exit 1, [.log err]⟩

/-- The `makeRequest` calls of a trace, in order: request type, action, parameters. -/
def restCalls : List Event → List (String × String × RequestParams)
  | [] => []
  | .makeRequest t a p :: rest => (t, a, p) :: restCalls rest
  | _ :: rest => restCalls rest

/-- The graph-query runs of a trace, in order. -/
def graphRuns : List Event → List GraphRequest
  | [] => []
  | .graphRun q :: rest => q :: graphRuns rest
  | _ :: rest => graphRuns rest

/-- The HTTP round trips of a trace, in order. -/
def httpCalls : List Event → List HttpRequest
  | [] => []
  | .httpDo q :: rest => q :: httpCalls rest
  | _ :: rest => httpCalls rest

/-- The function entries of a trace, in order. -/
def calledFns : List Event → List String
  | [] => []
  | .call fn :: rest => fn :: calledFns rest
  | _ :: rest => calledFns rest

/-- One attempt of a retrieval protocol: a graph-query run or a `makeRequest` call. -/
inductive Attempt where
  | graph (req : GraphRequest)
  | rest (reqType action : String) (p : RequestParams)
  deriving DecidableEq, Repr

/-- The protocol attempts of a trace, in order. -/
def attempts : List Event → List Attempt
  | [] => []
  | .graphRun q :: rest => .graph q :: attempts rest
  | .makeRequest t a p :: rest => .rest t a p :: attempts rest
  | _ :: rest => attempts rest

/-! ## Domain records (session.go, node.go, virtual_machine.go, managed_volume.go, archive.go,
stat.go, report.go)

The embedded `*ResultList` of the list envelopes is declared outside the files at hand and is
never read by the package; the envelopes keep their `Data` field. -/

/-- Session of session.go. -/
structure Session where
  Id : String
  OrganizationId : String
  Token : String
  UserId : String
  deriving DecidableEq, Repr, Inhabited

/-- OAuth2TokenResponse of session.go. -/
structure OAuth2TokenResponse where
  AccessToken : String
  TokenType : String
  ExpiresIn : Int
  Scope : String
  deriving DecidableEq, Repr, Inhabited

/-- Node of node.go. -/
structure Node where
  ID : String
  BrikID : String
  Status : String
  IPAddress : String
  NeedsInspection : Bool
  deriving DecidableEq, Repr, Inhabited

/-- NodeList of node.go. -/
structure NodeList where
  Data : Slice Node
  deriving DecidableEq, Repr, Inhabited

/-- VirtualMachine of virtual_machine.go. -/
structure VirtualMachine where
  ID : String
  Name : String
  EffectiveSLADomainID : String
  deriving DecidableEq, Repr, Inhabited

/-- VirtualMachineList of virtual_machine.go. -/
structure VirtualMachineList where
  Data : Slice VirtualMachine
  deriving DecidableEq, Repr, Inhabited

/-- ManagedVolume of managed_volume.go. -/
structure ManagedVolume where
  ID : String
  State : String
  NumChannels : Float64
  ConfiguredSLADomainName : String
  EffectiveSLADomainID : String
  PrimaryClusterID : String
  UsedSize : Float64
  SLAAssignment : String
  ConfiguredSLADomainID : String
  IsWritable : String
  VolumeSize : Float64
  EffectiveSLADomainName : String
  SnapshotCount : Float64
  PendingSnapshotCount : Float64
  IsRelic : String
  Name : String
  deriving DecidableEq, Repr, Inhabited

/-- ManagedVolumeList of managed_volume.go. -/
structure ManagedVolumeList where
  Data : Slice ManagedVolume
  deriving DecidableEq, Repr, Inhabited

/-- Location of archive.go. -/
structure Location where
  ID : String
  Name : String
  LocationType : String
  IsActive : Bool
  IPAddress : String
  Bucket : String
  deriving DecidableEq, Repr, Inhabited

/-- LocationList of archive.go. -/
structure LocationList where
  Data : Slice Location
  deriving DecidableEq, Repr, Inhabited

/-- VmStorage of stat.go. -/
structure VmStorage where
  ID : String
  Logicalbytes : Float64
  IngestedBytes : Float64
  ExclusivePhysicalBytes : Float64
  SharedPhysicalBytes : Float64
  IndexStorageBytes : Float64
  deriving DecidableEq, Repr, Inhabited

/-- VmStorageList of stat.go. -/
structure VmStorageList where
  Data : Slice VmStorage
  deriving DecidableEq, Repr, Inhabited

/-- SystemStorage of stat.go. -/
structure SystemStorage where
  Total : Int
  Used : Int
  Available : Int
  Snapshot : Int
  LiveMount : Int
  Miscellaneous : Int
  deriving DecidableEq, Repr, Inhabited

/-- DataLocationUsage of stat.go. -/
structure DataLocationUsage where
  LocationID : String
  DataDownloaded : Int
  DataArchived : Int
  NumVMsArchived : Int
  NumFilesetsArchived : Int
  NumLinuxFilesetsArchived : Int
  NumWindowsFilesetsArchived : Int
  NumShareFilesetsArchived : Int
  NumMssqlDbsArchived : Int
  NumHypervVmsArchived : Int
  NumNutanixVmsArchived : Int
  NumManagedVolumesArchived : Int
  deriving DecidableEq, Repr, Inhabited

/-- DataLocationUsageList of stat.go. -/
structure DataLocationUsageList where
  Data : Slice DataLocationUsage
  deriving DecidableEq, Repr, Inhabited

/-- Modelled from the spec: the declaration of `TimeStat` is outside the files at hand; stat.go
builds it from the fields `Time` (the point date) and `Stat` (the point value as `int`), a
time text and an integer value (TimeSeriesPoint among the domain records of the spec). -/
structure TimeStat where
  Time : String
  Stat : Int
  deriving DecidableEq, Repr, Inhabited

/-- Report of report.go. -/
structure Report where
  Name : String
  ReportType : String
  UpdateTime : String
  ID : String
  ReportTemplate : String
  UpdateStatus : String
  deriving DecidableEq, Repr, Inhabited

/-- ReportList of report.go. -/
structure ReportList where
  Data : Slice Report
  deriving DecidableEq, Repr, Inhabited

/-- ReportDataPoint of report.go. -/
structure ReportDataPoint where
  Measure : String
  Value : Float64
  deriving DecidableEq, Repr, Inhabited

/-- ReportDataColumn of report.go. -/
structure ReportDataColumn where
  Label : String
  DataPoints : List ReportDataPoint
  deriving DecidableEq, Repr, Inhabited

/-- ReportData of report.go. -/
structure ReportData where
  ID : String
  Attribute : String
  ChartType : String
  Name : String
  Measure : String
  DataColumns : List ReportDataColumn
  deriving DecidableEq, Repr, Inhabited

/-! ## Graph-query response shapes (graphql_client.go)

The anonymous nested structs of the Go declarations get a name each; an `edges` list of
`node` wrappers is `Connection`. -/

/-- One element of an `Edges` list: the struct with the single field `Node`. -/
structure Edge (N : Type) where
  Node : N
  deriving DecidableEq, Repr, Inhabited

/-- The struct with the single field `Edges`. -/
structure Connection (N : Type) where
  Edges : List (Edge N)
  deriving DecidableEq, Repr, Inhabited

/-- The `System` struct of SystemStorageResponse. -/
structure SystemStorageResponse.SystemT where
  Storage : SystemStorage
  deriving DecidableEq, Repr, Inhabited

/-- SystemStorageResponse of graphql_client.go. -/
structure SystemStorageResponse where
  System : SystemStorageResponse.SystemT
  deriving DecidableEq, Repr, Inhabited

/-- The `Cluster` struct of a node of NodesResponse. -/
structure NodesResponse.ClusterT where
  ID : String
  Name : String
  deriving DecidableEq, Repr, Inhabited

/-- One element of `Nodes` of NodesResponse. -/
structure NodesResponse.NodeT where
  ID : String
  Name : String
  Status : String
  IPAddress : String
  NeedsInspection : Bool
  Cluster : NodesResponse.ClusterT
  deriving DecidableEq, Repr, Inhabited

/-- NodesResponse of graphql_client.go. -/
structure NodesResponse where
  Nodes : List NodesResponse.NodeT
  deriving DecidableEq, Repr, Inhabited

/-- The struct behind the `EffectiveSlaDomain` pointer. -/
structure SlaDomainT where
  ID : String
  Name : String
  deriving DecidableEq, Repr, Inhabited

/-- The `Node` struct of the three virtual-machine responses. -/
structure VMNodeT where
  ID : String
  Name : String
  EffectiveSlaDomain : Option SlaDomainT
  deriving DecidableEq, Repr, Inhabited

/-- VMwareVMsResponse of graphql_client.go. -/
structure VMwareVMsResponse where
  VmwareVms : Connection VMNodeT
  deriving DecidableEq, Repr, Inhabited

/-- NutanixVMsResponse of graphql_client.go. -/
structure NutanixVMsResponse where
  NutanixVms : Connection VMNodeT
  deriving DecidableEq, Repr, Inhabited

/-- HypervVMsResponse of graphql_client.go. -/
structure HypervVMsResponse where
  HypervVms : Connection VMNodeT
  deriving DecidableEq, Repr, Inhabited

/-- The `Node` struct of ArchiveLocationsResponse. -/
structure ArchiveLocationsResponse.NodeT where
  ID : String
  Name : String
  ArchivalLocationType : String
  Status : String
  deriving DecidableEq, Repr, Inhabited

/-- ArchiveLocationsResponse of graphql_client.go. -/
structure ArchiveLocationsResponse where
  ArchiveLocations : Connection ArchiveLocationsResponse.NodeT
  deriving DecidableEq, Repr, Inhabited

/-- The `Node` struct of ManagedVolumesResponse. -/
structure ManagedVolumesResponse.NodeT where
  ID : String
  Name : String
  State : String
  NumChannels : Float64
  ConfiguredSLADomainName : String
  EffectiveSlaDomain : Option SlaDomainT
  PrimaryClusterID : String
  UsedSize : Float64
  SlaAssignment : String
  ConfiguredSLADomainID : String
  IsWritable : String
  VolumeSize : Float64
  EffectiveSLADomainName : String
  SnapshotCount : Float64
  PendingSnapshotCount : Float64
  IsRelic : String
  deriving DecidableEq, Repr, Inhabited

/-- ManagedVolumesResponse of graphql_client.go. -/
structure ManagedVolumesResponse where
  ManagedVolumes : Connection ManagedVolumesResponse.NodeT
  deriving DecidableEq, Repr, Inhabited

/-- The `Node` struct of PerVMStorageResponse. -/
structure PerVMStorageResponse.NodeT where
  ID : String
  Name : String
  LogicalBytes : Float64
  IngestedBytes : Float64
  ExclusivePhysicalBytes : Float64
  SharedPhysicalBytes : Float64
  IndexStorageBytes : Float64
  deriving DecidableEq, Repr, Inhabited

/-- PerVMStorageResponse of graphql_client.go. -/
structure PerVMStorageResponse where
  VmwareVms : Connection PerVMStorageResponse.NodeT
  deriving DecidableEq, Repr, Inhabited

/-- The `Streams` struct of StreamsCountResponse. -/
structure StreamsCountResponse.StreamsT where
  Count : Int
  deriving DecidableEq, Repr, Inhabited

/-- The `System` struct of StreamsCountResponse. -/
structure StreamsCountResponse.SystemT where
  Streams : StreamsCountResponse.StreamsT
  deriving DecidableEq, Repr, Inhabited

/-- StreamsCountResponse of graphql_client.go. -/
structure StreamsCountResponse where
  System : StreamsCountResponse.SystemT
  deriving DecidableEq, Repr, Inhabited

/-- The `Node` struct of DataLocationUsageResponse. -/
structure DataLocationUsageResponse.NodeT where
  ID : String
  Name : String
  DataDownloaded : Int
  DataArchived : Int
  NumVMsArchived : Int
  NumFilesetsArchived : Int
  NumLinuxFilesetsArchived : Int
  NumWindowsFilesetsArchived : Int
  NumShareFilesetsArchived : Int
  NumMssqlDbsArchived : Int
  NumHypervVmsArchived : Int
  NumNutanixVmsArchived : Int
  NumManagedVolumesArchived : Int
  deriving DecidableEq, Repr, Inhabited

/-- DataLocationUsageResponse of graphql_client.go. -/
structure DataLocationUsageResponse where
  ArchiveLocations : Connection DataLocationUsageResponse.NodeT
  deriving DecidableEq, Repr, Inhabited

/-- TimeSeriesPoint of graphql_client.go. -/
structure TimeSeriesPoint where
  Date : String
  Value : Float64
  deriving DecidableEq, Repr, Inhabited

/-- The struct with the single field `TimeSeries`. -/
structure TimeSeriesT where
  TimeSeries : List TimeSeriesPoint
  deriving DecidableEq, Repr, Inhabited

/-- The `System` struct of PhysicalIngestTimeSeriesResponse. -/
structure PhysicalIngestTimeSeriesResponse.SystemT where
  PhysicalIngest : TimeSeriesT
  deriving DecidableEq, Repr, Inhabited

/-- PhysicalIngestTimeSeriesResponse of graphql_client.go. -/
structure PhysicalIngestTimeSeriesResponse where
  System : PhysicalIngestTimeSeriesResponse.SystemT
  deriving DecidableEq, Repr, Inhabited

/-- The `System` struct of ArchivalBandwidthTimeSeriesResponse. -/
structure ArchivalBandwidthTimeSeriesResponse.SystemT where
  ArchivalBandwidth : TimeSeriesT
  deriving DecidableEq, Repr, Inhabited

/-- ArchivalBandwidthTimeSeriesResponse of graphql_client.go. -/
structure ArchivalBandwidthTimeSeriesResponse where
  System : ArchivalBandwidthTimeSeriesResponse.SystemT
  deriving DecidableEq, Repr, Inhabited

/-- The `System` struct of RunwayRemainingResponse. -/
structure RunwayRemainingResponse.SystemT where
  RunwayRemaining : Int
  deriving DecidableEq, Repr, Inhabited

/-- RunwayRemainingResponse of graphql_client.go. -/
structure RunwayRemainingResponse where
  System : RunwayRemainingResponse.SystemT
  deriving DecidableEq, Repr, Inhabited

/-- The `System` struct of AverageStorageGrowthResponse. -/
structure AverageStorageGrowthResponse.SystemT where
  AverageStorageGrowthPerDay : Float64
  deriving DecidableEq, Repr, Inhabited

/-- AverageStorageGrowthResponse of graphql_client.go. -/
structure AverageStorageGrowthResponse where
  System : AverageStorageGrowthResponse.SystemT
  deriving DecidableEq, Repr, Inhabited

/-- The `Node` struct of ReportsResponse. -/
structure ReportsResponse.NodeT where
  ID : String
  Name : String
  ReportType : String
  Status : String
  deriving DecidableEq, Repr, Inhabited

/-- ReportsResponse of graphql_client.go. -/
structure ReportsResponse where
  Reports : Connection ReportsResponse.NodeT
  deriving DecidableEq, Repr, Inhabited

/-! ## The query documents (graphql_client.go), verbatim -/

def SystemStorageQuery : String :=
  "\n\tquery SystemStorage \x7b\n\t\tsystem \x7b\n\t\t\tstorage \x7b\n\t\t\t\ttotal\n\t\t\t\tused\n\t\t\t\tavailable\n\t\t\t\tsnapshot\n\t\t\t\tliveMount\n\t\t\t\tmiscellaneous\n\t\t\t\x7d\n\t\t\x7d\n\t\x7d"

def NodesQuery : String :=
  "\n\tquery Nodes \x7b\n\t\tnodes \x7b\n\t\t\tid\n\t\t\tname\n\t\t\tstatus\n\t\t\tipAddress\n\t\t\tcluster \x7b\n\t\t\t\tid\n\t\t\t\tname\n\t\t\t\x7d\n\t\t\x7d\n\t\x7d"

def VMwareVMsQuery : String :=
  "\n\tquery VMwareVMs \x7b\n\t\tvmwareVms \x7b\n\t\t\tedges \x7b\n\t\t\t\tnode \x7b\n\t\t\t\t\tid\n\t\t\t\t\tname\n\t\t\t\t\teffectiveSlaDomain \x7b\n\t\t\t\t\t\tid\n\t\t\t\t\t\tname\n\t\t\t\t\t\x7d\n\t\t\t\t\x7d\n\t\t\t\x7d\n\t\t\x7d\n\t\x7d"

def NutanixVMsQuery : String :=
  "\n\tquery NutanixVMs \x7b\n\t\tnutanixVms \x7b\n\t\t\tedges \x7b\n\t\t\t\tnode \x7b\n\t\t\t\t\tid\n\t\t\t\t\tname\n\t\t\t\t\teffectiveSlaDomain \x7b\n\t\t\t\t\t\tid\n\t\t\t\t\t\tname\n\t\t\t\t\t\x7d\n\t\t\t\t\x7d\n\t\t\t\x7d\n\t\t\x7d\n\t\x7d"

def HypervVMsQuery : String :=
  "\n\tquery HypervVMs \x7b\n\t\thypervVms \x7b\n\t\t\tedges \x7b\n\t\t\t\tnode \x7b\n\t\t\t\t\tid\n\t\t\t\t\tname\n\t\t\t\t\teffectiveSlaDomain \x7b\n\t\t\t\t\t\tid\n\t\t\t\t\t\tname\n\t\t\t\t\t\x7d\n\t\t\t\t\x7d\n\t\t\t\x7d\n\t\t\x7d\n\t\x7d"

def ArchiveLocationsQuery : String :=
  "\n\tquery ArchiveLocations \x7b\n\t\tarchiveLocations \x7b\n\t\t\tedges \x7b\n\t\t\t\tnode \x7b\n\t\t\t\t\tid\n\t\t\t\t\tname\n\t\t\t\t\tarchivalLocationType\n\t\t\t\t\tstatus\n\t\t\t\t\x7d\n\t\t\t\x7d\n\t\t\x7d\n\t\x7d"

def ManagedVolumesQuery : String :=
  "\n\tquery ManagedVolumes \x7b\n\t\tmanagedVolumes \x7b\n\t\t\tedges \x7b\n\t\t\t\tnode \x7b\n\t\t\t\t\tid\n\t\t\t\t\tname\n\t\t\t\t\tstate\n\t\t\t\t\tnumChannels\n\t\t\t\t\tconfiguredSlaDomainName\n\t\t\t\t\teffectiveSlaDomain \x7b\n\t\t\t\t\t\tid\n\t\t\t\t\t\tname\n\t\t\t\t\t\x7d\n\t\t\t\t\tprimaryClusterId\n\t\t\t\t\tusedSize\n\t\t\t\t\tslaAssignment\n\t\t\t\t\tconfiguredSlaDomainId\n\t\t\t\t\tisWritable\n\t\t\t\t\tvolumeSize\n\t\t\t\t\teffectiveSlaDomainName\n\t\t\t\t\tsnapshotCount\n\t\t\t\t\tpendingSnapshotCount\n\t\t\t\t\tisRelic\n\t\t\t\t\x7d\n\t\t\t\x7d\n\t\t\x7d\n\t\x7d"

def PerVMStorageQuery : String :=
  "\n\tquery PerVMStorage \x7b\n\t\tvmwareVms \x7b\n\t\t\tedges \x7b\n\t\t\t\tnode \x7b\n\t\t\t\t\tid\n\t\t\t\t\tname\n\t\t\t\t\tlogicalBytes\n\t\t\t\t\tingestedBytes\n\t\t\t\t\texclusivePhysicalBytes\n\t\t\t\t\tsharedPhysicalBytes\n\t\t\t\t\tindexStorageBytes\n\t\t\t\t\x7d\n\t\t\t\x7d\n\t\t\x7d\n\t\x7d"

def StreamsCountQuery : String :=
  "\n\tquery StreamsCount \x7b\n\t\tsystem \x7b\n\t\t\tstreams \x7b\n\t\t\t\tcount\n\t\t\t\x7d\n\t\t\x7d\n\t\x7d"

def DataLocationUsageQuery : String :=
  "\n\tquery DataLocationUsage \x7b\n\t\tarchiveLocations \x7b\n\t\t\tedges \x7b\n\t\t\t\tnode \x7b\n\t\t\t\t\tid\n\t\t\t\t\tname\n\t\t\t\t\tdataDownloaded\n\t\t\t\t\tdataArchived\n\t\t\t\t\tnumVMsArchived\n\t\t\t\t\tnumFilesetsArchived\n\t\t\t\t\tnumLinuxFilesetsArchived\n\t\t\t\t\tnumWindowsFilesetsArchived\n\t\t\t\t\tnumShareFilesetsArchived\n\t\t\t\t\tnumMssqlDbsArchived\n\t\t\t\t\tnumHypervVmsArchived\n\t\t\t\t\tnumNutanixVmsArchived\n\t\t\t\t\tnumManagedVolumesArchived\n\t\t\t\t\x7d\n\t\t\t\x7d\n\t\t\x7d\n\t\x7d"

def PhysicalIngestTimeSeriesQuery : String :=
  "\n\tquery PhysicalIngestTimeSeries($range: String!) \x7b\n\t\tsystem \x7b\n\t\t\tphysicalIngest \x7b\n\t\t\t\ttimeSeries(range: $range) \x7b\n\t\t\t\t\tdate\n\t\t\t\t\tvalue\n\t\t\t\t\x7d\n\t\t\t\x7d\n\t\t\x7d\n\t\x7d"

def ArchivalBandwidthTimeSeriesQuery : String :=
  "\n\tquery ArchivalBandwidthTimeSeries($range: String!) \x7b\n\t\tsystem \x7b\n\t\t\tarchivalBandwidth \x7b\n\t\t\t\ttimeSeries(range: $range) \x7b\n\t\t\t\t\tdate\n\t\t\t\t\tvalue\n\t\t\t\t\x7d\n\t\t\t\x7d\n\t\t\x7d\n\t\x7d"

def RunwayRemainingQuery : String :=
  "\n\tquery RunwayRemaining \x7b\n\t\tsystem \x7b\n\t\t\trunwayRemaining\n\t\t\x7d\n\t\x7d"

def AverageStorageGrowthQuery : String :=
  "\n\tquery AverageStorageGrowth \x7b\n\t\tsystem \x7b\n\t\t\taverageStorageGrowthPerDay\n\t\t\x7d\n\t\x7d"

def ReportsQuery : String :=
  "\n\tquery Reports \x7b\n\t\treports \x7b\n\t\t\tedges \x7b\n\t\t\t\tnode \x7b\n\t\t\t\t\tid\n\t\t\t\t\tname\n\t\t\t\t\treportType\n\t\t\t\t\tstatus\n\t\t\t\t\x7d\n\t\t\t\x7d\n\t\t\x7d\n\t\x7d"

/-! ## The world: appliance and libraries -/

/-- What `json.NewDecoder(body).Decode(&v)` (or `json.Unmarshal`) leaves behind for a zero-valued
target `v`: the target afterwards, and the error returned, if any. A failed decode may have
filled part of the target. -/
structure Decoded (α : Type) where
  value : α
  err : Option String

/-- One graph-query category as `client.Run` and `json.Marshal` see it: the decoded result of
running a request (or the error), and the JSON text of a result. -/
structure GraphKind (ρ : Type) where
  run : GraphRequest → Except String ρ
  marshal : ρ → String

/-- The appliance and the libraries, as functions of what the package hands them. -/
structure World where
  /-- The error of `http.NewRequest(method, url, body)`, if any. -/
  newRequest : String → String → Option String
  /-- The result of `netClient.Do(req)`: a transport error or the response. -/
  roundTrip : HttpRequest → Except String HttpResponse
  /-- The text of `url.Values.Encode()`. -/
  encode : Values → String
  /-- The Go conversion `int(f)` of a `float64`. -/
  intOfFloat : Float64 → Int
  /-- Go `strings.ToLower(s)`: the lower-casing of the standard library, over all of Unicode. -/
  toLower : String → String
  systemStorage : GraphKind SystemStorageResponse
  nodes : GraphKind NodesResponse
  vmwareVms : GraphKind VMwareVMsResponse
  nutanixVms : GraphKind NutanixVMsResponse
  hypervVms : GraphKind HypervVMsResponse
  archiveLocations : GraphKind ArchiveLocationsResponse
  managedVolumes : GraphKind ManagedVolumesResponse
  perVMStorage : GraphKind PerVMStorageResponse
  streamsCount : GraphKind StreamsCountResponse
  dataLocationUsage : GraphKind DataLocationUsageResponse
  physicalIngest : GraphKind PhysicalIngestTimeSeriesResponse
  archivalBandwidth : GraphKind ArchivalBandwidthTimeSeriesResponse
  runwayRemaining : GraphKind RunwayRemainingResponse
  averageStorageGrowth : GraphKind AverageStorageGrowthResponse
  reports : GraphKind ReportsResponse
  decodeOAuth2TokenResponse : String → Decoded OAuth2TokenResponse
  decodeSession : String → Decoded Session
  decodeNodeList : String → Decoded NodeList
  decodeVirtualMachineList : String → Decoded VirtualMachineList
  decodeManagedVolumeList : String → Decoded ManagedVolumeList
  decodeLocationList : String → Decoded LocationList
  decodeSystemStorage : String → Decoded SystemStorage
  decodeVmStorageList : String → Decoded VmStorageList
  decodeIntMap : String → Decoded (Map Int)
  decodeDataLocationUsageList : String → Decoded DataLocationUsageList
  decodeTimeStats : String → Decoded (Slice TimeStat)
  decodeReportList : String → Decoded ReportList
  decodeReportData : String → Decoded (List ReportData)

/-! ## graphql_client.go -/

/-- GraphQLClient of graphql_client.go; the wrapped `*graphql.Client` is the world. -/
structure GraphQLClient where
  endpoint : String
  token : String
  deriving DecidableEq, Repr

/-- NewGraphQLClient of graphql_client.go. -/
def NewGraphQLClient (endpoint token : String) : GraphQLClient :=
  { endpoint := endpoint, token := token }

/-- The request `ExecuteQuery` hands to `client.Run`. -/
def GraphQLClient.request (g : GraphQLClient) (query : String)
    (vars : List (String × String)) : GraphRequest :=
  { endpoint := g.endpoint, query := query,
    header := [("Authorization", "Bearer " ++ g.token)], vars := vars }

/-- GraphQLClient.ExecuteQuery of graphql_client.go. The result pointer is the `ok` value. -/
def GraphQLClient.ExecuteQuery {ρ : Type} (g : GraphQLClient) (kind : GraphKind ρ)
    (query : String) (vars : List (String × String)) : Run (Except String ρ) := do
  let req := g.request query vars
  logPrint "Executing GraphQL query (first 100 chars): %.100s"
  emit (.graphRun req)
  match kind.run req with
  | .error err =>
    logPrint "GraphQL query failed: %v"
    logPrint "GraphQL endpoint: %s"
    logPrint "Auth token present: %t"
    return .error err
  | .ok result =>
    let resultJSON := kind.marshal result
    if resultJSON.utf8ByteSize ≤ 2 then
      logPrint "GraphQL query succeeded but result is empty: %s"
    else
      logPrint "GraphQL query succeeded with data (size: %d bytes)"
    return .ok result

/-! ## rubrik_api.go -/

/-- Rubrik of rubrik_api.go. -/
structure Rubrik where
  url : String
  username : String
  password : String
  serviceAccountClientID : String
  serviceAccountClientSecret : String
  sessionToken : String
  isLoggedIn : Bool
  graphqlClient : Option GraphQLClient
  deriving DecidableEq, Repr

/-- The request `makeRequest` hands to `netClient.Do`. -/
def Rubrik.restRequest (w : World) (r : Rubrik) (reqType action : String) (p : RequestParams) :
    HttpRequest :=
  { method := reqType, url := r.url ++ action ++ "?" ++ w.encode p.params, body := some p.body,
    header := [("Content-Type", "text/JSON"), ("Authorization", "Bearer " ++ r.sessionToken)],
    basicAuth := none }

/-- Rubrik.makeRequest of rubrik_api.go: the response and the error it returns. -/
def Rubrik.makeRequest (w : World) (r : Rubrik) (reqType action : String) (p : RequestParams) :
    Run (Option HttpResponse × Option String) := do
  emit (.makeRequest reqType action p)
  logPrint "Is logged in: %t"
  logPrint "Requested action: %s"
  let req := r.restRequest w reqType action p
  logPrint "Request full URL: %s"
  match w.newRequest reqType req.url with
  | some err => logFatal err
  | none =>
    emit (.httpDo req)
    match w.roundTrip req with
    | .error err => logFatal err
    | .ok resp =>
      if resp.StatusCode < 200 ∨ resp.StatusCode ≥ 300 then
        logPrint "API Error: HTTP %d from %s"
        logPrint "API Error Response: %s"
        return (none, some ("HTTP " ++ toString resp.StatusCode ++ ": " ++ action))
      else
        return (some resp, none)

/-! ## session.go -/

/-- The form values of the client-credentials grant: `values.Set(key, value)` for each entry
of the `data` map. -/
def Rubrik.tokenForm (r : Rubrik) : Values :=
  let data : List (String × String) :=
    [("grant_type", "client_credentials"), ("client_id", r.serviceAccountClientID),
     ("client_secret", r.serviceAccountClientSecret)]
  data.foldl (fun values kv => values.set kv.1 [kv.2]) (Map.mk [])

/-- The request of tryOAuth2ClientCredentials. -/
def Rubrik.tokenRequest (w : World) (r : Rubrik) : HttpRequest :=
  { method := "POST", url := r.url ++ "/api/client_token", body := some (w.encode r.tokenForm),
    header := [("Content-Type", "application/x-www-form-urlencoded")], basicAuth := none }

/-- The session request with HTTP Basic credentials. -/
def Rubrik.sessionRequest (r : Rubrik) (user pass : String) : HttpRequest :=
  { method := "POST", url := r.url ++ "/api/v1/session", body := none, header := [],
    basicAuth := some (user, pass) }

/-- Rubrik.tryOAuth2ClientCredentials of session.go: the client afterwards and the error. -/
def Rubrik.tryOAuth2ClientCredentials (w : World) (r : Rubrik) : Run (Rubrik × Option String) := do
  emit (.call "tryOAuth2ClientCredentials")
  let req := r.tokenRequest w
  match w.newRequest "POST" req.url with
  | some err => return (r, some err)
  | none =>
    emit (.httpDo req)
    match w.roundTrip req with
    | .error err => return (r, some err)
    | .ok resp =>
      if resp.StatusCode ≠ 200 then
        return (r, some ("Rubrik service account authentication failed: HTTP "
          ++ toString resp.StatusCode))
      else
        let tokenResp := w.decodeOAuth2TokenResponse resp.Body
        match tokenResp.err with
        | some err => return (r, some ("failed to decode token response: " ++ err))
        | none =>
          let r := { r with sessionToken := tokenResp.value.AccessToken, isLoggedIn := true }
          logPrint "Successfully authenticated with Rubrik service account (/api/client_token)"
          return (r, none)

/-- Rubrik.tryServiceAccountBasicAuth of session.go: the client afterwards and the error. -/
def Rubrik.tryServiceAccountBasicAuth (w : World) (r : Rubrik) : Run (Rubrik × Option String) := do
  emit (.call "tryServiceAccountBasicAuth")
  let req := r.sessionRequest r.serviceAccountClientID r.serviceAccountClientSecret
  match w.newRequest "POST" req.url with
  | some err => return (r, some err)
  | none =>
    emit (.httpDo req)
    match w.roundTrip req with
    | .error err => return (r, some err)
    | .ok resp =>
      if resp.StatusCode ≠ 200 then
        return (r, some ("service account basic auth failed: HTTP " ++ toString resp.StatusCode))
      else
        let s := w.decodeSession resp.Body
        match s.err with
        | some err => return (r, some ("failed to decode session response: " ++ err))
        | none =>
          let r := { r with sessionToken := s.value.Token, isLoggedIn := true }
          logPrint "Successfully authenticated with service account basic auth"
          return (r, none)

/-- Rubrik.loginWithServiceAccount of session.go. -/
def Rubrik.loginWithServiceAccount (w : World) (r : Rubrik) : Run (Rubrik × Option String) := do
  emit (.call "loginWithServiceAccount")
  let (r, err) ← r.tryOAuth2ClientCredentials w
  if err = none then
    return (r, none)
  else
    logPrint "OAuth2 client credentials failed, trying basic auth with service account credentials"
    r.tryServiceAccountBasicAuth w

/-- Rubrik.loginWithUsernamePassword of session.go. The status code is not read and the
decode error is dropped. -/
def Rubrik.loginWithUsernamePassword (w : World) (r : Rubrik) : Run (Rubrik × Option String) := do
  emit (.call "loginWithUsernamePassword")
  let req := r.sessionRequest r.username r.password
  match w.newRequest "POST" req.url with
  | some err => logFatal err
  | none =>
    emit (.httpDo req)
    match w.roundTrip req with
    | .error err => logFatal err
    | .ok resp =>
      let s := w.decodeSession resp.Body
      let r := { r with sessionToken := s.value.Token, isLoggedIn := true }
      return (r, none)

/-- Rubrik.Login of session.go. -/
def Rubrik.Login (w : World) (r : Rubrik) : Run (Rubrik × Option String) := do
  if r.serviceAccountClientID ≠ "" ∧ r.serviceAccountClientSecret ≠ "" then
    logPrint "Using service account authentication"
    r.loginWithServiceAccount w
  else
    logPrint "Using username/password authentication"
    r.loginWithUsernamePassword w

/-- Rubrik.Logout of session.go. -/
def Rubrik.Logout (w : World) (r : Rubrik) : Run Unit := do
  let _ ← r.makeRequest w "DELETE" "/api/v1/session" {}
  return ()

/-- NewRubrik of rubrik_api.go. The error returned by `Login` is dropped. -/
def NewRubrik (w : World) (url username password serviceAccountClientID
    serviceAccountClientSecret : String) : Run Rubrik := do
  logPrint "Create new API Instance"
  let session : Rubrik :=
    { url := url, username := username, password := password,
      serviceAccountClientID := serviceAccountClientID,
      serviceAccountClientSecret := serviceAccountClientSecret,
      sessionToken := "", isLoggedIn := false, graphqlClient := none }
  let (session, _) ← session.Login w
  let graphqlEndpoint := TrimSuffixSlash url ++ "/api/graphql"
  let session :=
    { session with graphqlClient := some (NewGraphQLClient graphqlEndpoint session.sessionToken) }
  logPrint "Session-Token: %s"
  logPrint "GraphQL endpoint: %s"
  return session

/-! ## node.go -/

/-- The struct literal of the conversion loop of GetNodes. -/
def nodeOfGraph (node : NodesResponse.NodeT) : Node :=
  { ID := node.ID, BrikID := node.Name, Status := node.Status, IPAddress := node.IPAddress,
    NeedsInspection := node.NeedsInspection }

/-- Rubrik.GetNodes of node.go. -/
def Rubrik.GetNodes (w : World) (r : Rubrik) : Run (Slice Node) := do
  if let some g := r.graphqlClient then
    match ← g.ExecuteQuery w.nodes NodesQuery [] with
    | .ok response =>
      let nodes := makeFilled nodeOfGraph response.Nodes
      return nodes
    | .error _ => logPrint "GraphQL GetNodes failed, falling back to REST: %v"
  let (resp, err) ← r.makeRequest w "GET" "/api/internal/node" {}
  match err, resp with
  | none, some resp =>
    let l := w.decodeNodeList resp.Body
    return l.value.Data
  | _, _ => return Slice.mk []

/-! ## virtual_machine.go -/

/-- The body of the conversion loop of ListVmwareVM, ListNutanixVM and ListHypervVM (the three
loops have the same text). -/
def vmOfEdge (edge : Edge VMNodeT) : VirtualMachine :=
  let slaID := match edge.Node.EffectiveSlaDomain with
    | some d => d.ID
    | none => ""
  { ID := edge.Node.ID, Name := edge.Node.Name, EffectiveSLADomainID := slaID }

/-- Rubrik.ListVmwareVM of virtual_machine.go. -/
def Rubrik.ListVmwareVM (w : World) (r : Rubrik) : Run (Slice VirtualMachine) := do
  if let some g := r.graphqlClient then
    match ← g.ExecuteQuery w.vmwareVms VMwareVMsQuery [] with
    | .ok response =>
      let vms := makeFilled vmOfEdge response.VmwareVms.Edges
      return vms
    | .error _ => logPrint "GraphQL ListVmwareVM failed, falling back to REST: %v"
  let (resp, err) ← r.makeRequest w "GET" "/api/v1/vmware/vm" {}
  match err, resp with
  | none, some resp =>
    let s := w.decodeVirtualMachineList resp.Body
    return s.value.Data
  | _, _ => return Slice.mk []

/-- Rubrik.ListNutanixVM of virtual_machine.go. -/
def Rubrik.ListNutanixVM (w : World) (r : Rubrik) : Run (Slice VirtualMachine) := do
  if let some g := r.graphqlClient then
    match ← g.ExecuteQuery w.nutanixVms NutanixVMsQuery [] with
    | .ok response =>
      let vms := makeFilled vmOfEdge response.NutanixVms.Edges
      return vms
    | .error _ => logPrint "GraphQL ListNutanixVM failed, falling back to REST: %v"
  let (resp, err) ← r.makeRequest w "GET" "/api/internal/nutanix/vm" {}
  match err, resp with
  | none, some resp =>
    let s := w.decodeVirtualMachineList resp.Body
    return s.value.Data
  | _, _ => return Slice.mk []

/-- Rubrik.ListHypervVM of virtual_machine.go. -/
def Rubrik.ListHypervVM (w : World) (r : Rubrik) : Run (Slice VirtualMachine) := do
  if let some g := r.graphqlClient then
    match ← g.ExecuteQuery w.hypervVms HypervVMsQuery [] with
    | .ok response =>
      let vms := makeFilled vmOfEdge response.HypervVms.Edges
      return vms
    | .error _ => logPrint "GraphQL ListHypervVM failed, falling back to REST: %v"
  let (resp, err) ← r.makeRequest w "GET" "/api/internal/hyperv/vm" {}
  match err, resp with
  | none, some resp =>
    let s := w.decodeVirtualMachineList resp.Body
    return s.value.Data
  | _, _ => return Slice.mk []

/-- Rubrik.ListAllVM of virtual_machine.go. -/
def Rubrik.ListAllVM (w : World) (r : Rubrik) : Run (Slice VirtualMachine) := do
  let list : Slice VirtualMachine := Slice.nil
  let list := list.append (← r.ListVmwareVM w)
  let list := list.append (← r.ListNutanixVM w)
  let list := list.append (← r.ListHypervVM w)
  return list

/-! ## managed_volume.go -/

/-- The body of the conversion loop of GetManagedVolumes. -/
def managedVolumeOfEdge (edge : Edge ManagedVolumesResponse.NodeT) : ManagedVolume :=
  let effectiveSlaID := match edge.Node.EffectiveSlaDomain with
    | some d => d.ID
    | none => ""
  { ID := edge.Node.ID, Name := edge.Node.Name, State := edge.Node.State,
    NumChannels := edge.Node.NumChannels,
    ConfiguredSLADomainName := edge.Node.ConfiguredSLADomainName,
    EffectiveSLADomainID := effectiveSlaID, PrimaryClusterID := edge.Node.PrimaryClusterID,
    UsedSize := edge.Node.UsedSize, SLAAssignment := edge.Node.SlaAssignment,
    ConfiguredSLADomainID := edge.Node.ConfiguredSLADomainID,
    IsWritable := edge.Node.IsWritable, VolumeSize := edge.Node.VolumeSize,
    EffectiveSLADomainName := edge.Node.EffectiveSLADomainName,
    SnapshotCount := edge.Node.SnapshotCount,
    PendingSnapshotCount := edge.Node.PendingSnapshotCount, IsRelic := edge.Node.IsRelic }

/-- Rubrik.GetManagedVolumes of managed_volume.go. -/
def Rubrik.GetManagedVolumes (w : World) (r : Rubrik) : Run (Slice ManagedVolume) := do
  if let some g := r.graphqlClient then
    match ← g.ExecuteQuery w.managedVolumes ManagedVolumesQuery [] with
    | .ok response =>
      let volumes := makeFilled managedVolumeOfEdge response.ManagedVolumes.Edges
      return volumes
    | .error _ => logPrint "GraphQL GetManagedVolumes failed, falling back to REST: %v"
  let (resp, err) ← r.makeRequest w "GET" "/api/internal/managed_volume" {}
  match err, resp with
  | none, some resp =>
    let l := w.decodeManagedVolumeList resp.Body
    return l.value.Data
  | _, _ => return Slice.mk []

/-! ## archive.go -/

/-- The struct literal of the conversion loop of GetArchiveLocations. -/
def locationOfEdge (edge : Edge ArchiveLocationsResponse.NodeT) : Location :=
  { ID := edge.Node.ID, Name := edge.Node.Name, LocationType := edge.Node.ArchivalLocationType,
    IsActive := decide (edge.Node.Status = "CONNECTED"), IPAddress := "", Bucket := "" }

/-- Rubrik.GetArchiveLocations of archive.go. -/
def Rubrik.GetArchiveLocations (w : World) (r : Rubrik) : Run (Slice Location) := do
  logPrint "GetArchiveLocations: Starting API call"
  if let some g := r.graphqlClient then
    logPrint "GetArchiveLocations: Trying GraphQL"
    match ← g.ExecuteQuery w.archiveLocations ArchiveLocationsQuery [] with
    | .ok response =>
      let locations := makeFilled locationOfEdge response.ArchiveLocations.Edges
      logPrint "GetArchiveLocations: GraphQL succeeded, found %d locations"
      return locations
    | .error _ => logPrint "GetArchiveLocations: GraphQL failed, falling back to REST: %v"
  else
    logPrint "GetArchiveLocations: GraphQL client not available, using REST"
  logPrint "GetArchiveLocations: Trying REST API"
  let (resp, err) ← r.makeRequest w "GET" "/api/internal/archive/location" {}
  match err, resp with
  | none, some resp =>
    let data := w.decodeLocationList resp.Body
    if data.err ≠ none then
      logPrint "GetArchiveLocations: Failed to decode REST response: %v"
      return Slice.mk []
    logPrint "GetArchiveLocations: REST succeeded, found %d locations"
    return data.value.Data
  | _, _ =>
    logPrint "GetArchiveLocations: REST API failed: %v"
    return Slice.mk []

/-! ## stat.go -/

/-- Rubrik.GetSystemStorage of stat.go. -/
def Rubrik.GetSystemStorage (w : World) (r : Rubrik) : Run SystemStorage := do
  logPrint "GetSystemStorage: Starting API call"
  if let some g := r.graphqlClient then
    logPrint "GetSystemStorage: Trying GraphQL"
    match ← g.ExecuteQuery w.systemStorage SystemStorageQuery [] with
    | .ok response =>
      logPrint "GetSystemStorage: GraphQL succeeded, total: %d, used: %d"
      return response.System.Storage
    | .error _ => logPrint "GraphQL GetSystemStorage failed, falling back to REST: %v"
  logPrint "GetSystemStorage: Falling back to REST API"
  let (resp, err) ← r.makeRequest w "GET" "/api/internal/stats/system_storage" {}
  match err, resp with
  | none, some resp =>
    let d := w.decodeSystemStorage resp.Body
    if d.err ≠ none then
      logPrint "GetSystemStorage: Failed to decode REST response: %v"
      return ⟨0, 0, 0, 0, 0, 0⟩
    logPrint "GetSystemStorage: REST succeeded, total: %d, used: %d"
    return d.value
  | _, _ =>
    logPrint "GetSystemStorage: REST API failed: %v"
    return ⟨0, 0, 0, 0, 0, 0⟩

/-- The struct literal of the conversion loop of GetPerVMStorage. -/
def vmStorageOfEdge (edge : Edge PerVMStorageResponse.NodeT) : VmStorage :=
  { ID := edge.Node.ID, Logicalbytes := edge.Node.LogicalBytes,
    IngestedBytes := edge.Node.IngestedBytes,
    ExclusivePhysicalBytes := edge.Node.ExclusivePhysicalBytes,
    SharedPhysicalBytes := edge.Node.SharedPhysicalBytes,
    IndexStorageBytes := edge.Node.IndexStorageBytes }

/-- Rubrik.GetPerVMStorage of stat.go. -/
def Rubrik.GetPerVMStorage (w : World) (r : Rubrik) : Run (Slice VmStorage) := do
  if let some g := r.graphqlClient then
    match ← g.ExecuteQuery w.perVMStorage PerVMStorageQuery [] with
    | .ok response =>
      let storages := makeFilled vmStorageOfEdge response.VmwareVms.Edges
      return storages
    | .error _ => logPrint "GraphQL GetPerVMStorage failed, falling back to REST: %v"
  let (resp, err) ← r.makeRequest w "GET" "/api/internal/stats/per_vm_storage" {}
  match err, resp with
  | none, some resp =>
    let d := w.decodeVmStorageList resp.Body
    return d.value.Data
  | _, _ => return Slice.mk []

/-- Rubrik.GetStreamCount of stat.go. -/
def Rubrik.GetStreamCount (w : World) (r : Rubrik) : Run Int := do
  logPrint "GetStreamCount: Starting API call"
  if let some g := r.graphqlClient then
    logPrint "GetStreamCount: Trying GraphQL"
    match ← g.ExecuteQuery w.streamsCount StreamsCountQuery [] with
    | .ok response =>
      logPrint "GetStreamCount: GraphQL succeeded, count: %d"
      return response.System.Streams.Count
    | .error _ => logPrint "GetStreamCount: GraphQL failed, falling back to REST: %v"
  else
    logPrint "GetStreamCount: GraphQL client not available, using REST"
  logPrint "GetStreamCount: Trying REST API"
  let (resp, err) ← r.makeRequest w "GET" "/api/internal/stats/streams/count" {}
  match err, resp with
  | none, some resp =>
    let data := w.decodeIntMap resp.Body
    let count := data.value.get "count"
    logPrint "GetStreamCount: REST succeeded, count: %d"
    return count
  | _, _ =>
    logPrint "GetStreamCount: REST API failed: %v"
    return 0

/-- The struct literal of the conversion loop of GetDataLocationUsage. -/
def dataLocationUsageOfEdge (edge : Edge DataLocationUsageResponse.NodeT) : DataLocationUsage :=
  { LocationID := edge.Node.ID, DataDownloaded := edge.Node.DataDownloaded,
    DataArchived := edge.Node.DataArchived, NumVMsArchived := edge.Node.NumVMsArchived,
    NumFilesetsArchived := edge.Node.NumFilesetsArchived,
    NumLinuxFilesetsArchived := edge.Node.NumLinuxFilesetsArchived,
    NumWindowsFilesetsArchived := edge.Node.NumWindowsFilesetsArchived,
    NumShareFilesetsArchived := edge.Node.NumShareFilesetsArchived,
    NumMssqlDbsArchived := edge.Node.NumMssqlDbsArchived,
    NumHypervVmsArchived := edge.Node.NumHypervVmsArchived,
    NumNutanixVmsArchived := edge.Node.NumNutanixVmsArchived,
    NumManagedVolumesArchived := edge.Node.NumManagedVolumesArchived }

/-- Rubrik.GetDataLocationUsage of stat.go. -/
def Rubrik.GetDataLocationUsage (w : World) (r : Rubrik) : Run (Slice DataLocationUsage) := do
  if let some g := r.graphqlClient then
    match ← g.ExecuteQuery w.dataLocationUsage DataLocationUsageQuery [] with
    | .ok response =>
      let usages := makeFilled dataLocationUsageOfEdge response.ArchiveLocations.Edges
      return usages
    | .error _ => logPrint "GraphQL GetDataLocationUsage failed, falling back to REST: %v"
  let (resp, err) ← r.makeRequest w "GET" "/api/internal/stats/data_location/usage" {}
  match err, resp with
  | none, some resp =>
    let data := w.decodeDataLocationUsageList resp.Body
    return data.value.Data
  | _, _ => return Slice.mk []

/-- The struct literal of the conversion loops of GetPhysicalIngest and GetArchivalBandwith. -/
def timeStatOfPoint (w : World) (point : TimeSeriesPoint) : TimeStat :=
  { Time := point.Date, Stat := w.intOfFloat point.Value }

/-- Rubrik.GetPhysicalIngest of stat.go. -/
def Rubrik.GetPhysicalIngest (w : World) (r : Rubrik) : Run (Slice TimeStat) := do
  if let some g := r.graphqlClient then
    let vars := [("range", "-10min")]
    match ← g.ExecuteQuery w.physicalIngest PhysicalIngestTimeSeriesQuery vars with
    | .ok response =>
      let stats := makeFilled (timeStatOfPoint w) response.System.PhysicalIngest.TimeSeries
      return stats
    | .error _ => logPrint "GraphQL GetPhysicalIngest failed, falling back to REST: %v"
  let (resp, err) ← r.makeRequest w "GET" "/api/internal/stats/physical_ingest/time_series"
    { params := Map.mk [("range", ["-10min"])] }
  match err, resp with
  | none, some resp =>
    let data := w.decodeTimeStats resp.Body
    return data.value
  | _, _ => return Slice.mk []

/-- Rubrik.GetArchivalBandwith of stat.go. -/
def Rubrik.GetArchivalBandwith (w : World) (r : Rubrik) (locationID timerange : String) :
    Run (Slice TimeStat) := do
  let timerange := if timerange = "" then "-1h" else timerange
  if let some g := r.graphqlClient then
    let vars := [("range", timerange)]
    match ← g.ExecuteQuery w.archivalBandwidth ArchivalBandwidthTimeSeriesQuery vars with
    | .ok response =>
      let stats := makeFilled (timeStatOfPoint w) response.System.ArchivalBandwidth.TimeSeries
      return stats
    | .error _ => logPrint "GraphQL GetArchivalBandwith failed, falling back to REST: %v"
  let (resp, err) ← r.makeRequest w "GET" "/api/internal/stats/archival/bandwidth/time_series"
    { params := Map.mk [("data_location_id", [locationID]), ("range", [timerange])] }
  match err, resp with
  | none, some resp =>
    let data := w.decodeTimeStats resp.Body
    return data.value
  | _, _ => return Slice.mk []

/-- Rubrik.GetRunawayRemaining of stat.go. -/
def Rubrik.GetRunawayRemaining (w : World) (r : Rubrik) : Run Int := do
  if let some g := r.graphqlClient then
    match ← g.ExecuteQuery w.runwayRemaining RunwayRemainingQuery [] with
    | .ok response => return response.System.RunwayRemaining
    | .error _ => logPrint "GraphQL GetRunawayRemaining failed, falling back to REST: %v"
  let (resp, err) ← r.makeRequest w "GET" "/api/internal/stats/runway_remaining" {}
  match err, resp with
  | none, some resp =>
    let data := w.decodeIntMap resp.Body
    return data.value.get "days"
  | _, _ => return 0

/-- Rubrik.GetAverageStorageGrowthPerDay of stat.go. -/
def Rubrik.GetAverageStorageGrowthPerDay (w : World) (r : Rubrik) : Run Int := do
  if let some g := r.graphqlClient then
    match ← g.ExecuteQuery w.averageStorageGrowth AverageStorageGrowthQuery [] with
    | .ok response => return w.intOfFloat response.System.AverageStorageGrowthPerDay
    | .error _ =>
      logPrint "GraphQL GetAverageStorageGrowthPerDay failed, falling back to REST: %v"
  let (resp, err) ← r.makeRequest w "GET" "/api/internal/stats/average_storage_growth_per_day" {}
  match err, resp with
  | none, some resp =>
    let data := w.decodeIntMap resp.Body
    return data.value.get "bytes"
  | _, _ => return 0

/-! ## report.go -/

/-- The struct literal of the conversion loop of GetReports. -/
def reportOfEdge (edge : Edge ReportsResponse.NodeT) : Report :=
  { ID := edge.Node.ID, Name := edge.Node.Name, ReportType := edge.Node.ReportType,
    UpdateStatus := edge.Node.Status, UpdateTime := "", ReportTemplate := "" }

/-- The REST parameters of GetReports: the assignment of the one-element list of `v` at key
`k`, for each entry `k`, `v` of `params`, starting from the empty `url.Values`. -/
def reportParams (params : Map String) : RequestParams :=
  { params := params.entries.foldl (fun vs kv => vs.set kv.1 [kv.2]) (Map.mk []) }

/-- Rubrik.GetReports of report.go. -/
def Rubrik.GetReports (w : World) (r : Rubrik) (params : Map String) : Run (Slice Report) := do
  if let some g := r.graphqlClient then
    match ← g.ExecuteQuery w.reports ReportsQuery [] with
    | .ok response =>
      let reports := makeFilled reportOfEdge response.Reports.Edges
      return reports
    | .error _ => logPrint "GraphQL GetReports failed, falling back to REST: %v"
  let _params := reportParams params
  let (resp, err) ← r.makeRequest w "GET" "/api/internal/report" _params
  match err, resp with
  | none, some resp =>
    let l := w.decodeReportList resp.Body
    return l.value.Data
  | _, _ => return Slice.mk []

/-- The loop of GetTaskDetails over the data columns of the first chart: a column with a data
point sets the entry at `strings.ToLower(c.Label)` to the value of its first data point.
`lower` is `strings.ToLower`. -/
def reduceColumns (lower : String → String) (result : Map Float64) :
    List ReportDataColumn → Map Float64
  | [] => result
  | c :: rest =>
    match c.DataPoints with
    | p :: _ => reduceColumns lower (result.set (lower c.Label) p.Value) rest
    | [] => reduceColumns lower result rest

/-- Rubrik.GetTaskDetails of report.go. -/
def Rubrik.GetTaskDetails (w : World) (r : Rubrik) : Run (Map Float64) := do
  let reports ← r.GetReports w
    (Map.mk [("type", "Canned"), ("report_template", "ProtectionTasksDetails")])
  let result : Map Float64 := Map.mk []
  match reports.toList with
  | [] => return result
  | report :: _ =>
    let _params : RequestParams := { params := Map.mk [("chart_id", ["chart0"])] }
    let _url := "/api/internal/report/" ++ report.ID ++ "/chart"
    let (resp, err) ← r.makeRequest w "GET" _url _params
    match err, resp with
    | none, some resp =>
      let data := w.decodeReportData resp.Body
      match data.value with
      | [] => return result
      | chart :: _ => return reduceColumns w.toLower result chart.DataColumns
    | _, _ => return result

/-! ## Sample worlds and clients -/

/-- The integer part of a `float64` given by its bit pattern, for values whose magnitude fits
an `int`: sign, exponent and fraction are taken apart and the fraction bits are dropped. -/
def Float64.truncate (f : Float64) : Int :=
  let sign := f.bits / 2 ^ 63 % 2
  let e := f.bits / 2 ^ 52 % 2 ^ 11
  let m := f.bits % 2 ^ 52
  let mag : Nat :=
    if e = 0 then 0
    else if e < 1075 then (2 ^ 52 + m) / 2 ^ (1075 - e)
    else (2 ^ 52 + m) * 2 ^ (e - 1075)
  if sign = 1 then -(mag : Int) else (mag : Int)

/-- A lower-casing for the sample worlds: the letters A to Z are mapped to a to z and every
other character is kept, which is what Go `strings.ToLower` does on ASCII text. -/
def lowerAscii (s : String) : String := String.mk (s.data.map Char.toLower)

/-- A rendering of `url.Values` for the sample worlds: `k=v` pairs joined by `&`, keys in
entry order, nothing escaped. -/
def plainEncode (v : Values) : String :=
  "&".intercalate (v.entries.map fun kv => "&".intercalate (kv.2.map fun x => kv.1 ++ "=" ++ x))

/-- A graph-query category that is down: every run fails. -/
def GraphKind.down {ρ : Type} : GraphKind ρ :=
  { run := fun _ => .error "graphql: server returned a non-200 status code: 404",
    marshal := fun _ => "null" }

/-- A graph-query category that answers every run with `result`. -/
def GraphKind.answers {ρ : Type} (result : ρ) : GraphKind ρ :=
  { run := fun _ => .ok result, marshal := fun _ => "\x7b\"data\":1\x7d" }

/-- A decoder that rejects every body. -/
def Decoded.rejects {α : Type} [Inhabited α] : String → Decoded α :=
  fun _ => { value := default, err := some "invalid character" }

/-- The world in which every graph-query category is down, every body is rejected, and HTTP
round trips are answered by `http`. -/
def worldOf (http : HttpRequest → Except String HttpResponse) : World :=
  { newRequest := fun _ _ => none,
    roundTrip := http,
    encode := plainEncode,
    intOfFloat := Float64.truncate,
    toLower := lowerAscii,
    systemStorage := GraphKind.down,
    nodes := GraphKind.down,
    vmwareVms := GraphKind.down,
    nutanixVms := GraphKind.down,
    hypervVms := GraphKind.down,
    archiveLocations := GraphKind.down,
    managedVolumes := GraphKind.down,
    perVMStorage := GraphKind.down,
    streamsCount := GraphKind.down,
    dataLocationUsage := GraphKind.down,
    physicalIngest := GraphKind.down,
    archivalBandwidth := GraphKind.down,
    runwayRemaining := GraphKind.down,
    averageStorageGrowth := GraphKind.down,
    reports := GraphKind.down,
    decodeOAuth2TokenResponse := Decoded.rejects,
    decodeSession := Decoded.rejects,
    decodeNodeList := Decoded.rejects,
    decodeVirtualMachineList := Decoded.rejects,
    decodeManagedVolumeList := Decoded.rejects,
    decodeLocationList := Decoded.rejects,
    decodeSystemStorage := Decoded.rejects,
    decodeVmStorageList := Decoded.rejects,
    decodeIntMap := Decoded.rejects,
    decodeDataLocationUsageList := Decoded.rejects,
    decodeTimeStats := Decoded.rejects,
    decodeReportList := Decoded.rejects,
    decodeReportData := Decoded.rejects }

/-- The appliance is unreachable: every round trip fails at transport level. -/
def unreachableWorld : World := worldOf fun _ => .error "dial tcp: connection refused"

/-- The appliance answers every HTTP request with status 503 and an error page. -/
def unavailableWorld : World :=
  worldOf fun _ => .ok { StatusCode := 503, Body := "<html>Service Unavailable</html>" }

/-- The graph-query client of the sample clients. -/
def sampleGraph : GraphQLClient := NewGraphQLClient "https://rubrik.local/api/graphql" "tok"

/-- A logged-in client with a graph-query client. -/
def sampleClient : Rubrik :=
  { url := "https://rubrik.local", username := "admin", password := "pw",
    serviceAccountClientID := "", serviceAccountClientSecret := "",
    sessionToken := "tok", isLoggedIn := true, graphqlClient := some sampleGraph }

/-- Two virtual-machine edges: the first with an SLA domain, the second without. -/
def sampleEdges : List (Edge VMNodeT) :=
  [ { Node := { ID := "vm-1", Name := "web",
                EffectiveSlaDomain := some { ID := "sla-9", Name := "Gold" } } },
    { Node := { ID := "vm-2", Name := "db", EffectiveSlaDomain := none } } ]

/-- A managed-volume edge without an SLA domain. -/
def sampleVolumeEdge : Edge ManagedVolumesResponse.NodeT :=
  { Node := { ID := "mv-1", Name := "oracle", State := "Exported", NumChannels := ⟨0⟩,
              ConfiguredSLADomainName := "", EffectiveSlaDomain := none, PrimaryClusterID := "c1",
              UsedSize := ⟨0⟩, SlaAssignment := "Direct", ConfiguredSLADomainID := "",
              IsWritable := "true", VolumeSize := ⟨0⟩, EffectiveSLADomainName := "",
              SnapshotCount := ⟨0⟩, PendingSnapshotCount := ⟨0⟩, IsRelic := "false" } }

/-- The graph-query endpoint answers every category; no HTTP round trip succeeds. -/
def graphWorld : World :=
  { unreachableWorld with
    nodes := GraphKind.answers
      { Nodes := [ { ID := "n1", Name := "brik-a", Status := "OK", IPAddress := "10.0.0.1",
                     NeedsInspection := false, Cluster := { ID := "c1", Name := "main" } } ] },
    vmwareVms := GraphKind.answers { VmwareVms := { Edges := sampleEdges } },
    nutanixVms := GraphKind.answers { NutanixVms := { Edges := [] } },
    hypervVms := GraphKind.answers { HypervVms := { Edges := sampleEdges } },
    managedVolumes := GraphKind.answers { ManagedVolumes := { Edges := [sampleVolumeEdge] } },
    archiveLocations := GraphKind.answers { ArchiveLocations := { Edges := [] } },
    systemStorage := GraphKind.answers { System := { Storage := ⟨100, 40, 60, 30, 5, 5⟩ } },
    perVMStorage := GraphKind.answers { VmwareVms := { Edges := [] } },
    streamsCount := GraphKind.answers { System := { Streams := { Count := 7 } } },
    dataLocationUsage := GraphKind.answers { ArchiveLocations := { Edges := [] } },
    physicalIngest := GraphKind.answers { System := { PhysicalIngest := { TimeSeries := [] } } },
    archivalBandwidth :=
      GraphKind.answers { System := { ArchivalBandwidth := { TimeSeries := [] } } },
    runwayRemaining := GraphKind.answers { System := { RunwayRemaining := 365 } },
    averageStorageGrowth :=
      GraphKind.answers { System := { AverageStorageGrowthPerDay := ⟨0⟩ } },
    reports := GraphKind.answers { Reports := { Edges := [] } } }

/-! ## Properties of runs -/

/-- The run returned `v` without a call of `makeRequest` and without an HTTP round trip. -/
def Run.ReturnsWithoutRest {α : Type} (m : Run α) (v : α) : Prop :=
  m.out = .ret v ∧ restCalls m.trace = [] ∧ httpCalls m.trace = []

/-- The protocol attempts of the run are, in this order, the graph-query run `q` and then one
`makeRequest` call, a GET of `action` with parameters `p`; the only HTTP round trip, made
when `http.NewRequest` accepts the URL, is the request of that call. -/
def Run.FellBackOnce {α : Type} (m : Run α) (w : World) (r : Rubrik) (q : GraphRequest)
    (action : String) (p : RequestParams) : Prop :=
  attempts m.trace = [.graph q, .rest "GET" action p] ∧
  httpCalls m.trace =
    if w.newRequest "GET" (r.restRequest w "GET" action p).url = none then
      [r.restRequest w "GET" action p]
    else []

/-! ## Statement vocabulary and further sample worlds -/

/-- The records `vms` copy the virtual-machine edges `edges`: as many records as edges, and the
record at each position has the ID and Name of the edge node at that position, and as
EffectiveSLADomainID the empty string when the edge has no SLA-domain sub-object (nil) and the
ID of the sub-object otherwise. -/
def VMEdgesCopied (edges : List (Edge VMNodeT)) (vms : List VirtualMachine) : Prop :=
  vms.length = edges.length ∧
  ∀ (i : Nat) (e : Edge VMNodeT), edges[i]? = some e →
    ∃ v, vms[i]? = some v ∧ v.ID = e.Node.ID ∧ v.Name = e.Node.Name ∧
      (e.Node.EffectiveSlaDomain = none → v.EffectiveSLADomainID = "") ∧
      (∀ d, e.Node.EffectiveSlaDomain = some d → v.EffectiveSLADomainID = d.ID)

/-- The records `vols` copy the managed-volume edges `edges`, in the sense of `VMEdgesCopied`. -/
def VolumeEdgesCopied (edges : List (Edge ManagedVolumesResponse.NodeT))
    (vols : List ManagedVolume) : Prop :=
  vols.length = edges.length ∧
  ∀ (i : Nat) (e : Edge ManagedVolumesResponse.NodeT), edges[i]? = some e →
    ∃ v, vols[i]? = some v ∧ v.ID = e.Node.ID ∧ v.Name = e.Node.Name ∧
      (e.Node.EffectiveSlaDomain = none → v.EffectiveSLADomainID = "") ∧
      (∀ d, e.Node.EffectiveSlaDomain = some d → v.EffectiveSLADomainID = d.ID)

/-- The entry that a column with at least one data point contributes to the job-outcome
mapping: its lower-cased label and the value of its first data point. -/
def columnEntry (lower : String → String) (c : ReportDataColumn) : String × Float64 :=
  (lower c.Label, match c.DataPoints with
    | p :: _ => p.Value
    | [] => default)

/-- The chart request of GetTaskDetails for the report `report`. -/
def Rubrik.chartRequest (w : World) (r : Rubrik) (report : Report) : HttpRequest :=
  r.restRequest w "GET" ("/api/internal/report/" ++ report.ID ++ "/chart")
    { params := Map.mk [("chart_id", ["chart0"])] }

/-- The filter GetTaskDetails passes to GetReports. -/
def taskReportFilter : Map String :=
  Map.mk [("type", "Canned"), ("report_template", "ProtectionTasksDetails")]

/-- The chart of the job-outcome example: columns succeeded, FAILED, Canceled with one data
point each. -/
def outcomeChart (v1 v2 v3 : Float64) : ReportData :=
  { ID := "chart0", Attribute := "TaskStatus", ChartType := "Donut", Name := "Tasks",
    Measure := "TaskCount",
    DataColumns :=
      [ { Label := "succeeded", DataPoints := [{ Measure := "TaskCount", Value := v1 }] },
        { Label := "FAILED", DataPoints := [{ Measure := "TaskCount", Value := v2 }] },
        { Label := "Canceled", DataPoints := [{ Measure := "TaskCount", Value := v3 }] } ] }

/-- The graph-query endpoint lists one report; every HTTP request is answered 200 with the
body `chart`, which decodes to the job-outcome example with values 3, 1 and 2 (as bit
patterns of 3.0, 1.0, 2.0). -/
def reportWorld : World :=
  { worldOf (fun _ => .ok { StatusCode := 200, Body := "chart" }) with
    reports := GraphKind.answers
      { Reports := { Edges := [ { Node := { ID := "rep-1", Name := "Protection Tasks Details",
                                            ReportType := "Canned", Status := "Ready" } } ] } },
    decodeReportData := fun _ =>
      { value := [outcomeChart ⟨0x4008000000000000⟩ ⟨0x3FF0000000000000⟩ ⟨0x4000000000000000⟩],
        err := none } }

/-- The graph-query endpoint lists one report; every HTTP round trip fails at transport
level. -/
def chartUnreachableWorld : World :=
  { unreachableWorld with reports := reportWorld.reports }

/-- One Hyper-V edge. -/
def sampleHypervEdge : Edge VMNodeT :=
  { Node := { ID := "vm-3", Name := "mail",
              EffectiveSlaDomain := some { ID := "sla-2", Name := "Silver" } } }

/-- The VMware family answers with the two sample edges, the Nutanix family fails on both
paths (graph-query endpoint down, REST answered 503), the Hyper-V family answers with one
edge. -/
def unionWorld : World :=
  { unavailableWorld with
    vmwareVms := GraphKind.answers { VmwareVms := { Edges := sampleEdges } },
    hypervVms := GraphKind.answers { HypervVms := { Edges := [sampleHypervEdge] } } }

/-- The appliance refuses every HTTP request with status 401; no body decodes. -/
def deniedWorld : World := worldOf fun _ => .ok { StatusCode := 401, Body := "Unauthorized" }

/-- The token endpoint answers 404; every other HTTP request is answered 200 with the body
`session`, which decodes to a session record with token `T-basic`. -/
def basicOnlyWorld : World :=
  { worldOf (fun q =>
      if q.url = "https://rubrik.local/api/client_token" then
        .ok { StatusCode := 404, Body := "Not Found" }
      else .ok { StatusCode := 200, Body := "session" }) with
    decodeSession := fun _ =>
      { value := { Id := "s-1", OrganizationId := "org", Token := "T-basic", UserId := "u-1" },
        err := none } }

/-- A client before login with both credential forms populated. -/
def bothFormsClient : Rubrik :=
  { url := "https://rubrik.local", username := "admin", password := "pw",
    serviceAccountClientID := "client-id", serviceAccountClientSecret := "client-secret",
    sessionToken := "", isLoggedIn := false, graphqlClient := none }

/-- A client before login with username and password only. -/
def passwordClient : Rubrik :=
  { url := "https://rubrik.local", username := "admin", password := "pw",
    serviceAccountClientID := "", serviceAccountClientSecret := "",
    sessionToken := "", isLoggedIn := false, graphqlClient := none }

/-- The REST request GET `action` with parameters `p` of client `r` fails by status: the
request is built, the round trip is answered, and the status code is outside 200..299. -/
def World.RestFailsByStatus (w : World) (r : Rubrik) (action : String) (p : RequestParams) :
    Prop :=
  w.newRequest "GET" (r.restRequest w "GET" action p).url = none ∧
  ∃ resp, w.roundTrip (r.restRequest w "GET" action p) = .ok resp ∧
    (resp.StatusCode < 200 ∨ resp.StatusCode ≥ 300)

/-- The REST request GET `action` with parameters `p` of client `r` is answered with the 2xx
response `resp`: the request is built and the round trip returns `resp`. -/
def World.RestAnswers (w : World) (r : Rubrik) (action : String) (p : RequestParams)
    (resp : HttpResponse) : Prop :=
  w.newRequest "GET" (r.restRequest w "GET" action p).url = none ∧
  w.roundTrip (r.restRequest w "GET" action p) = .ok resp ∧
  200 ≤ resp.StatusCode ∧ resp.StatusCode < 300

/-- The node the sample REST bodies carry. -/
def sampleNode : Node :=
  { ID := "n1", BrikID := "brik-a", Status := "OK", IPAddress := "10.0.0.1",
    NeedsInspection := false }

/-- The archive location the sample REST bodies carry. -/
def sampleLocation : Location :=
  { ID := "loc-1", Name := "s3-eu", LocationType := "S3", IsActive := true,
    IPAddress := "", Bucket := "backups" }

/-- The graph-query endpoint is down; every HTTP request is answered 200 with a body in which
one field has the wrong JSON type. Each decoder returns the type error and leaves behind what
it could decode: one node, one location, the count 5, a total of 100. -/
def partialBodyWorld : World :=
  { worldOf (fun _ => .ok { StatusCode := 200, Body := "one field of the wrong type" }) with
    decodeNodeList := fun _ =>
      { value := { Data := Slice.mk [sampleNode] },
        err := some "json: cannot unmarshal string into Go struct field of type bool" },
    decodeLocationList := fun _ =>
      { value := { Data := Slice.mk [sampleLocation] },
        err := some "json: cannot unmarshal string into Go struct field of type bool" },
    decodeIntMap := fun _ =>
      { value := Map.mk [("count", 5)],
        err := some "json: cannot unmarshal string into Go value of type int" },
    decodeSystemStorage := fun _ =>
      { value := ⟨100, 0, 0, 0, 0, 0⟩,
        err := some "json: cannot unmarshal string into Go struct field of type int" } }

/-- The graph-query endpoint is down; every HTTP request is answered 200 with a body that is
not JSON: every decoder returns an error and leaves its target at the zero value. -/
def garbageBodyWorld : World :=
  worldOf fun _ => .ok { StatusCode := 200, Body := "<html>maintenance</html>" }

/-- The graph-query endpoint is down; every HTTP request is answered 200 with a body that
decodes without error to two nodes, to one location, to two virtual machines. -/
def restListWorld : World :=
  { worldOf (fun _ => .ok { StatusCode := 200, Body := "list" }) with
    decodeNodeList := fun _ =>
      { value := { Data := Slice.mk [sampleNode, { sampleNode with ID := "n2" }] },
        err := none },
    decodeLocationList := fun _ =>
      { value := { Data := Slice.mk [sampleLocation] }, err := none },
    decodeVirtualMachineList := fun _ =>
      { value :=
          { Data := Slice.mk [{ ID := "vm-1", Name := "web", EffectiveSLADomainID := "sla-9" },
                              { ID := "vm-2", Name := "db", EffectiveSLADomainID := "" }] },
        err := none } }

/-- The graph-query endpoint lists two reports, a custom report first and the canned
protection-tasks report second; every HTTP request is answered 200 with a chart body that
decodes to the job-outcome example. -/
def mixedReportsWorld : World :=
  { reportWorld with
    reports := GraphKind.answers
      { Reports := { Edges :=
          [ { Node := { ID := "rep-7", Name := "Weekly Capacity", ReportType := "Custom",
                        Status := "Ready" } },
            { Node := { ID := "rep-1", Name := "Protection Tasks Details",
                        ReportType := "Canned", Status := "Ready" } } ] } } }

/-- Every HTTP request is answered with status `status` and a body that decodes without error,
as a token response, to the access token `T-oauth` and, as a session record, to the token
`T-basic`. -/
def tokenWorld (status : Int) : World :=
  { worldOf (fun _ => .ok { StatusCode := status, Body := "token" }) with
    decodeOAuth2TokenResponse := fun _ =>
      { value := { AccessToken := "T-oauth", TokenType := "Bearer", ExpiresIn := 3600,
                   Scope := "" },
        err := none },
    decodeSession := fun _ =>
      { value := { Id := "s-1", OrganizationId := "org", Token := "T-basic", UserId := "u-1" },
        err := none } }

/-- A client before login whose username and password are also its service-account client ID
and client secret, so that both Basic strategies send the same request. -/
def sameCredsClient : Rubrik :=
  { url := "https://rubrik.local", username := "svc", password := "s3cret",
    serviceAccountClientID := "svc", serviceAccountClientSecret := "s3cret",
    sessionToken := "", isLoggedIn := false, graphqlClient := none }

/-- A graph-query category that answers every run with `result`, whose JSON text is the empty
object, two bytes long. -/
def GraphKind.answersEmpty {ρ : Type} (result : ρ) : GraphKind ρ :=
  { run := fun _ => .ok result, marshal := fun _ => "\x7b\x7d" }

/-- The node query is answered with an empty result; no HTTP round trip succeeds. -/
def emptyResultWorld : World :=
  { unreachableWorld with nodes := GraphKind.answersEmpty { Nodes := [] } }

/-- The graph-query endpoint lists two archive locations, one with status CONNECTED and one
with status connected in lower case; no HTTP round trip succeeds. -/
def archiveWorld : World :=
  { unreachableWorld with
    archiveLocations := GraphKind.answers
      { ArchiveLocations := { Edges :=
          [ { Node := { ID := "loc-1", Name := "s3-eu", ArchivalLocationType := "S3",
                        Status := "CONNECTED" } },
            { Node := { ID := "loc-2", Name := "nfs-dr", ArchivalLocationType := "NFS",
                        Status := "connected" } } ] } } }

/-- The records `locs` are the transforms of the archive-location edges `edges`: as many
records as edges, and the record at each position has the ID, Name and LocationType of the
edge node at that position (its id, name and archivalLocationType), is active exactly when
the status of the edge node is the string CONNECTED, and has an empty IPAddress and Bucket. -/
def LocationEdgesCopied (edges : List (Edge ArchiveLocationsResponse.NodeT))
    (locs : List Location) : Prop :=
  locs.length = edges.length ∧
  ∀ (i : Nat) (e : Edge ArchiveLocationsResponse.NodeT), edges[i]? = some e →
    ∃ l, locs[i]? = some l ∧ l.ID = e.Node.ID ∧ l.Name = e.Node.Name ∧
      l.LocationType = e.Node.ArchivalLocationType ∧
      (l.IsActive = true ↔ e.Node.Status = "CONNECTED") ∧
      l.IPAddress = "" ∧ l.Bucket = ""

/-- The range that GetArchivalBandwith sends for the range expression `timerange` of its
caller. -/
def sentRange (timerange : String) : String := if timerange = "" then "-1h" else timerange

/-- One step of the loop of GetTaskDetails on the entry list of the mapping: a column with a
data point sets the entry at its lower-cased label, a column without one changes nothing. -/
def columnStep (lower : String → String) (es : List (String × Float64))
    (c : ReportDataColumn) : List (String × Float64) :=
  match c.DataPoints with
  | p :: _ => Map.setEntries (lower c.Label) p.Value es
  | [] => es

/-- A chart whose columns are, in order: Succeeded with the data point 3, FAILED without a data
point, succeeded with the data points 5 and 9, Canceled with the data point 2 (values as bit
patterns of 3.0, 5.0, 9.0, 2.0). -/
def duplicateColumnsChart : ReportData :=
  { ID := "chart0", Attribute := "TaskStatus", ChartType := "Donut", Name := "Tasks",
    Measure := "TaskCount",
    DataColumns :=
      [ { Label := "Succeeded",
          DataPoints := [{ Measure := "TaskCount", Value := ⟨0x4008000000000000⟩ }] },
        { Label := "FAILED", DataPoints := [] },
        { Label := "succeeded",
          DataPoints := [{ Measure := "TaskCount", Value := ⟨0x4014000000000000⟩ },
                         { Measure := "TaskCount", Value := ⟨0x4022000000000000⟩ }] },
        { Label := "Canceled",
          DataPoints := [{ Measure := "TaskCount", Value := ⟨0x4000000000000000⟩ }] } ] }

/-- The graph-query endpoint lists one report; every HTTP request is answered 200 with a chart
body that decodes to `duplicateColumnsChart`. -/
def duplicateColumnsWorld : World :=
  { reportWorld with
    decodeReportData := fun _ => { value := [duplicateColumnsChart], err := none } }

/-! ## The receiver threaded through the method bodies

The methods of the client once more, statement by statement, with the client they run on
handed from statement to statement and returned next to the result: an assignment `r.f = v`
in a body is `let r := { r with f := v }` here, and a call of a pointer-receiver method on
`r` hands back the client as that method left it. A value-receiver method (`func (r Rubrik)`,
as every retrieval operation is) runs on its own copy of the client of its caller; a call of
one inside another body drops the copy of the callee. -/

/-- NodeStat of node.go. The declarations of `NetworkStat`, `Iops` and `IoThroughput` are
outside the files at hand: they are the type parameters `N`, `I` and `T`. -/
structure NodeStat (N I T : Type) where
  ID : String
  BrikID : String
  Status : String
  IPAddress : String
  NeedsInspection : Bool
  NetworkStat : N
  Iops : I
  IOThroughput : T
  CPUStat : Slice TimeStat
  deriving Inhabited

/-- Rubrik.GetNodeStats of node.go. `decodeNodeStat` is the JSON decoder for a `NodeStat`
target; the zero values of the three parameter types are their `default`. -/
def Rubrik.GetNodeStats {N I T : Type} [Inhabited N] [Inhabited I] [Inhabited T] (w : World)
    (decodeNodeStat : String → Decoded (NodeStat N I T)) (r : Rubrik) (id : String) :
    Run (NodeStat N I T) := do
  let (resp, err) ← r.makeRequest w "GET" ("/api/internal/node/" ++ id ++ "/stats")
    { params := Map.mk [("range", ["-10min"])] }
  match err, resp with
  | none, some resp =>
    let result := decodeNodeStat resp.Body
    return result.value
  | _, _ => return default

/-- Rubrik.makeRequest of rubrik_api.go, with the receiver threaded: the body reads
`r.isLoggedIn`, `r.url` and `r.sessionToken`. -/
def Rubrik.makeRequestOn (w : World) (r : Rubrik) (reqType action : String) (p : RequestParams) :
    Run (Rubrik × Option HttpResponse × Option String) := do
  emit (.makeRequest reqType action p)
  logPrint "Is logged in: %t"
  logPrint "Requested action: %s"
  let req := r.restRequest w reqType action p
  logPrint "Request full URL: %s"
  match w.newRequest reqType req.url with
  | some err => logFatal err
  | none =>
    emit (.httpDo req)
    match w.roundTrip req with
    | .error err => logFatal err
    | .ok resp =>
      if resp.StatusCode < 200 ∨ resp.StatusCode ≥ 300 then
        logPrint "API Error: HTTP %d from %s"
        logPrint "API Error Response: %s"
        return (r, none, some ("HTTP " ++ toString resp.StatusCode ++ ": " ++ action))
      else
        return (r, some resp, none)

/-- Rubrik.Logout of session.go, with the receiver threaded. -/
def Rubrik.LogoutOn (w : World) (r : Rubrik) : Run (Rubrik × Unit) := do
  let (r, _) ← r.makeRequestOn w "DELETE" "/api/v1/session" {}
  return (r, ())

/-- Rubrik.GetNodes of node.go, with the receiver threaded. -/
def Rubrik.GetNodesOn (w : World) (r : Rubrik) : Run (Rubrik × Slice Node) := do
  if let some g := r.graphqlClient then
    match ← g.ExecuteQuery w.nodes NodesQuery [] with
    | .ok response =>
      let nodes := makeFilled nodeOfGraph response.Nodes
      return (r, nodes)
    | .error _ => logPrint "GraphQL GetNodes failed, falling back to REST: %v"
  let (r, resp, err) ← r.makeRequestOn w "GET" "/api/internal/node" {}
  match err, resp with
  | none, some resp =>
    let l := w.decodeNodeList resp.Body
    return (r, l.value.Data)
  | _, _ => return (r, Slice.mk [])

/-- Rubrik.ListVmwareVM of virtual_machine.go, with the receiver threaded. -/
def Rubrik.ListVmwareVMOn (w : World) (r : Rubrik) : Run (Rubrik × Slice VirtualMachine) := do
  if let some g := r.graphqlClient then
    match ← g.ExecuteQuery w.vmwareVms VMwareVMsQuery [] with
    | .ok response =>
      let vms := makeFilled vmOfEdge response.VmwareVms.Edges
      return (r, vms)
    | .error _ => logPrint "GraphQL ListVmwareVM failed, falling back to REST: %v"
  let (r, resp, err) ← r.makeRequestOn w "GET" "/api/v1/vmware/vm" {}
  match err, resp with
  | none, some resp =>
    let s := w.decodeVirtualMachineList resp.Body
    return (r, s.value.Data)
  | _, _ => return (r, Slice.mk [])

/-- Rubrik.ListNutanixVM of virtual_machine.go, with the receiver threaded. -/
def Rubrik.ListNutanixVMOn (w : World) (r : Rubrik) : Run (Rubrik × Slice VirtualMachine) := do
  if let some g := r.graphqlClient then
    match ← g.ExecuteQuery w.nutanixVms NutanixVMsQuery [] with
    | .ok response =>
      let vms := makeFilled vmOfEdge response.NutanixVms.Edges
      return (r, vms)
    | .error _ => logPrint "GraphQL ListNutanixVM failed, falling back to REST: %v"
  let (r, resp, err) ← r.makeRequestOn w "GET" "/api/internal/nutanix/vm" {}
  match err, resp with
  | none, some resp =>
    let s := w.decodeVirtualMachineList resp.Body
    return (r, s.value.Data)
  | _, _ => return (r, Slice.mk [])

/-- Rubrik.ListHypervVM of virtual_machine.go, with the receiver threaded. -/
def Rubrik.ListHypervVMOn (w : World) (r : Rubrik) : Run (Rubrik × Slice VirtualMachine) := do
  if let some g := r.graphqlClient then
    match ← g.ExecuteQuery w.hypervVms HypervVMsQuery [] with
    | .ok response =>
      let vms := makeFilled vmOfEdge response.HypervVms.Edges
      return (r, vms)
    | .error _ => logPrint "GraphQL ListHypervVM failed, falling back to REST: %v"
  let (r, resp, err) ← r.makeRequestOn w "GET" "/api/internal/hyperv/vm" {}
  match err, resp with
  | none, some resp =>
    let s := w.decodeVirtualMachineList resp.Body
    return (r, s.value.Data)
  | _, _ => return (r, Slice.mk [])

/-- Rubrik.GetManagedVolumes of managed_volume.go, with the receiver threaded. -/
def Rubrik.GetManagedVolumesOn (w : World) (r : Rubrik) : Run (Rubrik × Slice ManagedVolume) := do
  if let some g := r.graphqlClient then
    match ← g.ExecuteQuery w.managedVolumes ManagedVolumesQuery [] with
    | .ok response =>
      let volumes := makeFilled managedVolumeOfEdge response.ManagedVolumes.Edges
      return (r, volumes)
    | .error _ => logPrint "GraphQL GetManagedVolumes failed, falling back to REST: %v"
  let (r, resp, err) ← r.makeRequestOn w "GET" "/api/internal/managed_volume" {}
  match err, resp with
  | none, some resp =>
    let l := w.decodeManagedVolumeList resp.Body
    return (r, l.value.Data)
  | _, _ => return (r, Slice.mk [])

/-- Rubrik.GetArchiveLocations of archive.go, with the receiver threaded. -/
def Rubrik.GetArchiveLocationsOn (w : World) (r : Rubrik) : Run (Rubrik × Slice Location) := do
  logPrint "GetArchiveLocations: Starting API call"
  if let some g := r.graphqlClient then
    logPrint "GetArchiveLocations: Trying GraphQL"
    match ← g.ExecuteQuery w.archiveLocations ArchiveLocationsQuery [] with
    | .ok response =>
      let locations := makeFilled locationOfEdge response.ArchiveLocations.Edges
      logPrint "GetArchiveLocations: GraphQL succeeded, found %d locations"
      return (r, locations)
    | .error _ => logPrint "GetArchiveLocations: GraphQL failed, falling back to REST: %v"
  else
    logPrint "GetArchiveLocations: GraphQL client not available, using REST"
  logPrint "GetArchiveLocations: Trying REST API"
  let (r, resp, err) ← r.makeRequestOn w "GET" "/api/internal/archive/location" {}
  match err, resp with
  | none, some resp =>
    let data := w.decodeLocationList resp.Body
    if data.err ≠ none then
      logPrint "GetArchiveLocations: Failed to decode REST response: %v"
      return (r, Slice.mk [])
    logPrint "GetArchiveLocations: REST succeeded, found %d locations"
    return (r, data.value.Data)
  | _, _ =>
    logPrint "GetArchiveLocations: REST API failed: %v"
    return (r, Slice.mk [])

/-- Rubrik.GetSystemStorage of stat.go, with the receiver threaded. -/
def Rubrik.GetSystemStorageOn (w : World) (r : Rubrik) : Run (Rubrik × SystemStorage) := do
  logPrint "GetSystemStorage: Starting API call"
  if let some g := r.graphqlClient then
    logPrint "GetSystemStorage: Trying GraphQL"
    match ← g.ExecuteQuery w.systemStorage SystemStorageQuery [] with
    | .ok response =>
      logPrint "GetSystemStorage: GraphQL succeeded, total: %d, used: %d"
      return (r, response.System.Storage)
    | .error _ => logPrint "GraphQL GetSystemStorage failed, falling back to REST: %v"
  logPrint "GetSystemStorage: Falling back to REST API"
  let (r, resp, err) ← r.makeRequestOn w "GET" "/api/internal/stats/system_storage" {}
  match err, resp with
  | none, some resp =>
    let d := w.decodeSystemStorage resp.Body
    if d.err ≠ none then
      logPrint "GetSystemStorage: Failed to decode REST response: %v"
      return (r, ⟨0, 0, 0, 0, 0, 0⟩)
    logPrint "GetSystemStorage: REST succeeded, total: %d, used: %d"
    return (r, d.value)
  | _, _ =>
    logPrint "GetSystemStorage: REST API failed: %v"
    return (r, ⟨0, 0, 0, 0, 0, 0⟩)

/-- Rubrik.GetPerVMStorage of stat.go, with the receiver threaded. -/
def Rubrik.GetPerVMStorageOn (w : World) (r : Rubrik) : Run (Rubrik × Slice VmStorage) := do
  if let some g := r.graphqlClient then
    match ← g.ExecuteQuery w.perVMStorage PerVMStorageQuery [] with
    | .ok response =>
      let storages := makeFilled vmStorageOfEdge response.VmwareVms.Edges
      return (r, storages)
    | .error _ => logPrint "GraphQL GetPerVMStorage failed, falling back to REST: %v"
  let (r, resp, err) ← r.makeRequestOn w "GET" "/api/internal/stats/per_vm_storage" {}
  match err, resp with
  | none, some resp =>
    let d := w.decodeVmStorageList resp.Body
    return (r, d.value.Data)
  | _, _ => return (r, Slice.mk [])

/-- Rubrik.GetStreamCount of stat.go, with the receiver threaded. -/
def Rubrik.GetStreamCountOn (w : World) (r : Rubrik) : Run (Rubrik × Int) := do
  logPrint "GetStreamCount: Starting API call"
  if let some g := r.graphqlClient then
    logPrint "GetStreamCount: Trying GraphQL"
    match ← g.ExecuteQuery w.streamsCount StreamsCountQuery [] with
    | .ok response =>
      logPrint "GetStreamCount: GraphQL succeeded, count: %d"
      return (r, response.System.Streams.Count)
    | .error _ => logPrint "GetStreamCount: GraphQL failed, falling back to REST: %v"
  else
    logPrint "GetStreamCount: GraphQL client not available, using REST"
  logPrint "GetStreamCount: Trying REST API"
  let (r, resp, err) ← r.makeRequestOn w "GET" "/api/internal/stats/streams/count" {}
  match err, resp with
  | none, some resp =>
    let data := w.decodeIntMap resp.Body
    let count := data.value.get "count"
    logPrint "GetStreamCount: REST succeeded, count: %d"
    return (r, count)
  | _, _ =>
    logPrint "GetStreamCount: REST API failed: %v"
    return (r, 0)

/-- Rubrik.GetDataLocationUsage of stat.go, with the receiver threaded. -/
def Rubrik.GetDataLocationUsageOn (w : World) (r : Rubrik) :
    Run (Rubrik × Slice DataLocationUsage) := do
  if let some g := r.graphqlClient then
    match ← g.ExecuteQuery w.dataLocationUsage DataLocationUsageQuery [] with
    | .ok response =>
      let usages := makeFilled dataLocationUsageOfEdge response.ArchiveLocations.Edges
      return (r, usages)
    | .error _ => logPrint "GraphQL GetDataLocationUsage failed, falling back to REST: %v"
  let (r, resp, err) ← r.makeRequestOn w "GET" "/api/internal/stats/data_location/usage" {}
  match err, resp with
  | none, some resp =>
    let data := w.decodeDataLocationUsageList resp.Body
    return (r, data.value.Data)
  | _, _ => return (r, Slice.mk [])

/-- Rubrik.GetPhysicalIngest of stat.go, with the receiver threaded. -/
def Rubrik.GetPhysicalIngestOn (w : World) (r : Rubrik) : Run (Rubrik × Slice TimeStat) := do
  if let some g := r.graphqlClient then
    let vars := [("range", "-10min")]
    match ← g.ExecuteQuery w.physicalIngest PhysicalIngestTimeSeriesQuery vars with
    | .ok response =>
      let stats := makeFilled (timeStatOfPoint w) response.System.PhysicalIngest.TimeSeries
      return (r, stats)
    | .error _ => logPrint "GraphQL GetPhysicalIngest failed, falling back to REST: %v"
  let (r, resp, err) ← r.makeRequestOn w "GET" "/api/internal/stats/physical_ingest/time_series"
    { params := Map.mk [("range", ["-10min"])] }
  match err, resp with
  | none, some resp =>
    let data := w.decodeTimeStats resp.Body
    return (r, data.value)
  | _, _ => return (r, Slice.mk [])

/-- Rubrik.GetArchivalBandwith of stat.go, with the receiver threaded. -/
def Rubrik.GetArchivalBandwithOn (w : World) (r : Rubrik) (locationID timerange : String) :
    Run (Rubrik × Slice TimeStat) := do
  let timerange := if timerange = "" then "-1h" else timerange
  if let some g := r.graphqlClient then
    let vars := [("range", timerange)]
    match ← g.ExecuteQuery w.archivalBandwidth ArchivalBandwidthTimeSeriesQuery vars with
    | .ok response =>
      let stats := makeFilled (timeStatOfPoint w) response.System.ArchivalBandwidth.TimeSeries
      return (r, stats)
    | .error _ => logPrint "GraphQL GetArchivalBandwith failed, falling back to REST: %v"
  let (r, resp, err) ← r.makeRequestOn w "GET"
    "/api/internal/stats/archival/bandwidth/time_series"
    { params := Map.mk [("data_location_id", [locationID]), ("range", [timerange])] }
  match err, resp with
  | none, some resp =>
    let data := w.decodeTimeStats resp.Body
    return (r, data.value)
  | _, _ => return (r, Slice.mk [])

/-- Rubrik.GetRunawayRemaining of stat.go, with the receiver threaded. -/
def Rubrik.GetRunawayRemainingOn (w : World) (r : Rubrik) : Run (Rubrik × Int) := do
  if let some g := r.graphqlClient then
    match ← g.ExecuteQuery w.runwayRemaining RunwayRemainingQuery [] with
    | .ok response => return (r, response.System.RunwayRemaining)
    | .error _ => logPrint "GraphQL GetRunawayRemaining failed, falling back to REST: %v"
  let (r, resp, err) ← r.makeRequestOn w "GET" "/api/internal/stats/runway_remaining" {}
  match err, resp with
  | none, some resp =>
    let data := w.decodeIntMap resp.Body
    return (r, data.value.get "days")
  | _, _ => return (r, 0)

/-- Rubrik.GetAverageStorageGrowthPerDay of stat.go, with the receiver threaded. -/
def Rubrik.GetAverageStorageGrowthPerDayOn (w : World) (r : Rubrik) : Run (Rubrik × Int) := do
  if let some g := r.graphqlClient then
    match ← g.ExecuteQuery w.averageStorageGrowth AverageStorageGrowthQuery [] with
    | .ok response => return (r, w.intOfFloat response.System.AverageStorageGrowthPerDay)
    | .error _ =>
      logPrint "GraphQL GetAverageStorageGrowthPerDay failed, falling back to REST: %v"
  let (r, resp, err) ← r.makeRequestOn w "GET"
    "/api/internal/stats/average_storage_growth_per_day" {}
  match err, resp with
  | none, some resp =>
    let data := w.decodeIntMap resp.Body
    return (r, data.value.get "bytes")
  | _, _ => return (r, 0)

/-- Rubrik.GetReports of report.go, with the receiver threaded. -/
def Rubrik.GetReportsOn (w : World) (r : Rubrik) (params : Map String) :
    Run (Rubrik × Slice Report) := do
  if let some g := r.graphqlClient then
    match ← g.ExecuteQuery w.reports ReportsQuery [] with
    | .ok response =>
      let reports := makeFilled reportOfEdge response.Reports.Edges
      return (r, reports)
    | .error _ => logPrint "GraphQL GetReports failed, falling back to REST: %v"
  let _params := reportParams params
  let (r, resp, err) ← r.makeRequestOn w "GET" "/api/internal/report" _params
  match err, resp with
  | none, some resp =>
    let l := w.decodeReportList resp.Body
    return (r, l.value.Data)
  | _, _ => return (r, Slice.mk [])

/-- Rubrik.ListAllVM of virtual_machine.go, with the receiver threaded. -/
def Rubrik.ListAllVMOn (w : World) (r : Rubrik) : Run (Rubrik × Slice VirtualMachine) := do
  let list : Slice VirtualMachine := Slice.nil
  let list := list.append (← r.ListVmwareVMOn w).2
  let list := list.append (← r.ListNutanixVMOn w).2
  let list := list.append (← r.ListHypervVMOn w).2
  return (r, list)

/-- Rubrik.GetTaskDetails of report.go, with the receiver threaded. -/
def Rubrik.GetTaskDetailsOn (w : World) (r : Rubrik) : Run (Rubrik × Map Float64) := do
  let (_, reports) ← r.GetReportsOn w
    (Map.mk [("type", "Canned"), ("report_template", "ProtectionTasksDetails")])
  let result : Map Float64 := Map.mk []
  match reports.toList with
  | [] => return (r, result)
  | report :: _ =>
    let _params : RequestParams := { params := Map.mk [("chart_id", ["chart0"])] }
    let _url := "/api/internal/report/" ++ report.ID ++ "/chart"
    let (r, resp, err) ← r.makeRequestOn w "GET" _url _params
    match err, resp with
    | none, some resp =>
      let data := w.decodeReportData resp.Body
      match data.value with
      | [] => return (r, result)
      | chart :: _ => return (r, reduceColumns w.toLower result chart.DataColumns)
    | _, _ => return (r, result)

/-- Rubrik.GetNodeStats of node.go, with the receiver threaded. -/
def Rubrik.GetNodeStatsOn {N I T : Type} [Inhabited N] [Inhabited I] [Inhabited T] (w : World)
    (decodeNodeStat : String → Decoded (NodeStat N I T)) (r : Rubrik) (id : String) :
    Run (Rubrik × NodeStat N I T) := do
  let (r, resp, err) ← r.makeRequestOn w "GET" ("/api/internal/node/" ++ id ++ "/stats")
    { params := Map.mk [("range", ["-10min"])] }
  match err, resp with
  | none, some resp =>
    let result := decodeNodeStat resp.Body
    return (r, result.value)
  | _, _ => return (r, default)

/-- The run without the client it hands back: the result alone. -/
def Run.result {α : Type} (m : Run (Rubrik × α)) : Run α :=
  Run.bind m fun x => Pure.pure x.2

/-- The client `r2` is the client `r` up to session token and logged-in flag. -/
def Rubrik.SameButSession (r r2 : Rubrik) : Prop :=
  r2.url = r.url ∧ r2.username = r.username ∧ r2.password = r.password ∧
  r2.serviceAccountClientID = r.serviceAccountClientID ∧
  r2.serviceAccountClientSecret = r.serviceAccountClientSecret ∧
  r2.graphqlClient = r.graphqlClient

/-- Every HTTP request of the run carries the bearer token `token` in its Authorization
header. -/
def Run.SendsToken {α : Type} (m : Run α) (token : String) : Prop :=
  ∀ q ∈ httpCalls m.trace, ("Authorization", "Bearer " ++ token) ∈ q.header

/-- The run, when it returns, hands back the client `r`. -/
def Run.ReturnsClient {α : Type} (m : Run (Rubrik × α)) (r : Rubrik) : Prop :=
  ∀ r2 a, m.out = .ret (r2, a) → r2 = r

/-- The method body `body`, run on the client `r`, leaves the session as it was: when it
returns, the session token and the logged-in flag of the client it ran on are those of `r`;
and every HTTP request it sends carries the session token of `r`. -/
def Rubrik.SessionUntouchedBy {α : Type} (r : Rubrik) (body : Rubrik → Run (Rubrik × α)) :
    Prop :=
  (∀ r2 a, (body r).out = .ret (r2, a) →
    r2.sessionToken = r.sessionToken ∧ r2.isLoggedIn = r.isLoggedIn) ∧
  (body r).SendsToken r.sessionToken

/-- A method body that overwrites the session token of the client it runs on. -/
def overwritesToken (r : Rubrik) : Run (Rubrik × Unit) := do
  let r := { r with sessionToken := "" }
  return (r, ())

/-- The client that NewRubrik builds before it calls Login. -/
def initialClient (url username password serviceAccountClientID
    serviceAccountClientSecret : String) : Rubrik :=
  { url := url, username := username, password := password,
    serviceAccountClientID := serviceAccountClientID,
    serviceAccountClientSecret := serviceAccountClientSecret,
    sessionToken := "", isLoggedIn := false, graphqlClient := none }

/-- The client with the graph-query client that NewRubrik attaches to it: the endpoint is the
URL without a trailing slash followed by /api/graphql, the token is the session token. -/
def Rubrik.withGraphClient (r : Rubrik) (url : String) : Rubrik :=
  { r with
    graphqlClient :=
      some (NewGraphQLClient (TrimSuffixSlash url ++ "/api/graphql") r.sessionToken) }

/-- The VMware family answers with the two sample edges and the Hyper-V family with one edge;
the Nutanix family fails on both paths, its REST request at transport level (the appliance
refuses the connection). -/
def unionUnreachableWorld : World :=
  { unreachableWorld with
    vmwareVms := GraphKind.answers { VmwareVms := { Edges := sampleEdges } },
    hypervVms := GraphKind.answers { HypervVms := { Edges := [sampleHypervEdge] } } }

theorem Run.pure_def {α : Type} (a : α) : (Pure.pure a : Run α) = ⟨.ret a, []⟩ := rfl

theorem Run.bind_def {α β : Type} (m : Run α) (f : α → Run β) :
    (m >>= f) = Run.bind m f := rfl

theorem Run.bind_ret {α β : Type} (a : α) (tr : List Event) (f : α → Run β) :
    Run.bind ⟨.ret a, tr⟩ f = ⟨(f a).out, tr ++ (f a).trace⟩ := rfl

theorem Run.bind_exit {α β : Type} (c : Nat) (tr : List Event) (f : α → Run β) :
    Run.bind (⟨.exit c, tr⟩ : Run α) f = ⟨.exit c, tr⟩ := rfl

theorem rangeFill_append {α β : Type} (f : α → β) (xs : List α) :
    ∀ (pre junk : List β), xs.length ≤ junk.length →
      rangeFill f xs pre.length (pre ++ junk) = pre ++ xs.map f ++ junk.drop xs.length := by
  induction xs with
  | nil => intro pre junk _; simp [rangeFill]
  | cons x rest ih =>
    intro pre junk h
    cases junk with
    | nil => simp at h
    | cons j junk1 =>
      have hset : (pre ++ j :: junk1).set pre.length (f x) = (pre ++ [f x]) ++ junk1 := by
        rw [List.set_append_right _ _ (Nat.le_refl _)]
        simp
      have hlen : pre.length + 1 = (pre ++ [f x]).length := by simp
      rw [rangeFill, hset, hlen, ih (pre ++ [f x]) junk1 (by simpa using h)]
      simp

theorem makeFilled_eq_map {α β : Type} [Inhabited β] (f : α → β) (xs : List α) :
    makeFilled f xs = Slice.mk (xs.map f) := by
  unfold makeFilled
  have h := rangeFill_append f xs [] (List.replicate xs.length default) (by simp)
  simp only [List.length_nil, List.nil_append] at h
  rw [h]
  simp



/-- C1. For each of the fifteen fetch-with-fallback operations and every client that holds a
graph-query client: when the graph-query run of the operation returns no error, the operation
returns the transform of the graph-query result, `makeRequest` is never called and no HTTP
round trip is made. -/
theorem graph_success_skips_rest (w : World) (r : Rubrik) (g : GraphQLClient)
    (hg : r.graphqlClient = some g) :
    (∀ resp, w.nodes.run (g.request NodesQuery []) = .ok resp →
      (r.GetNodes w).ReturnsWithoutRest (Slice.mk (resp.Nodes.map nodeOfGraph))) ∧
    (∀ resp, w.vmwareVms.run (g.request VMwareVMsQuery []) = .ok resp →
      (r.ListVmwareVM w).ReturnsWithoutRest (Slice.mk (resp.VmwareVms.Edges.map vmOfEdge))) ∧
    (∀ resp, w.nutanixVms.run (g.request NutanixVMsQuery []) = .ok resp →
      (r.ListNutanixVM w).ReturnsWithoutRest (Slice.mk (resp.NutanixVms.Edges.map vmOfEdge))) ∧
    (∀ resp, w.hypervVms.run (g.request HypervVMsQuery []) = .ok resp →
      (r.ListHypervVM w).ReturnsWithoutRest (Slice.mk (resp.HypervVms.Edges.map vmOfEdge))) ∧
    (∀ resp, w.managedVolumes.run (g.request ManagedVolumesQuery []) = .ok resp →
      (r.GetManagedVolumes w).ReturnsWithoutRest
        (Slice.mk (resp.ManagedVolumes.Edges.map managedVolumeOfEdge))) ∧
    (∀ resp, w.archiveLocations.run (g.request ArchiveLocationsQuery []) = .ok resp →
      (r.GetArchiveLocations w).ReturnsWithoutRest
        (Slice.mk (resp.ArchiveLocations.Edges.map locationOfEdge))) ∧
    (∀ resp, w.systemStorage.run (g.request SystemStorageQuery []) = .ok resp →
      (r.GetSystemStorage w).ReturnsWithoutRest resp.System.Storage) ∧
    (∀ resp, w.perVMStorage.run (g.request PerVMStorageQuery []) = .ok resp →
      (r.GetPerVMStorage w).ReturnsWithoutRest
        (Slice.mk (resp.VmwareVms.Edges.map vmStorageOfEdge))) ∧
    (∀ resp, w.streamsCount.run (g.request StreamsCountQuery []) = .ok resp →
      (r.GetStreamCount w).ReturnsWithoutRest resp.System.Streams.Count) ∧
    (∀ resp, w.dataLocationUsage.run (g.request DataLocationUsageQuery []) = .ok resp →
      (r.GetDataLocationUsage w).ReturnsWithoutRest
        (Slice.mk (resp.ArchiveLocations.Edges.map dataLocationUsageOfEdge))) ∧
    (∀ resp,
      w.physicalIngest.run (g.request PhysicalIngestTimeSeriesQuery [("range", "-10min")])
        = .ok resp →
      (r.GetPhysicalIngest w).ReturnsWithoutRest
        (Slice.mk (resp.System.PhysicalIngest.TimeSeries.map (timeStatOfPoint w)))) ∧
    (∀ locationID timerange resp,
      w.archivalBandwidth.run (g.request ArchivalBandwidthTimeSeriesQuery
        [("range", if timerange = "" then "-1h" else timerange)]) = .ok resp →
      (r.GetArchivalBandwith w locationID timerange).ReturnsWithoutRest
        (Slice.mk (resp.System.ArchivalBandwidth.TimeSeries.map (timeStatOfPoint w)))) ∧
    (∀ resp, w.runwayRemaining.run (g.request RunwayRemainingQuery []) = .ok resp →
      (r.GetRunawayRemaining w).ReturnsWithoutRest resp.System.RunwayRemaining) ∧
    (∀ resp, w.averageStorageGrowth.run (g.request AverageStorageGrowthQuery []) = .ok resp →
      (r.GetAverageStorageGrowthPerDay w).ReturnsWithoutRest
        (w.intOfFloat resp.System.AverageStorageGrowthPerDay)) ∧
    (∀ params resp, w.reports.run (g.request ReportsQuery []) = .ok resp →
      (r.GetReports w params).ReturnsWithoutRest
        (Slice.mk (resp.Reports.Edges.map reportOfEdge))) := by
  refine ⟨?_, ?_, ?_, ?_, ?_, ?_, ?_, ?_, ?_, ?_, ?_, ?_, ?_, ?_, ?_⟩
  all_goals
    intros
    simp [Run.ReturnsWithoutRest, Rubrik.GetNodes, Rubrik.ListVmwareVM, Rubrik.ListNutanixVM,
      Rubrik.ListHypervVM, Rubrik.GetManagedVolumes, Rubrik.GetArchiveLocations,
      Rubrik.GetSystemStorage, Rubrik.GetPerVMStorage, Rubrik.GetStreamCount,
      Rubrik.GetDataLocationUsage, Rubrik.GetPhysicalIngest, Rubrik.GetArchivalBandwith,
      Rubrik.GetRunawayRemaining, Rubrik.GetAverageStorageGrowthPerDay, Rubrik.GetReports,
      hg, GraphQLClient.ExecuteQuery, Run.pure_def, Run.bind_def, Run.bind_ret, logPrint, emit,
      makeFilled_eq_map, *]
    split <;> simp [Run.bind_ret, restCalls, httpCalls]

/-- Witness of C1: with the graph-query endpoint answering, GetNodes and GetStreamCount of the
sample client return the transformed results and make no REST call. -/
theorem graph_success_skips_rest_witness :
    sampleClient.graphqlClient = some sampleGraph ∧
    (sampleClient.GetNodes graphWorld).ReturnsWithoutRest
      (Slice.mk [{ ID := "n1", BrikID := "brik-a", Status := "OK", IPAddress := "10.0.0.1",
                   NeedsInspection := false }]) ∧
    (sampleClient.GetStreamCount graphWorld).ReturnsWithoutRest 7 :=
  ⟨rfl, (graph_success_skips_rest graphWorld sampleClient sampleGraph rfl).1 _ rfl,
    (graph_success_skips_rest graphWorld sampleClient sampleGraph rfl).2.2.2.2.2.2.2.2.1 _ rfl⟩

/-- C2. For each of the fifteen fetch-with-fallback operations: whatever error the graph-query
run returns, the protocol attempts of the operation are the graph-query run and then exactly one
`makeRequest` call, a GET of the fixed REST path of the category; at most one HTTP round trip
is made, and it is the request of that call. -/
theorem graph_failure_falls_back_once (w : World) (r : Rubrik) (g : GraphQLClient)
    (hg : r.graphqlClient = some g) :
    (∀ e, w.nodes.run (g.request NodesQuery []) = .error e →
      (r.GetNodes w).FellBackOnce w r (g.request NodesQuery []) "/api/internal/node" {}) ∧
    (∀ e, w.vmwareVms.run (g.request VMwareVMsQuery []) = .error e →
      (r.ListVmwareVM w).FellBackOnce w r (g.request VMwareVMsQuery []) "/api/v1/vmware/vm" {}) ∧
    (∀ e, w.nutanixVms.run (g.request NutanixVMsQuery []) = .error e →
      (r.ListNutanixVM w).FellBackOnce w r (g.request NutanixVMsQuery [])
        "/api/internal/nutanix/vm" {}) ∧
    (∀ e, w.hypervVms.run (g.request HypervVMsQuery []) = .error e →
      (r.ListHypervVM w).FellBackOnce w r (g.request HypervVMsQuery [])
        "/api/internal/hyperv/vm" {}) ∧
    (∀ e, w.managedVolumes.run (g.request ManagedVolumesQuery []) = .error e →
      (r.GetManagedVolumes w).FellBackOnce w r (g.request ManagedVolumesQuery [])
        "/api/internal/managed_volume" {}) ∧
    (∀ e, w.archiveLocations.run (g.request ArchiveLocationsQuery []) = .error e →
      (r.GetArchiveLocations w).FellBackOnce w r (g.request ArchiveLocationsQuery [])
        "/api/internal/archive/location" {}) ∧
    (∀ e, w.systemStorage.run (g.request SystemStorageQuery []) = .error e →
      (r.GetSystemStorage w).FellBackOnce w r (g.request SystemStorageQuery [])
        "/api/internal/stats/system_storage" {}) ∧
    (∀ e, w.perVMStorage.run (g.request PerVMStorageQuery []) = .error e →
      (r.GetPerVMStorage w).FellBackOnce w r (g.request PerVMStorageQuery [])
        "/api/internal/stats/per_vm_storage" {}) ∧
    (∀ e, w.streamsCount.run (g.request StreamsCountQuery []) = .error e →
      (r.GetStreamCount w).FellBackOnce w r (g.request StreamsCountQuery [])
        "/api/internal/stats/streams/count" {}) ∧
    (∀ e, w.dataLocationUsage.run (g.request DataLocationUsageQuery []) = .error e →
      (r.GetDataLocationUsage w).FellBackOnce w r (g.request DataLocationUsageQuery [])
        "/api/internal/stats/data_location/usage" {}) ∧
    (∀ e,
      w.physicalIngest.run (g.request PhysicalIngestTimeSeriesQuery [("range", "-10min")])
        = .error e →
      (r.GetPhysicalIngest w).FellBackOnce w r
        (g.request PhysicalIngestTimeSeriesQuery [("range", "-10min")])
        "/api/internal/stats/physical_ingest/time_series"
        { params := Map.mk [("range", ["-10min"])] }) ∧
    (∀ locationID timerange e,
      w.archivalBandwidth.run (g.request ArchivalBandwidthTimeSeriesQuery
        [("range", if timerange = "" then "-1h" else timerange)]) = .error e →
      (r.GetArchivalBandwith w locationID timerange).FellBackOnce w r
        (g.request ArchivalBandwidthTimeSeriesQuery
          [("range", if timerange = "" then "-1h" else timerange)])
        "/api/internal/stats/archival/bandwidth/time_series"
        { params := Map.mk [("data_location_id", [locationID]),
                            ("range", [if timerange = "" then "-1h" else timerange])] }) ∧
    (∀ e, w.runwayRemaining.run (g.request RunwayRemainingQuery []) = .error e →
      (r.GetRunawayRemaining w).FellBackOnce w r (g.request RunwayRemainingQuery [])
        "/api/internal/stats/runway_remaining" {}) ∧
    (∀ e, w.averageStorageGrowth.run (g.request AverageStorageGrowthQuery []) = .error e →
      (r.GetAverageStorageGrowthPerDay w).FellBackOnce w r
        (g.request AverageStorageGrowthQuery [])
        "/api/internal/stats/average_storage_growth_per_day" {}) ∧
    (∀ params e, w.reports.run (g.request ReportsQuery []) = .error e →
      (r.GetReports w params).FellBackOnce w r (g.request ReportsQuery [])
        "/api/internal/report" (reportParams params)) := by
  refine ⟨?_, ?_, ?_, ?_, ?_, ?_, ?_, ?_, ?_, ?_, ?_, ?_, ?_, ?_, ?_⟩
  all_goals
    intros
    simp [Run.FellBackOnce, Rubrik.GetNodes, Rubrik.ListVmwareVM, Rubrik.ListNutanixVM,
      Rubrik.ListHypervVM, Rubrik.GetManagedVolumes, Rubrik.GetArchiveLocations,
      Rubrik.GetSystemStorage, Rubrik.GetPerVMStorage, Rubrik.GetStreamCount,
      Rubrik.GetDataLocationUsage, Rubrik.GetPhysicalIngest, Rubrik.GetArchivalBandwith,
      Rubrik.GetRunawayRemaining, Rubrik.GetAverageStorageGrowthPerDay, Rubrik.GetReports,
      hg, GraphQLClient.ExecuteQuery, Run.pure_def, Run.bind_def, Run.bind_ret, logPrint, emit,
      Rubrik.makeRequest, *]
    repeat' split
    all_goals simp_all [Run.bind_ret, Run.bind_exit, logFatal, attempts, httpCalls]
    all_goals constructor <;> split <;> simp [attempts, httpCalls]

/-- Witness of C2: with the graph-query endpoint down and the REST API answering 503, GetNodes
of the sample client runs the graph query and then one GET of /api/internal/node. -/
theorem graph_failure_falls_back_once_witness :
    sampleClient.graphqlClient = some sampleGraph ∧
    (sampleClient.GetNodes unavailableWorld).FellBackOnce unavailableWorld sampleClient
      (sampleGraph.request NodesQuery []) "/api/internal/node" {} :=
  ⟨rfl, (graph_failure_falls_back_once unavailableWorld sampleClient sampleGraph rfl).1 _ rfl⟩

/-- C3, at the failing input. The graph-query endpoint is down and the REST round trip fails at
transport level (connection refused): `makeRequest` ends the process through `log.Fatal`, so
none of the fifteen operations returns its empty list or zero value. -/
theorem double_failure_at_transport_level_exits :
    (sampleClient.GetNodes unreachableWorld).out = .exit 1 ∧
    (sampleClient.ListVmwareVM unreachableWorld).out = .exit 1 ∧
    (sampleClient.ListNutanixVM unreachableWorld).out = .exit 1 ∧
    (sampleClient.ListHypervVM unreachableWorld).out = .exit 1 ∧
    (sampleClient.GetManagedVolumes unreachableWorld).out = .exit 1 ∧
    (sampleClient.GetArchiveLocations unreachableWorld).out = .exit 1 ∧
    (sampleClient.GetSystemStorage unreachableWorld).out = .exit 1 ∧
    (sampleClient.GetPerVMStorage unreachableWorld).out = .exit 1 ∧
    (sampleClient.GetStreamCount unreachableWorld).out = .exit 1 ∧
    (sampleClient.GetDataLocationUsage unreachableWorld).out = .exit 1 ∧
    (sampleClient.GetPhysicalIngest unreachableWorld).out = .exit 1 ∧
    (sampleClient.GetArchivalBandwith unreachableWorld "loc-1" "-1h").out = .exit 1 ∧
    (sampleClient.GetRunawayRemaining unreachableWorld).out = .exit 1 ∧
    (sampleClient.GetAverageStorageGrowthPerDay unreachableWorld).out = .exit 1 ∧
    (sampleClient.GetReports unreachableWorld (Map.mk [])).out = .exit 1 := by
  decide

theorem vmEdgesCopied_map (edges : List (Edge VMNodeT)) :
    VMEdgesCopied edges (edges.map vmOfEdge) := by
  refine ⟨by simp, ?_⟩
  intro i e he
  refine ⟨vmOfEdge e, by simp [he], rfl, rfl, ?_, ?_⟩
  · intro h; simp [vmOfEdge, h]
  · intro d h; simp [vmOfEdge, h]

theorem volumeEdgesCopied_map (edges : List (Edge ManagedVolumesResponse.NodeT)) :
    VolumeEdgesCopied edges (edges.map managedVolumeOfEdge) := by
  refine ⟨by simp, ?_⟩
  intro i e he
  refine ⟨managedVolumeOfEdge e, by simp [he], rfl, rfl, ?_, ?_⟩
  · intro h; simp [managedVolumeOfEdge, h]
  · intro d h; simp [managedVolumeOfEdge, h]

/-- C4. When the graph-query run succeeds with N edges (any N, also 0), ListVmwareVM,
ListNutanixVM, ListHypervVM and GetManagedVolumes return (they do not fault) a non-nil slice of
exactly N records in edge order; the record at position i has the ID and Name of the node of
edge i, and its EffectiveSLADomainID is the empty string when the effectiveSlaDomain sub-object
of the edge is nil and the ID of the sub-object otherwise. -/
theorem graph_transform_copies_edges (w : World) (r : Rubrik) (g : GraphQLClient)
    (hg : r.graphqlClient = some g) :
    (∀ resp, w.vmwareVms.run (g.request VMwareVMsQuery []) = .ok resp →
      ∃ vms, (r.ListVmwareVM w).out = .ret (Slice.mk vms) ∧
        VMEdgesCopied resp.VmwareVms.Edges vms) ∧
    (∀ resp, w.nutanixVms.run (g.request NutanixVMsQuery []) = .ok resp →
      ∃ vms, (r.ListNutanixVM w).out = .ret (Slice.mk vms) ∧
        VMEdgesCopied resp.NutanixVms.Edges vms) ∧
    (∀ resp, w.hypervVms.run (g.request HypervVMsQuery []) = .ok resp →
      ∃ vms, (r.ListHypervVM w).out = .ret (Slice.mk vms) ∧
        VMEdgesCopied resp.HypervVms.Edges vms) ∧
    (∀ resp, w.managedVolumes.run (g.request ManagedVolumesQuery []) = .ok resp →
      ∃ vols, (r.GetManagedVolumes w).out = .ret (Slice.mk vols) ∧
        VolumeEdgesCopied resp.ManagedVolumes.Edges vols) := by
  refine ⟨?_, ?_, ?_, ?_⟩
  · intro resp h
    refine ⟨resp.VmwareVms.Edges.map vmOfEdge, ?_, vmEdgesCopied_map _⟩
    simp [Rubrik.ListVmwareVM, hg, GraphQLClient.ExecuteQuery, h, Run.pure_def, Run.bind_def,
      Run.bind_ret, logPrint, emit, makeFilled_eq_map]
    split <;> simp [Run.bind_ret]
  · intro resp h
    refine ⟨resp.NutanixVms.Edges.map vmOfEdge, ?_, vmEdgesCopied_map _⟩
    simp [Rubrik.ListNutanixVM, hg, GraphQLClient.ExecuteQuery, h, Run.pure_def, Run.bind_def,
      Run.bind_ret, logPrint, emit, makeFilled_eq_map]
    split <;> simp [Run.bind_ret]
  · intro resp h
    refine ⟨resp.HypervVms.Edges.map vmOfEdge, ?_, vmEdgesCopied_map _⟩
    simp [Rubrik.ListHypervVM, hg, GraphQLClient.ExecuteQuery, h, Run.pure_def, Run.bind_def,
      Run.bind_ret, logPrint, emit, makeFilled_eq_map]
    split <;> simp [Run.bind_ret]
  · intro resp h
    refine ⟨resp.ManagedVolumes.Edges.map managedVolumeOfEdge, ?_, volumeEdgesCopied_map _⟩
    simp [Rubrik.GetManagedVolumes, hg, GraphQLClient.ExecuteQuery, h, Run.pure_def,
      Run.bind_def, Run.bind_ret, logPrint, emit, makeFilled_eq_map]
    split <;> simp [Run.bind_ret]

/-- Witness of C4: the two sample edges, the second without an SLA domain, give two records
from ListVmwareVM, and the sample volume edge gives one record from GetManagedVolumes. -/
theorem graph_transform_copies_edges_witness :
    sampleClient.graphqlClient = some sampleGraph ∧
    (∃ vms, (sampleClient.ListVmwareVM graphWorld).out = .ret (Slice.mk vms) ∧
      VMEdgesCopied sampleEdges vms) ∧
    (∃ vols, (sampleClient.GetManagedVolumes graphWorld).out = .ret (Slice.mk vols) ∧
      VolumeEdgesCopied [sampleVolumeEdge] vols) :=
  ⟨rfl, (graph_transform_copies_edges graphWorld sampleClient sampleGraph rfl).1 _ rfl,
    (graph_transform_copies_edges graphWorld sampleClient sampleGraph rfl).2.2.2 _ rfl⟩

theorem Run.bind_out_ret {α β : Type} {m : Run α} {a : α} (f : α → Run β)
    (h : m.out = .ret a) : (Run.bind m f).out = (f a).out := by
  simp [Run.bind, h]

theorem Run.bind_trace_ret {α β : Type} {m : Run α} {a : α} (f : α → Run β)
    (h : m.out = .ret a) : (Run.bind m f).trace = m.trace ++ (f a).trace := by
  simp [Run.bind, h]

theorem Run.bind_out_exit {α β : Type} {m : Run α} {c : Nat} (f : α → Run β)
    (h : m.out = .exit c) : (Run.bind m f).out = .exit c := by
  simp [Run.bind, h]

theorem Run.bind_trace_exit {α β : Type} {m : Run α} {c : Nat} (f : α → Run β)
    (h : m.out = .exit c) : (Run.bind m f).trace = m.trace := by
  simp [Run.bind, h]

/-- A 2xx response is handed back by `makeRequest` with a nil error. -/
theorem makeRequest_out_ok (w : World) (r : Rubrik) (t a : String) (p : RequestParams)
    (resp : HttpResponse) (hnew : w.newRequest t (r.restRequest w t a p).url = none)
    (hrt : w.roundTrip (r.restRequest w t a p) = .ok resp)
    (hstatus : 200 ≤ resp.StatusCode ∧ resp.StatusCode < 300) :
    (r.makeRequest w t a p).out = .ret (some resp, none) := by
  have h1 : ¬ (resp.StatusCode < 200 ∨ resp.StatusCode ≥ 300) := by omega
  simp [Rubrik.makeRequest, Run.bind_def, Run.pure_def, Run.bind_ret, logPrint, emit, hnew, hrt, h1]

/-- A response outside 2xx makes `makeRequest` return a nil response and an error. -/
theorem makeRequest_out_status (w : World) (r : Rubrik) (t a : String) (p : RequestParams)
    (resp : HttpResponse) (hnew : w.newRequest t (r.restRequest w t a p).url = none)
    (hrt : w.roundTrip (r.restRequest w t a p) = .ok resp)
    (hstatus : resp.StatusCode < 200 ∨ resp.StatusCode ≥ 300) :
    (r.makeRequest w t a p).out =
      .ret (none, some ("HTTP " ++ toString resp.StatusCode ++ ": " ++ a)) := by
  simp [Rubrik.makeRequest, Run.bind_def, Run.pure_def, Run.bind_ret, logPrint, emit, hnew, hrt,
    hstatus]

/-- A transport error makes `makeRequest` end the process. -/
theorem makeRequest_out_transport (w : World) (r : Rubrik) (t a : String) (p : RequestParams)
    (err : String) (hnew : w.newRequest t (r.restRequest w t a p).url = none)
    (hrt : w.roundTrip (r.restRequest w t a p) = .error err) :
    (r.makeRequest w t a p).out = .exit 1 := by
  simp [Rubrik.makeRequest, Run.bind_def, Run.pure_def, Run.bind_ret, logPrint, emit, hnew, hrt,
    logFatal]

/-- Degrade-to-empty on a double failure by status: when the graph-query run returns an error
and the REST request is answered with a status outside 2xx, each of the fifteen operations
returns its empty non-nil list, or its zero value. -/
theorem double_failure_by_status_degrades (w : World) (r : Rubrik) (g : GraphQLClient)
    (hg : r.graphqlClient = some g) :
    (∀ e, w.nodes.run (g.request NodesQuery []) = .error e →
      w.RestFailsByStatus r "/api/internal/node" {} →
      (r.GetNodes w).out = .ret (Slice.mk [])) ∧
    (∀ e, w.vmwareVms.run (g.request VMwareVMsQuery []) = .error e →
      w.RestFailsByStatus r "/api/v1/vmware/vm" {} →
      (r.ListVmwareVM w).out = .ret (Slice.mk [])) ∧
    (∀ e, w.nutanixVms.run (g.request NutanixVMsQuery []) = .error e →
      w.RestFailsByStatus r "/api/internal/nutanix/vm" {} →
      (r.ListNutanixVM w).out = .ret (Slice.mk [])) ∧
    (∀ e, w.hypervVms.run (g.request HypervVMsQuery []) = .error e →
      w.RestFailsByStatus r "/api/internal/hyperv/vm" {} →
      (r.ListHypervVM w).out = .ret (Slice.mk [])) ∧
    (∀ e, w.managedVolumes.run (g.request ManagedVolumesQuery []) = .error e →
      w.RestFailsByStatus r "/api/internal/managed_volume" {} →
      (r.GetManagedVolumes w).out = .ret (Slice.mk [])) ∧
    (∀ e, w.archiveLocations.run (g.request ArchiveLocationsQuery []) = .error e →
      w.RestFailsByStatus r "/api/internal/archive/location" {} →
      (r.GetArchiveLocations w).out = .ret (Slice.mk [])) ∧
    (∀ e, w.systemStorage.run (g.request SystemStorageQuery []) = .error e →
      w.RestFailsByStatus r "/api/internal/stats/system_storage" {} →
      (r.GetSystemStorage w).out = .ret ⟨0, 0, 0, 0, 0, 0⟩) ∧
    (∀ e, w.perVMStorage.run (g.request PerVMStorageQuery []) = .error e →
      w.RestFailsByStatus r "/api/internal/stats/per_vm_storage" {} →
      (r.GetPerVMStorage w).out = .ret (Slice.mk [])) ∧
    (∀ e, w.streamsCount.run (g.request StreamsCountQuery []) = .error e →
      w.RestFailsByStatus r "/api/internal/stats/streams/count" {} →
      (r.GetStreamCount w).out = .ret 0) ∧
    (∀ e, w.dataLocationUsage.run (g.request DataLocationUsageQuery []) = .error e →
      w.RestFailsByStatus r "/api/internal/stats/data_location/usage" {} →
      (r.GetDataLocationUsage w).out = .ret (Slice.mk [])) ∧
    (∀ e,
      w.physicalIngest.run (g.request PhysicalIngestTimeSeriesQuery [("range", "-10min")])
        = .error e →
      w.RestFailsByStatus r "/api/internal/stats/physical_ingest/time_series"
        { params := Map.mk [("range", ["-10min"])] } →
      (r.GetPhysicalIngest w).out = .ret (Slice.mk [])) ∧
    (∀ locationID timerange e,
      w.archivalBandwidth.run (g.request ArchivalBandwidthTimeSeriesQuery
        [("range", if timerange = "" then "-1h" else timerange)]) = .error e →
      w.RestFailsByStatus r "/api/internal/stats/archival/bandwidth/time_series"
        { params := Map.mk [("data_location_id", [locationID]),
                            ("range", [if timerange = "" then "-1h" else timerange])] } →
      (r.GetArchivalBandwith w locationID timerange).out = .ret (Slice.mk [])) ∧
    (∀ e, w.runwayRemaining.run (g.request RunwayRemainingQuery []) = .error e →
      w.RestFailsByStatus r "/api/internal/stats/runway_remaining" {} →
      (r.GetRunawayRemaining w).out = .ret 0) ∧
    (∀ e, w.averageStorageGrowth.run (g.request AverageStorageGrowthQuery []) = .error e →
      w.RestFailsByStatus r "/api/internal/stats/average_storage_growth_per_day" {} →
      (r.GetAverageStorageGrowthPerDay w).out = .ret 0) ∧
    (∀ params e, w.reports.run (g.request ReportsQuery []) = .error e →
      w.RestFailsByStatus r "/api/internal/report" (reportParams params) →
      (r.GetReports w params).out = .ret (Slice.mk [])) := by
  refine ⟨?_, ?_, ?_, ?_, ?_, ?_, ?_, ?_, ?_, ?_, ?_, ?_, ?_, ?_, ?_⟩
  all_goals
    intros
    rename_i hrest
    obtain ⟨hnew, resp, hrt, hstatus⟩ := hrest
    have hmk := makeRequest_out_status w r "GET" _ _ resp hnew hrt hstatus
    simp [Rubrik.GetNodes, Rubrik.ListVmwareVM, Rubrik.ListNutanixVM,
      Rubrik.ListHypervVM, Rubrik.GetManagedVolumes, Rubrik.GetArchiveLocations,
      Rubrik.GetSystemStorage, Rubrik.GetPerVMStorage, Rubrik.GetStreamCount,
      Rubrik.GetDataLocationUsage, Rubrik.GetPhysicalIngest, Rubrik.GetArchivalBandwith,
      Rubrik.GetRunawayRemaining, Rubrik.GetAverageStorageGrowthPerDay, Rubrik.GetReports,
      hg, GraphQLClient.ExecuteQuery, Run.pure_def, Run.bind_def, Run.bind_ret, logPrint, emit,
      *]
    simp [Run.bind, hmk]

theorem Map.setEntries_of_not_mem {V : Type} (k : String) (v : V) (es : List (String × V))
    (h : k ∉ es.map Prod.fst) : Map.setEntries k v es = es ++ [(k, v)] := by
  induction es with
  | nil => rfl
  | cons e rest ih =>
    obtain ⟨k0, v0⟩ := e
    simp only [List.map_cons, List.mem_cons, not_or] at h
    have hne : ¬ k0 = k := fun hh => h.1 hh.symm
    simp [Map.setEntries, hne, ih h.2]

theorem reduceColumns_distinct (lower : String → String) (cols : List ReportDataColumn) :
    ∀ (es : List (String × Float64)), (∀ c ∈ cols, c.DataPoints ≠ []) →
      (es.map Prod.fst ++ cols.map fun c => lower c.Label).Nodup →
      reduceColumns lower (Map.mk es) cols = Map.mk (es ++ cols.map (columnEntry lower)) := by
  induction cols with
  | nil => intro es _ _; simp [reduceColumns]
  | cons c rest ih =>
    intro es hp hd
    have hc : c.DataPoints ≠ [] := hp c (List.mem_cons_self _ _)
    cases hdp : c.DataPoints with
    | nil => exact absurd hdp hc
    | cons p ps =>
      have hnot : lower c.Label ∉ es.map Prod.fst := by
        intro hmem
        have := List.nodup_append.mp hd
        exact this.2.2 hmem (by simp)
      have hset : (Map.mk es).set (lower c.Label) p.Value
          = Map.mk (es ++ [(lower c.Label, p.Value)]) := by
        simp [Map.set, Map.entries, Map.setEntries_of_not_mem _ _ _ hnot]
      have hd2 : ((es ++ [(lower c.Label, p.Value)]).map Prod.fst
          ++ rest.map fun c => lower c.Label).Nodup := by
        simpa [List.append_assoc] using hd
      rw [reduceColumns, hdp]
      simp only
      rw [hset, ih _ (fun c hcm => hp c (List.mem_cons_of_mem _ hcm)) hd2]
      simp [columnEntry, hdp]

theorem lookup_of_mem_nodup {V : Type} (ps : List (String × V)) (k : String) (v : V)
    (hd : (ps.map Prod.fst).Nodup) (hm : (k, v) ∈ ps) : ps.lookup k = some v := by
  induction ps with
  | nil => simp at hm
  | cons q rest ih =>
    obtain ⟨k0, v0⟩ := q
    simp only [List.map_cons, List.nodup_cons] at hd
    rcases List.mem_cons.mp hm with heq | hin
    · cases heq
      simp [List.lookup]
    · have hne : k ≠ k0 := by
        intro hh
        subst hh
        exact hd.1 (List.mem_map_of_mem Prod.fst hin)
      have : (k == k0) = false := by simpa using hne
      simp [List.lookup, this, ih hd.2 hin]

/-- The run of GetTaskDetails once a report was retrieved and its chart request was answered
with a 2xx response whose body decodes to a list starting with `chart`. -/
theorem getTaskDetails_out_chart (w : World) (r : Rubrik) (reports : Slice Report)
    (report : Report) (others : List Report) (resp : HttpResponse) (chart : ReportData)
    (charts : List ReportData)
    (hreports : (r.GetReports w taskReportFilter).out = .ret reports)
    (hfirst : reports.toList = report :: others)
    (hnew : w.newRequest "GET" (r.chartRequest w report).url = none)
    (hrt : w.roundTrip (r.chartRequest w report) = .ok resp)
    (hstatus : 200 ≤ resp.StatusCode ∧ resp.StatusCode < 300)
    (hdata : (w.decodeReportData resp.Body).value = chart :: charts) :
    (r.GetTaskDetails w).out
      = .ret (reduceColumns w.toLower (Map.mk []) chart.DataColumns) := by
  have hmk := makeRequest_out_ok w r "GET" ("/api/internal/report/" ++ report.ID ++ "/chart")
    { params := Map.mk [("chart_id", ["chart0"])] } resp hnew hrt hstatus
  unfold Rubrik.GetTaskDetails
  simp only [Run.bind_def]
  rw [Run.bind_out_ret _ (by simpa [taskReportFilter] using hreports)]
  simp only [hfirst]
  rw [Run.bind_out_ret _ hmk]
  simp [hdata, Run.pure_def]

/-- C5. Job-outcome reduction. A report was retrieved, the chart request for it was answered
with a 2xx response, and the first chart of the decoded response has columns that all hold at
least one data point and whose lower-cased labels are pairwise distinct. Lower-casing is
`strings.ToLower` of the Go library, whatever it does to a label, non-ASCII letters included.
Then GetTaskDetails returns a mapping whose keys are exactly the lower-cased labels, with as
many entries as columns, and that maps the lower-cased label of each column to the value of
its first data point. In particular the columns succeeded, FAILED, Canceled with one data point
each, of value v1, v2, v3, give succeeded: v1, failed: v2, canceled: v3, given that
`strings.ToLower` takes these three labels to succeeded, failed, canceled. -/
theorem task_details_reduction (w : World) (r : Rubrik) (reports : Slice Report)
    (report : Report) (others : List Report) (resp : HttpResponse) (chart : ReportData)
    (charts : List ReportData)
    (hreports : (r.GetReports w taskReportFilter).out = .ret reports)
    (hfirst : reports.toList = report :: others)
    (hnew : w.newRequest "GET" (r.chartRequest w report).url = none)
    (hrt : w.roundTrip (r.chartRequest w report) = .ok resp)
    (hstatus : 200 ≤ resp.StatusCode ∧ resp.StatusCode < 300)
    (hdata : (w.decodeReportData resp.Body).value = chart :: charts)
    (hpoints : ∀ c ∈ chart.DataColumns, c.DataPoints ≠ [])
    (hdistinct : (chart.DataColumns.map fun c => w.toLower c.Label).Nodup) :
    ∃ m, (r.GetTaskDetails w).out = .ret m ∧
      (∀ k, k ∈ m.keys ↔ ∃ c ∈ chart.DataColumns, w.toLower c.Label = k) ∧
      m.len = chart.DataColumns.length ∧
      (∀ c ∈ chart.DataColumns, ∀ p ps, c.DataPoints = p :: ps →
        m.get? (w.toLower c.Label) = some p.Value) ∧
      (∀ l1 l2 l3 v1 v2 v3,
        chart.DataColumns =
          [ { Label := "succeeded", DataPoints := [{ Measure := l1, Value := v1 }] },
            { Label := "FAILED", DataPoints := [{ Measure := l2, Value := v2 }] },
            { Label := "Canceled", DataPoints := [{ Measure := l3, Value := v3 }] } ] →
        w.toLower "succeeded" = "succeeded" → w.toLower "FAILED" = "failed" →
        w.toLower "Canceled" = "canceled" →
        m = Map.mk [("succeeded", v1), ("failed", v2), ("canceled", v3)]) := by
  have hout := getTaskDetails_out_chart w r reports report others resp chart charts hreports
    hfirst hnew hrt hstatus hdata
  have hred := reduceColumns_distinct w.toLower chart.DataColumns [] hpoints (by simpa using hdistinct)
  simp only [List.nil_append] at hred
  refine ⟨Map.mk (chart.DataColumns.map (columnEntry w.toLower)), by rw [hout, hred], ?_, ?_, ?_, ?_⟩
  · intro k
    simp [Map.keys, Map.entries, columnEntry]
  · simp [Map.len, Map.entries]
  · intro c hc p ps hp
    have hm : (w.toLower c.Label, p.Value) ∈ chart.DataColumns.map (columnEntry w.toLower) := by
      refine List.mem_map.mpr ⟨c, hc, ?_⟩
      simp [columnEntry, hp]
    have hd : ((chart.DataColumns.map (columnEntry w.toLower)).map Prod.fst).Nodup := by
      simpa [List.map_map, Function.comp_def, columnEntry] using hdistinct
    exact lookup_of_mem_nodup _ _ _ hd hm
  · intro l1 l2 l3 v1 v2 v3 hcols h1 h2 h3
    rw [hcols]
    simp [columnEntry, h1, h2, h3]

/-- Witness of C5: the sample client against the world that lists one report and answers the
chart request with the columns succeeded, FAILED, Canceled of values 3, 1, 2. -/
theorem task_details_reduction_witness :
    ∃ m, (sampleClient.GetTaskDetails reportWorld).out = .ret m ∧
      m.len = 3 ∧
      m = Map.mk [("succeeded", ⟨0x4008000000000000⟩), ("failed", ⟨0x3FF0000000000000⟩),
                  ("canceled", ⟨0x4000000000000000⟩)] := by
  obtain ⟨m, hout, _, hlen, _, hex⟩ :=
    task_details_reduction reportWorld sampleClient
      (Slice.mk [{ ID := "rep-1", Name := "Protection Tasks Details", ReportType := "Canned",
                   UpdateStatus := "Ready", UpdateTime := "", ReportTemplate := "" }])
      _ [] { StatusCode := 200, Body := "chart" }
      (outcomeChart ⟨0x4008000000000000⟩ ⟨0x3FF0000000000000⟩ ⟨0x4000000000000000⟩) []
      (by decide) rfl (by decide) rfl (by decide) rfl (by decide) (by decide)
  exact ⟨m, hout, hlen, hex _ _ _ _ _ _ rfl (by decide) (by decide) (by decide)⟩

/-- The cases in which GetTaskDetails returns the empty, non-nil mapping: no report was
retrieved; `makeRequest` returned an error for the chart request; the decoded chart list is
empty; the first chart has no data columns. -/
theorem getTaskDetails_empty_cases (w : World) (r : Rubrik) (reports : Slice Report)
    (hreports : (r.GetReports w taskReportFilter).out = .ret reports) :
    (reports.toList = [] → (r.GetTaskDetails w).out = .ret (Map.mk [])) ∧
    (∀ report others e, reports.toList = report :: others →
      (r.makeRequest w "GET" ("/api/internal/report/" ++ report.ID ++ "/chart")
        { params := Map.mk [("chart_id", ["chart0"])] }).out = .ret (none, some e) →
      (r.GetTaskDetails w).out = .ret (Map.mk [])) ∧
    (∀ report others resp, reports.toList = report :: others →
      (r.makeRequest w "GET" ("/api/internal/report/" ++ report.ID ++ "/chart")
        { params := Map.mk [("chart_id", ["chart0"])] }).out = .ret (some resp, none) →
      ((w.decodeReportData resp.Body).value = [] ∨
        ∃ chart charts, (w.decodeReportData resp.Body).value = chart :: charts ∧
          chart.DataColumns = []) →
      (r.GetTaskDetails w).out = .ret (Map.mk [])) := by
  have hrep : (r.GetReports w
      (Map.mk [("type", "Canned"), ("report_template", "ProtectionTasksDetails")])).out
      = .ret reports := by simpa [taskReportFilter] using hreports
  refine ⟨?_, ?_, ?_⟩
  · intro hnil
    unfold Rubrik.GetTaskDetails
    simp only [Run.bind_def]
    rw [Run.bind_out_ret _ hrep]
    simp [hnil, Run.pure_def]
  · intro report others e hfirst hmk
    unfold Rubrik.GetTaskDetails
    simp only [Run.bind_def]
    rw [Run.bind_out_ret _ hrep]
    simp only [hfirst]
    rw [Run.bind_out_ret _ hmk]
    simp [Run.pure_def]
  · intro report others resp hfirst hmk hdata
    unfold Rubrik.GetTaskDetails
    simp only [Run.bind_def]
    rw [Run.bind_out_ret _ hrep]
    simp only [hfirst]
    rw [Run.bind_out_ret _ hmk]
    rcases hdata with hnil | ⟨chart, charts, hc, hcols⟩
    · simp [hnil, Run.pure_def]
    · simp [hc, hcols, Run.pure_def, reduceColumns]

/-- C6, at the failing input. A report is retrieved and the chart request fails at transport
level (connection refused): `makeRequest` ends the process through `log.Fatal` and
GetTaskDetails returns no mapping. When the chart request is answered 503 the empty non-nil
mapping is returned. -/
theorem task_details_chart_transport_failure_exits :
    (sampleClient.GetReports chartUnreachableWorld taskReportFilter).out =
      .ret (Slice.mk [{ ID := "rep-1", Name := "Protection Tasks Details",
                        ReportType := "Canned", UpdateStatus := "Ready", UpdateTime := "",
                        ReportTemplate := "" }]) ∧
    (sampleClient.GetTaskDetails chartUnreachableWorld).out = .exit 1 ∧
    (sampleClient.GetTaskDetails unavailableWorld).out = .ret (Map.mk []) := by
  decide

theorem Slice.toList_append {α : Type} (s t : Slice α) :
    (s.append t).toList = s.toList ++ t.toList := by
  unfold Slice.append
  cases h : t.toList with
  | nil => simp
  | cons y ys => simp [Slice.toList]

/-- Concatenation in ListAllVM. When the three family operations return, ListAllVM returns the
concatenation of the results of ListVmwareVM, ListNutanixVM and ListHypervVM, in this order;
its length is the sum of the three lengths, and when one family contributes the empty list the
result is the records of the other two, unchanged and in order. A family operation does not
return when its REST request fails at transport level. -/
theorem list_all_vm_concatenates (w : World) (r : Rubrik) (a b c : Slice VirtualMachine)
    (ha : (r.ListVmwareVM w).out = .ret a) (hb : (r.ListNutanixVM w).out = .ret b)
    (hc : (r.ListHypervVM w).out = .ret c) :
    ∃ all, (r.ListAllVM w).out = .ret all ∧
      all.toList = a.toList ++ b.toList ++ c.toList ∧
      all.len = a.len + b.len + c.len ∧
      (a.toList = [] → all.toList = b.toList ++ c.toList) ∧
      (b.toList = [] → all.toList = a.toList ++ c.toList) ∧
      (c.toList = [] → all.toList = a.toList ++ b.toList) := by
  have hall : (r.ListAllVM w).out = .ret (((Slice.nil.append a).append b).append c) := by
    unfold Rubrik.ListAllVM
    simp only [Run.bind_def]
    rw [Run.bind_out_ret _ ha, Run.bind_out_ret _ hb, Run.bind_out_ret _ hc]
    rfl
  have hl : (((Slice.nil.append a).append b).append c).toList
      = a.toList ++ b.toList ++ c.toList := by
    have hnil : (Slice.nil : Slice VirtualMachine).toList = [] := rfl
    simp only [Slice.toList_append, hnil, List.nil_append]
  refine ⟨_, hall, hl, ?_, ?_, ?_, ?_⟩
  · simp [Slice.len, hl, Nat.add_assoc]
  · intro h; rw [hl, h]; simp
  · intro h; rw [hl, h]; simp
  · intro h; rw [hl, h]; simp

/-- C7, at the failing input. The VMware family returns two records, the Hyper-V family
returns one, and the Nutanix family fails on both paths, its REST request at transport level
(connection refused). ListNutanixVM then contributes no empty list: `log.Fatal` in makeRequest
ends the process with status 1, and so ends ListAllVM, after the VMware records were
retrieved and before the Hyper-V family is asked (the graph queries run are those of the
VMware and the Nutanix family); no record of the other two families is returned. When the
REST request of the Nutanix family fails by status instead (503), ListNutanixVM returns the
empty list and ListAllVM the three records of the other two families, in order. -/
theorem list_all_vm_transport_failure_exits :
    (sampleClient.ListVmwareVM unionUnreachableWorld).out
      = .ret (Slice.mk [ { ID := "vm-1", Name := "web", EffectiveSLADomainID := "sla-9" },
                         { ID := "vm-2", Name := "db", EffectiveSLADomainID := "" } ]) ∧
    (sampleClient.ListHypervVM unionUnreachableWorld).out
      = .ret (Slice.mk [ { ID := "vm-3", Name := "mail", EffectiveSLADomainID := "sla-2" } ]) ∧
    (sampleClient.ListNutanixVM unionUnreachableWorld).out = .exit 1 ∧
    (sampleClient.ListAllVM unionUnreachableWorld).out = .exit 1 ∧
    (graphRuns (sampleClient.ListAllVM unionUnreachableWorld).trace).map (fun q => q.query)
      = [VMwareVMsQuery, NutanixVMsQuery] ∧
    (sampleClient.ListNutanixVM unionWorld).out = .ret (Slice.mk []) ∧
    (sampleClient.ListAllVM unionWorld).out
      = .ret (Slice.mk [ { ID := "vm-1", Name := "web", EffectiveSLADomainID := "sla-9" },
                         { ID := "vm-2", Name := "db", EffectiveSLADomainID := "" },
                         { ID := "vm-3", Name := "mail", EffectiveSLADomainID := "sla-2" } ]) := by
  refine ⟨by decide, by decide, by decide, by decide, by decide, by decide, by decide⟩

theorem calledFns_append (a b : List Event) :
    calledFns (a ++ b) = calledFns a ++ calledFns b := by
  induction a with
  | nil => rfl
  | cons e rest ih => cases e <;> simp [calledFns, ih]

theorem httpCalls_append (a b : List Event) :
    httpCalls (a ++ b) = httpCalls a ++ httpCalls b := by
  induction a with
  | nil => rfl
  | cons e rest ih => cases e <;> simp [httpCalls, ih]

/-- The OAuth2 step always returns, and enters no other strategy function. -/
theorem tryOAuth2_calledFns (w : World) (r : Rubrik) :
    calledFns (r.tryOAuth2ClientCredentials w).trace = ["tryOAuth2ClientCredentials"] := by
  simp [Rubrik.tryOAuth2ClientCredentials, Run.bind_def, Run.pure_def, Run.bind_ret, logPrint,
    emit]
  repeat' split
  all_goals simp_all [Run.bind_ret, calledFns]

/-- The only HTTP round trip of the OAuth2 step is the token request. -/
theorem tryOAuth2_httpCalls (w : World) (r : Rubrik) :
    ∀ q ∈ httpCalls (r.tryOAuth2ClientCredentials w).trace, q = r.tokenRequest w := by
  simp [Rubrik.tryOAuth2ClientCredentials, Run.bind_def, Run.pure_def, Run.bind_ret, logPrint,
    emit]
  repeat' split
  all_goals simp_all [Run.bind_ret, httpCalls]

/-- A failed OAuth2 step leaves the client as it was. -/
theorem tryOAuth2_failure_keeps (w : World) (r r1 : Rubrik) (e : String)
    (h : (r.tryOAuth2ClientCredentials w).out = .ret (r1, some e)) : r1 = r := by
  simp [Rubrik.tryOAuth2ClientCredentials, Run.bind_def, Run.pure_def, Run.bind_ret, logPrint,
    emit] at h
  repeat' split at h
  all_goals simp_all [Run.bind_ret]

/-- The OAuth2 step never ends the process. -/
theorem tryOAuth2_returns (w : World) (r : Rubrik) :
    ∃ res, (r.tryOAuth2ClientCredentials w).out = .ret res := by
  simp [Rubrik.tryOAuth2ClientCredentials, Run.bind_def, Run.pure_def, Run.bind_ret, logPrint,
    emit]
  repeat' split
  all_goals simp_all [Run.bind_ret]

theorem tryBasic_calledFns (w : World) (r : Rubrik) :
    calledFns (r.tryServiceAccountBasicAuth w).trace = ["tryServiceAccountBasicAuth"] := by
  simp [Rubrik.tryServiceAccountBasicAuth, Run.bind_def, Run.pure_def, Run.bind_ret, logPrint,
    emit]
  repeat' split
  all_goals simp_all [Run.bind_ret, calledFns]

theorem tryBasic_httpCalls (w : World) (r : Rubrik) :
    ∀ q ∈ httpCalls (r.tryServiceAccountBasicAuth w).trace,
      q = r.sessionRequest r.serviceAccountClientID r.serviceAccountClientSecret := by
  simp [Rubrik.tryServiceAccountBasicAuth, Run.bind_def, Run.pure_def, Run.bind_ret, logPrint,
    emit]
  repeat' split
  all_goals simp_all [Run.bind_ret, httpCalls]

/-- The Basic-auth step on a 200 response whose body decodes. -/
theorem tryBasic_out_ok (w : World) (r : Rubrik) (resp : HttpResponse)
    (hnew : w.newRequest "POST" (r.url ++ "/api/v1/session") = none)
    (hrt : w.roundTrip (r.sessionRequest r.serviceAccountClientID r.serviceAccountClientSecret)
      = .ok resp)
    (hstatus : resp.StatusCode = 200) (hdecode : (w.decodeSession resp.Body).err = none) :
    (r.tryServiceAccountBasicAuth w).out =
      .ret ({ r with sessionToken := (w.decodeSession resp.Body).value.Token,
                     isLoggedIn := true }, none) := by
  have hurl : (r.sessionRequest r.serviceAccountClientID r.serviceAccountClientSecret).url
      = r.url ++ "/api/v1/session" := rfl
  simp [Rubrik.tryServiceAccountBasicAuth, Run.bind_def, Run.pure_def, Run.bind_ret, logPrint,
    emit, hurl, hnew, hrt, hstatus, hdecode]

/-- The trace and outcome of the service-account strategy after a failed OAuth2 step. -/
theorem loginWithServiceAccount_after_failure (w : World) (r : Rubrik) (e : String)
    (hoauth : (r.tryOAuth2ClientCredentials w).out = .ret (r, some e)) :
    (r.loginWithServiceAccount w).out = (r.tryServiceAccountBasicAuth w).out ∧
    calledFns (r.loginWithServiceAccount w).trace =
      ["loginWithServiceAccount", "tryOAuth2ClientCredentials", "tryServiceAccountBasicAuth"] := by
  unfold Rubrik.loginWithServiceAccount
  simp only [Run.bind_def]
  constructor
  · rw [Run.bind_out_ret _ (rfl : (emit (.call "loginWithServiceAccount")).out = .ret ()),
      Run.bind_out_ret _ hoauth, if_neg (by simp),
      Run.bind_out_ret _ (rfl : (logPrint _).out = .ret ())]
  · rw [Run.bind_trace_ret _ (rfl : (emit (.call "loginWithServiceAccount")).out = .ret ()),
      Run.bind_trace_ret _ hoauth, if_neg (by simp),
      Run.bind_trace_ret _ (rfl : (logPrint _).out = .ret ())]
    rw [calledFns_append, calledFns_append, calledFns_append, tryOAuth2_calledFns,
      tryBasic_calledFns]
    rfl

/-- C9, at the failing inputs. Against an appliance that answers every request 401 with a body
that does not decode: with service-account credentials both sub-strategies fail and NewRubrik
still returns a client, with an empty session token; with username and password NewRubrik
returns a client with an empty session token and the logged-in flag set; and the returned
client serves a retrieval operation (GetNodes returns the empty list). -/
theorem new_rubrik_returns_client_after_auth_failure :
    (NewRubrik deniedWorld "https://rubrik.local" "" "" "client-id" "client-secret").out =
      .ret { url := "https://rubrik.local", username := "", password := "",
             serviceAccountClientID := "client-id",
             serviceAccountClientSecret := "client-secret",
             sessionToken := "", isLoggedIn := false,
             graphqlClient := some { endpoint := "https://rubrik.local/api/graphql",
                                     token := "" } } ∧
    (bothFormsClient.Login deniedWorld).out =
      .ret (bothFormsClient, some "service account basic auth failed: HTTP 401") ∧
    (NewRubrik deniedWorld "https://rubrik.local" "admin" "wrong" "" "").out =
      .ret { url := "https://rubrik.local", username := "admin", password := "wrong",
             serviceAccountClientID := "", serviceAccountClientSecret := "",
             sessionToken := "", isLoggedIn := true,
             graphqlClient := some { endpoint := "https://rubrik.local/api/graphql",
                                     token := "" } } ∧
    (Rubrik.GetNodes deniedWorld
      { url := "https://rubrik.local", username := "admin", password := "wrong",
        serviceAccountClientID := "", serviceAccountClientSecret := "",
        sessionToken := "", isLoggedIn := true,
        graphqlClient := some { endpoint := "https://rubrik.local/api/graphql",
                                token := "" } }).out = .ret (Slice.mk []) := by
  decide

theorem append_left_cancel_string (a b c : String) (h : a ++ b = a ++ c) : b = c := by
  have h1 : (a ++ b).data = (a ++ c).data := by rw [h]
  simp only [String.data_append] at h1
  exact String.ext (List.append_cancel_left h1)

/-- The session endpoint and the token endpoint are different URLs. -/
theorem session_url_ne_token_url (w : World) (r : Rubrik) (user pass : String) :
    (r.sessionRequest user pass).url ≠ (r.tokenRequest w).url := by
  intro h
  have h2 := append_left_cancel_string r.url "/api/v1/session" "/api/client_token" h
  exact absurd h2 (by decide)

theorem loginWithUsernamePassword_calledFns (w : World) (r : Rubrik) :
    calledFns (r.loginWithUsernamePassword w).trace = ["loginWithUsernamePassword"] := by
  simp [Rubrik.loginWithUsernamePassword, Run.bind_def, Run.pure_def, Run.bind_ret, logPrint,
    emit]
  repeat' split
  all_goals simp_all [Run.bind_ret, Run.bind_exit, logFatal, calledFns]

theorem loginWithUsernamePassword_httpCalls (w : World) (r : Rubrik) :
    ∀ q ∈ httpCalls (r.loginWithUsernamePassword w).trace,
      q = r.sessionRequest r.username r.password := by
  simp [Rubrik.loginWithUsernamePassword, Run.bind_def, Run.pure_def, Run.bind_ret, logPrint,
    emit]
  repeat' split
  all_goals simp_all [Run.bind_ret, Run.bind_exit, logFatal, httpCalls]

/-- The strategy functions entered by the service-account strategy: itself, then the OAuth2
step, then possibly the Basic-auth step; its HTTP round trips are the token request and the
session request with the service-account credentials. -/
theorem loginWithServiceAccount_trace (w : World) (r : Rubrik) :
    (calledFns (r.loginWithServiceAccount w).trace =
        ["loginWithServiceAccount", "tryOAuth2ClientCredentials"] ∨
      calledFns (r.loginWithServiceAccount w).trace =
        ["loginWithServiceAccount", "tryOAuth2ClientCredentials",
         "tryServiceAccountBasicAuth"]) ∧
    ∀ q ∈ httpCalls (r.loginWithServiceAccount w).trace,
      q = r.tokenRequest w ∨
      q = r.sessionRequest r.serviceAccountClientID r.serviceAccountClientSecret := by
  obtain ⟨⟨r1, err⟩, hres⟩ := tryOAuth2_returns w r
  have htrace : (r.loginWithServiceAccount w).trace =
      (emit (.call "loginWithServiceAccount")).trace ++
        ((r.tryOAuth2ClientCredentials w).trace ++
          (if err = none then (Pure.pure (r1, none) : Run (Rubrik × Option String))
            else Run.bind
              (logPrint
                "OAuth2 client credentials failed, trying basic auth with service account credentials")
              (fun _ => r1.tryServiceAccountBasicAuth w)).trace) := by
    unfold Rubrik.loginWithServiceAccount
    simp only [Run.bind_def]
    rw [Run.bind_trace_ret _ (rfl : (emit (.call "loginWithServiceAccount")).out = .ret ()),
      Run.bind_trace_ret _ hres]
  cases err with
  | none =>
    rw [htrace, if_pos rfl]
    constructor
    · left
      rw [calledFns_append, calledFns_append, tryOAuth2_calledFns]
      rfl
    · intro q hq
      rw [httpCalls_append, httpCalls_append] at hq
      have hq2 : q ∈ httpCalls (r.tryOAuth2ClientCredentials w).trace := by
        simpa [emit, httpCalls, Run.pure_def] using hq
      exact Or.inl (tryOAuth2_httpCalls w r q hq2)
  | some e =>
    have hr1 : r1 = r := tryOAuth2_failure_keeps w r r1 e hres
    subst hr1
    rw [htrace, if_neg (by simp), Run.bind_trace_ret _ (rfl : (logPrint _).out = .ret ())]
    constructor
    · right
      rw [calledFns_append, calledFns_append, calledFns_append, tryOAuth2_calledFns,
        tryBasic_calledFns]
      rfl
    · intro q hq
      rw [httpCalls_append, httpCalls_append, httpCalls_append] at hq
      have hq2 : q ∈ httpCalls (r1.tryOAuth2ClientCredentials w).trace ∨
          q ∈ httpCalls (r1.tryServiceAccountBasicAuth w).trace := by
        simpa [emit, logPrint, httpCalls] using hq
      rcases hq2 with h | h
      · exact Or.inl (tryOAuth2_httpCalls w r1 q h)
      · exact Or.inr (tryBasic_httpCalls w r1 q h)

/-- C10. Strategy selection in Login. When client ID and client secret are both set, Login
enters the service-account strategy and, first within it, the OAuth2 step; it never enters
loginWithUsernamePassword, whatever the username and password are, and its HTTP round trips
are the token request and the session request with the service-account credentials. When
they are not both set, Login enters loginWithUsernamePassword and nothing else, and its only
HTTP round trip is the session request with username and password, never a request to the
token endpoint. -/
theorem login_strategy_selection (w : World) (r : Rubrik) :
    (r.serviceAccountClientID ≠ "" ∧ r.serviceAccountClientSecret ≠ "" →
      (calledFns (r.Login w).trace).take 2 =
        ["loginWithServiceAccount", "tryOAuth2ClientCredentials"] ∧
      "loginWithUsernamePassword" ∉ calledFns (r.Login w).trace ∧
      ∀ q ∈ httpCalls (r.Login w).trace,
        q = r.tokenRequest w ∨
        q = r.sessionRequest r.serviceAccountClientID r.serviceAccountClientSecret) ∧
    (¬ (r.serviceAccountClientID ≠ "" ∧ r.serviceAccountClientSecret ≠ "") →
      calledFns (r.Login w).trace = ["loginWithUsernamePassword"] ∧
      "tryOAuth2ClientCredentials" ∉ calledFns (r.Login w).trace ∧
      ∀ q ∈ httpCalls (r.Login w).trace,
        q = r.sessionRequest r.username r.password ∧ q.url ≠ (r.tokenRequest w).url) := by
  constructor
  · intro hsa
    have hlogin : r.Login w =
        Run.bind (logPrint "Using service account authentication")
          (fun _ => r.loginWithServiceAccount w) := by
      unfold Rubrik.Login
      rw [if_pos hsa]
      rfl
    have htrace : (r.Login w).trace =
        (logPrint "Using service account authentication").trace
          ++ (r.loginWithServiceAccount w).trace := by
      rw [hlogin, Run.bind_trace_ret _ (rfl : (logPrint _).out = .ret ())]
    obtain ⟨hfns, hhttp⟩ := loginWithServiceAccount_trace w r
    have hfns2 : calledFns (r.Login w).trace = calledFns (r.loginWithServiceAccount w).trace := by
      rw [htrace, calledFns_append]
      rfl
    have hhttp2 : httpCalls (r.Login w).trace = httpCalls (r.loginWithServiceAccount w).trace := by
      rw [htrace, httpCalls_append]
      rfl
    rw [hfns2, hhttp2]
    refine ⟨?_, ?_, hhttp⟩
    · rcases hfns with h | h <;> rw [h] <;> rfl
    · rcases hfns with h | h <;> rw [h] <;> decide
  · intro hsa
    have hlogin : r.Login w =
        Run.bind (logPrint "Using username/password authentication")
          (fun _ => r.loginWithUsernamePassword w) := by
      unfold Rubrik.Login
      rw [if_neg hsa]
      rfl
    have htrace : (r.Login w).trace =
        (logPrint "Using username/password authentication").trace
          ++ (r.loginWithUsernamePassword w).trace := by
      rw [hlogin, Run.bind_trace_ret _ (rfl : (logPrint _).out = .ret ())]
    have hfns2 : calledFns (r.Login w).trace = ["loginWithUsernamePassword"] := by
      rw [htrace, calledFns_append, loginWithUsernamePassword_calledFns]
      rfl
    have hhttp2 : httpCalls (r.Login w).trace
        = httpCalls (r.loginWithUsernamePassword w).trace := by
      rw [htrace, httpCalls_append]
      rfl
    refine ⟨hfns2, ?_, ?_⟩
    · rw [hfns2]; decide
    · intro q hq
      rw [hhttp2] at hq
      have hq2 := loginWithUsernamePassword_httpCalls w r q hq
      exact ⟨hq2, by rw [hq2]; exact session_url_ne_token_url w r _ _⟩

/-- Witness of C10: with both credential forms populated Login takes the service-account
strategy; with username and password only it takes the username/password strategy. -/
theorem login_strategy_selection_witness :
    ((calledFns (bothFormsClient.Login basicOnlyWorld).trace).take 2 =
        ["loginWithServiceAccount", "tryOAuth2ClientCredentials"] ∧
      "loginWithUsernamePassword" ∉ calledFns (bothFormsClient.Login basicOnlyWorld).trace) ∧
    calledFns (passwordClient.Login basicOnlyWorld).trace = ["loginWithUsernamePassword"] ∧
    httpCalls (passwordClient.Login basicOnlyWorld).trace =
      [passwordClient.sessionRequest "admin" "pw"] :=
  ⟨⟨((login_strategy_selection basicOnlyWorld bothFormsClient).1 (by decide)).1,
      ((login_strategy_selection basicOnlyWorld bothFormsClient).1 (by decide)).2.1⟩,
    ((login_strategy_selection basicOnlyWorld passwordClient).2 (by decide)).1,
    by decide⟩

/-- C11, at the failing input. The round trip fails at transport level (connection refused):
`makeRequest` does not return a nil response with an error, it ends the process with status 1
after logging the error, and GetNodes, which called it, ends with it. On a 503 answer
`makeRequest` does return the nil response and the error, and GetNodes its empty list. -/
theorem make_request_transport_error_exits :
    (sampleClient.makeRequest unreachableWorld "GET" "/api/internal/node" {}).out = .exit 1 ∧
    (sampleClient.makeRequest unreachableWorld "GET" "/api/internal/node" {}).trace.getLast?
      = some (.log "dial tcp: connection refused") ∧
    (sampleClient.GetNodes unreachableWorld).out = .exit 1 ∧
    (sampleClient.makeRequest unavailableWorld "GET" "/api/internal/node" {}).out
      = .ret (none, some "HTTP 503: /api/internal/node") ∧
    (sampleClient.GetNodes unavailableWorld).out = .ret (Slice.mk []) := by
  decide

/-- C12. Status classification in `makeRequest`. For a round trip answered with status code s:
when s < 200 or s >= 300 the result is the nil response and the error text
"HTTP s: path"; when 200 <= s < 300 the result is the response itself and a nil error; a nil
response with an error is returned exactly in the first case. The run of `makeRequest` is the
same in every world with the same `http.NewRequest`, round trips and URL encoding: no JSON
decoder takes part in it, and on an error the caller receives no body to decode. -/
theorem make_request_status_classification (w : World) (r : Rubrik) (t a : String)
    (p : RequestParams) (resp : HttpResponse)
    (hnew : w.newRequest t (r.restRequest w t a p).url = none)
    (hrt : w.roundTrip (r.restRequest w t a p) = .ok resp) :
    ((resp.StatusCode < 200 ∨ resp.StatusCode ≥ 300) →
      (r.makeRequest w t a p).out =
        .ret (none, some ("HTTP " ++ toString resp.StatusCode ++ ": " ++ a))) ∧
    ((200 ≤ resp.StatusCode ∧ resp.StatusCode < 300) →
      (r.makeRequest w t a p).out = .ret (some resp, none)) ∧
    ((∃ e, (r.makeRequest w t a p).out = .ret (none, some e)) ↔
      (resp.StatusCode < 200 ∨ resp.StatusCode ≥ 300)) ∧
    (∀ w2 : World, w2.newRequest = w.newRequest → w2.roundTrip = w.roundTrip →
      w2.encode = w.encode → r.makeRequest w2 t a p = r.makeRequest w t a p) := by
  refine ⟨fun h => makeRequest_out_status w r t a p resp hnew hrt h,
    fun h => makeRequest_out_ok w r t a p resp hnew hrt h, ?_, ?_⟩
  · constructor
    · rintro ⟨e, he⟩
      by_contra hc
      have h2 : 200 ≤ resp.StatusCode ∧ resp.StatusCode < 300 := by omega
      rw [makeRequest_out_ok w r t a p resp hnew hrt h2] at he
      simp at he
    · intro h
      exact ⟨_, makeRequest_out_status w r t a p resp hnew hrt h⟩
  · intro w2 h1 h2 h3
    simp only [Rubrik.makeRequest, Rubrik.restRequest, h1, h2, h3]

/-- Witness of C12: the 503 answer to GET /api/internal/node of the sample client. -/
theorem make_request_status_classification_witness :
    ∃ e, (sampleClient.makeRequest unavailableWorld "GET" "/api/internal/node" {}).out
        = .ret (none, some e) ∧ e = "HTTP 503: /api/internal/node" :=
  ⟨_, (make_request_status_classification unavailableWorld sampleClient "GET"
      "/api/internal/node" {} { StatusCode := 503, Body := "<html>Service Unavailable</html>" }
      rfl rfl).1 (by decide), by decide⟩

/-- What the REST fallback returns on a 2xx answer: the thirteen operations that do not test
the decode error return what the decoder left behind, whatever error it returned;
GetArchiveLocations and GetSystemStorage return it when the decode error is nil and their
empty list or zero value otherwise. -/
theorem rest_fallback_returns_decoded (w : World) (r : Rubrik) (g : GraphQLClient)
    (hg : r.graphqlClient = some g) :
    (∀ e resp, w.nodes.run (g.request NodesQuery []) = .error e →
      w.RestAnswers r "/api/internal/node" {} resp →
      (r.GetNodes w).out = .ret (w.decodeNodeList resp.Body).value.Data) ∧
    (∀ e resp, w.vmwareVms.run (g.request VMwareVMsQuery []) = .error e →
      w.RestAnswers r "/api/v1/vmware/vm" {} resp →
      (r.ListVmwareVM w).out = .ret (w.decodeVirtualMachineList resp.Body).value.Data) ∧
    (∀ e resp, w.nutanixVms.run (g.request NutanixVMsQuery []) = .error e →
      w.RestAnswers r "/api/internal/nutanix/vm" {} resp →
      (r.ListNutanixVM w).out = .ret (w.decodeVirtualMachineList resp.Body).value.Data) ∧
    (∀ e resp, w.hypervVms.run (g.request HypervVMsQuery []) = .error e →
      w.RestAnswers r "/api/internal/hyperv/vm" {} resp →
      (r.ListHypervVM w).out = .ret (w.decodeVirtualMachineList resp.Body).value.Data) ∧
    (∀ e resp, w.managedVolumes.run (g.request ManagedVolumesQuery []) = .error e →
      w.RestAnswers r "/api/internal/managed_volume" {} resp →
      (r.GetManagedVolumes w).out = .ret (w.decodeManagedVolumeList resp.Body).value.Data) ∧
    (∀ e resp, w.archiveLocations.run (g.request ArchiveLocationsQuery []) = .error e →
      w.RestAnswers r "/api/internal/archive/location" {} resp →
      (r.GetArchiveLocations w).out =
        .ret (if (w.decodeLocationList resp.Body).err = none
          then (w.decodeLocationList resp.Body).value.Data else Slice.mk [])) ∧
    (∀ e resp, w.systemStorage.run (g.request SystemStorageQuery []) = .error e →
      w.RestAnswers r "/api/internal/stats/system_storage" {} resp →
      (r.GetSystemStorage w).out =
        .ret (if (w.decodeSystemStorage resp.Body).err = none
          then (w.decodeSystemStorage resp.Body).value else ⟨0, 0, 0, 0, 0, 0⟩)) ∧
    (∀ e resp, w.perVMStorage.run (g.request PerVMStorageQuery []) = .error e →
      w.RestAnswers r "/api/internal/stats/per_vm_storage" {} resp →
      (r.GetPerVMStorage w).out = .ret (w.decodeVmStorageList resp.Body).value.Data) ∧
    (∀ e resp, w.streamsCount.run (g.request StreamsCountQuery []) = .error e →
      w.RestAnswers r "/api/internal/stats/streams/count" {} resp →
      (r.GetStreamCount w).out = .ret ((w.decodeIntMap resp.Body).value.get "count")) ∧
    (∀ e resp, w.dataLocationUsage.run (g.request DataLocationUsageQuery []) = .error e →
      w.RestAnswers r "/api/internal/stats/data_location/usage" {} resp →
      (r.GetDataLocationUsage w).out =
        .ret (w.decodeDataLocationUsageList resp.Body).value.Data) ∧
    (∀ e resp,
      w.physicalIngest.run (g.request PhysicalIngestTimeSeriesQuery [("range", "-10min")])
        = .error e →
      w.RestAnswers r "/api/internal/stats/physical_ingest/time_series"
        { params := Map.mk [("range", ["-10min"])] } resp →
      (r.GetPhysicalIngest w).out = .ret (w.decodeTimeStats resp.Body).value) ∧
    (∀ locationID timerange e resp,
      w.archivalBandwidth.run (g.request ArchivalBandwidthTimeSeriesQuery
        [("range", if timerange = "" then "-1h" else timerange)]) = .error e →
      w.RestAnswers r "/api/internal/stats/archival/bandwidth/time_series"
        { params := Map.mk [("data_location_id", [locationID]),
                            ("range", [if timerange = "" then "-1h" else timerange])] } resp →
      (r.GetArchivalBandwith w locationID timerange).out
        = .ret (w.decodeTimeStats resp.Body).value) ∧
    (∀ e resp, w.runwayRemaining.run (g.request RunwayRemainingQuery []) = .error e →
      w.RestAnswers r "/api/internal/stats/runway_remaining" {} resp →
      (r.GetRunawayRemaining w).out = .ret ((w.decodeIntMap resp.Body).value.get "days")) ∧
    (∀ e resp, w.averageStorageGrowth.run (g.request AverageStorageGrowthQuery []) = .error e →
      w.RestAnswers r "/api/internal/stats/average_storage_growth_per_day" {} resp →
      (r.GetAverageStorageGrowthPerDay w).out
        = .ret ((w.decodeIntMap resp.Body).value.get "bytes")) ∧
    (∀ params e resp, w.reports.run (g.request ReportsQuery []) = .error e →
      w.RestAnswers r "/api/internal/report" (reportParams params) resp →
      (r.GetReports w params).out = .ret (w.decodeReportList resp.Body).value.Data) := by
  refine ⟨?_, ?_, ?_, ?_, ?_, ?_, ?_, ?_, ?_, ?_, ?_, ?_, ?_, ?_, ?_⟩
  all_goals
    intros
    rename_i hrest
    obtain ⟨hnew, hrt, hstatus⟩ := hrest
    have hmk := makeRequest_out_ok w r "GET" _ _ _ hnew hrt hstatus
    simp [Rubrik.GetNodes, Rubrik.ListVmwareVM, Rubrik.ListNutanixVM,
      Rubrik.ListHypervVM, Rubrik.GetManagedVolumes, Rubrik.GetArchiveLocations,
      Rubrik.GetSystemStorage, Rubrik.GetPerVMStorage, Rubrik.GetStreamCount,
      Rubrik.GetDataLocationUsage, Rubrik.GetPhysicalIngest, Rubrik.GetArchivalBandwith,
      Rubrik.GetRunawayRemaining, Rubrik.GetAverageStorageGrowthPerDay, Rubrik.GetReports,
      hg, GraphQLClient.ExecuteQuery, Run.pure_def, Run.bind_def, Run.bind_ret, logPrint, emit,
      *]
    simp [Run.bind, hmk]
  all_goals split <;> simp_all

/-- C13, at the failing inputs. The graph-query endpoint is down and the REST request is
answered 200. With a body that decodes partially (a type error in one field) GetNodes returns
the one node that was decoded and GetStreamCount returns 5, not the empty list and 0 they
return when the REST request itself fails; with a body that is not JSON GetNodes returns the
nil list, not the non-nil empty list. GetArchiveLocations and GetSystemStorage, which test the
decode error, return their empty list and zero record. -/
theorem decode_error_is_not_treated_as_rest_failure :
    (sampleClient.GetNodes partialBodyWorld).out = .ret (Slice.mk [sampleNode]) ∧
    (sampleClient.GetNodes unavailableWorld).out = .ret (Slice.mk []) ∧
    (sampleClient.GetStreamCount partialBodyWorld).out = .ret 5 ∧
    (sampleClient.GetStreamCount unavailableWorld).out = .ret 0 ∧
    (sampleClient.GetNodes garbageBodyWorld).out = .ret Slice.nil ∧
    (sampleClient.GetArchiveLocations partialBodyWorld).out = .ret (Slice.mk []) ∧
    (sampleClient.GetSystemStorage partialBodyWorld).out = .ret ⟨0, 0, 0, 0, 0, 0⟩ := by
  decide
/-- C20. REST fallback returns the payload unchanged. For each of the eleven list operations:
when the graph-query run returns an error and the REST request is answered with a 2xx response
whose body decodes without error to an envelope with data list D (for the two time-series
operations, to the list D itself), the operation returns exactly D. -/
theorem rest_fallback_returns_payload (w : World) (r : Rubrik) (g : GraphQLClient)
    (hg : r.graphqlClient = some g) :
    (∀ e resp D, w.nodes.run (g.request NodesQuery []) = .error e →
      w.RestAnswers r "/api/internal/node" {} resp →
      (w.decodeNodeList resp.Body).err = none →
      (w.decodeNodeList resp.Body).value.Data = D →
      (r.GetNodes w).out = .ret D) ∧
    (∀ e resp D, w.vmwareVms.run (g.request VMwareVMsQuery []) = .error e →
      w.RestAnswers r "/api/v1/vmware/vm" {} resp →
      (w.decodeVirtualMachineList resp.Body).err = none →
      (w.decodeVirtualMachineList resp.Body).value.Data = D →
      (r.ListVmwareVM w).out = .ret D) ∧
    (∀ e resp D, w.nutanixVms.run (g.request NutanixVMsQuery []) = .error e →
      w.RestAnswers r "/api/internal/nutanix/vm" {} resp →
      (w.decodeVirtualMachineList resp.Body).err = none →
      (w.decodeVirtualMachineList resp.Body).value.Data = D →
      (r.ListNutanixVM w).out = .ret D) ∧
    (∀ e resp D, w.hypervVms.run (g.request HypervVMsQuery []) = .error e →
      w.RestAnswers r "/api/internal/hyperv/vm" {} resp →
      (w.decodeVirtualMachineList resp.Body).err = none →
      (w.decodeVirtualMachineList resp.Body).value.Data = D →
      (r.ListHypervVM w).out = .ret D) ∧
    (∀ e resp D, w.managedVolumes.run (g.request ManagedVolumesQuery []) = .error e →
      w.RestAnswers r "/api/internal/managed_volume" {} resp →
      (w.decodeManagedVolumeList resp.Body).err = none →
      (w.decodeManagedVolumeList resp.Body).value.Data = D →
      (r.GetManagedVolumes w).out = .ret D) ∧
    (∀ e resp D, w.archiveLocations.run (g.request ArchiveLocationsQuery []) = .error e →
      w.RestAnswers r "/api/internal/archive/location" {} resp →
      (w.decodeLocationList resp.Body).err = none →
      (w.decodeLocationList resp.Body).value.Data = D →
      (r.GetArchiveLocations w).out = .ret D) ∧
    (∀ e resp D, w.perVMStorage.run (g.request PerVMStorageQuery []) = .error e →
      w.RestAnswers r "/api/internal/stats/per_vm_storage" {} resp →
      (w.decodeVmStorageList resp.Body).err = none →
      (w.decodeVmStorageList resp.Body).value.Data = D →
      (r.GetPerVMStorage w).out = .ret D) ∧
    (∀ e resp D, w.dataLocationUsage.run (g.request DataLocationUsageQuery []) = .error e →
      w.RestAnswers r "/api/internal/stats/data_location/usage" {} resp →
      (w.decodeDataLocationUsageList resp.Body).err = none →
      (w.decodeDataLocationUsageList resp.Body).value.Data = D →
      (r.GetDataLocationUsage w).out = .ret D) ∧
    (∀ e resp D,
      w.physicalIngest.run (g.request PhysicalIngestTimeSeriesQuery [("range", "-10min")])
        = .error e →
      w.RestAnswers r "/api/internal/stats/physical_ingest/time_series"
        { params := Map.mk [("range", ["-10min"])] } resp →
      (w.decodeTimeStats resp.Body).err = none →
      (w.decodeTimeStats resp.Body).value = D →
      (r.GetPhysicalIngest w).out = .ret D) ∧
    (∀ locationID timerange e resp D,
      w.archivalBandwidth.run (g.request ArchivalBandwidthTimeSeriesQuery
        [("range", if timerange = "" then "-1h" else timerange)]) = .error e →
      w.RestAnswers r "/api/internal/stats/archival/bandwidth/time_series"
        { params := Map.mk [("data_location_id", [locationID]),
                            ("range", [if timerange = "" then "-1h" else timerange])] } resp →
      (w.decodeTimeStats resp.Body).err = none →
      (w.decodeTimeStats resp.Body).value = D →
      (r.GetArchivalBandwith w locationID timerange).out = .ret D) ∧
    (∀ params e resp D, w.reports.run (g.request ReportsQuery []) = .error e →
      w.RestAnswers r "/api/internal/report" (reportParams params) resp →
      (w.decodeReportList resp.Body).err = none →
      (w.decodeReportList resp.Body).value.Data = D →
      (r.GetReports w params).out = .ret D) := by
  obtain ⟨h1, h2, h3, h4, h5, h6, _, h8, _, h10, h11, h12, _, _, h15⟩ :=
    rest_fallback_returns_decoded w r g hg
  refine ⟨?_, ?_, ?_, ?_, ?_, ?_, ?_, ?_, ?_, ?_, ?_⟩
  · intro e resp D he hr _ hD; rw [h1 e resp he hr, hD]
  · intro e resp D he hr _ hD; rw [h2 e resp he hr, hD]
  · intro e resp D he hr _ hD; rw [h3 e resp he hr, hD]
  · intro e resp D he hr _ hD; rw [h4 e resp he hr, hD]
  · intro e resp D he hr _ hD; rw [h5 e resp he hr, hD]
  · intro e resp D he hr herr hD; rw [h6 e resp he hr, if_pos herr, hD]
  · intro e resp D he hr _ hD; rw [h8 e resp he hr, hD]
  · intro e resp D he hr _ hD; rw [h10 e resp he hr, hD]
  · intro e resp D he hr _ hD; rw [h11 e resp he hr, hD]
  · intro loc tr e resp D he hr _ hD; rw [h12 loc tr e resp he hr, hD]
  · intro params e resp D he hr _ hD; rw [h15 params e resp he hr, hD]

/-- Witness of C20: with the graph-query endpoint down and the REST API answering 200,
GetNodes returns the two decoded nodes and GetArchiveLocations the decoded location. -/
theorem rest_fallback_returns_payload_witness :
    sampleClient.graphqlClient = some sampleGraph ∧
    (sampleClient.GetNodes restListWorld).out
      = .ret (Slice.mk [sampleNode, { sampleNode with ID := "n2" }]) ∧
    (sampleClient.GetArchiveLocations restListWorld).out = .ret (Slice.mk [sampleLocation]) :=
  ⟨rfl,
    (rest_fallback_returns_payload restListWorld sampleClient sampleGraph rfl).1 _
      { StatusCode := 200, Body := "list" } _ rfl ⟨rfl, rfl, by decide, by decide⟩ rfl rfl,
    (rest_fallback_returns_payload restListWorld sampleClient sampleGraph rfl).2.2.2.2.2.1 _
      { StatusCode := 200, Body := "list" } _ rfl ⟨rfl, rfl, by decide, by decide⟩ rfl rfl⟩

/-- C14, at the failing input. The graph-query endpoint lists a custom report before the
canned protection-tasks report. The graph-query request of GetReports carries no variable (the
filter type=Canned, report_template=ProtectionTasksDetails is not sent), the first report
returned is the custom one, and GetTaskDetails requests the chart chart0 of that report. On
the REST path the filter is sent as query parameters. -/
theorem task_details_graph_path_ignores_report_filter :
    graphRuns (sampleClient.GetTaskDetails mixedReportsWorld).trace
      = [sampleGraph.request ReportsQuery []] ∧
    (sampleClient.GetReports mixedReportsWorld taskReportFilter).out
      = .ret (Slice.mk
          [ { ID := "rep-7", Name := "Weekly Capacity", ReportType := "Custom",
              UpdateStatus := "Ready", UpdateTime := "", ReportTemplate := "" },
            { ID := "rep-1", Name := "Protection Tasks Details", ReportType := "Canned",
              UpdateStatus := "Ready", UpdateTime := "", ReportTemplate := "" } ]) ∧
    restCalls (sampleClient.GetTaskDetails mixedReportsWorld).trace
      = [("GET", "/api/internal/report/rep-7/chart",
          { params := Map.mk [("chart_id", ["chart0"])] })] ∧
    restCalls (sampleClient.GetReports unavailableWorld taskReportFilter).trace
      = [("GET", "/api/internal/report",
          { params := Map.mk [("type", ["Canned"]),
                              ("report_template", ["ProtectionTasksDetails"])] })] := by
  decide

/-- The strategy functions entered by the service-account strategy when the OAuth2 step
returns no error. -/
theorem loginWithServiceAccount_after_success (w : World) (r r1 : Rubrik)
    (hoauth : (r.tryOAuth2ClientCredentials w).out = .ret (r1, none)) :
    (r.loginWithServiceAccount w).out = .ret (r1, none) ∧
    calledFns (r.loginWithServiceAccount w).trace =
      ["loginWithServiceAccount", "tryOAuth2ClientCredentials"] := by
  unfold Rubrik.loginWithServiceAccount
  simp only [Run.bind_def]
  constructor
  · rw [Run.bind_out_ret _ (rfl : (emit (.call "loginWithServiceAccount")).out = .ret ()),
      Run.bind_out_ret _ hoauth, if_pos rfl]
    rfl
  · rw [Run.bind_trace_ret _ (rfl : (emit (.call "loginWithServiceAccount")).out = .ret ()),
      Run.bind_trace_ret _ hoauth, if_pos rfl]
    rw [calledFns_append, calledFns_append, tryOAuth2_calledFns]
    rfl

/-- The result of the OAuth2 step on a 200 response whose body decodes. -/
theorem tryOAuth2_out_ok (w : World) (r : Rubrik) (resp : HttpResponse)
    (hnew : w.newRequest "POST" (r.tokenRequest w).url = none)
    (hrt : w.roundTrip (r.tokenRequest w) = .ok resp)
    (hstatus : resp.StatusCode = 200)
    (hdecode : (w.decodeOAuth2TokenResponse resp.Body).err = none) :
    (r.tryOAuth2ClientCredentials w).out =
      .ret ({ r with sessionToken := (w.decodeOAuth2TokenResponse resp.Body).value.AccessToken,
                     isLoggedIn := true }, none) := by
  simp [Rubrik.tryOAuth2ClientCredentials, Run.bind_def, Run.pure_def, Run.bind_ret, logPrint,
    emit, hnew, hrt, hstatus, hdecode]

/-- The result of the OAuth2 step on a response that has another status than 200 or a body
that does not decode: an error, and the client as it was. -/
theorem tryOAuth2_out_rejected (w : World) (r : Rubrik) (resp : HttpResponse)
    (hnew : w.newRequest "POST" (r.tokenRequest w).url = none)
    (hrt : w.roundTrip (r.tokenRequest w) = .ok resp)
    (hbad : ¬ (resp.StatusCode = 200 ∧ (w.decodeOAuth2TokenResponse resp.Body).err = none)) :
    ∃ e, (r.tryOAuth2ClientCredentials w).out = .ret (r, some e) := by
  by_cases hs : resp.StatusCode = 200
  · have hd : (w.decodeOAuth2TokenResponse resp.Body).err ≠ none := fun h => hbad ⟨hs, h⟩
    cases hde : (w.decodeOAuth2TokenResponse resp.Body).err with
    | none => exact absurd hde hd
    | some err =>
      exact ⟨"failed to decode token response: " ++ err, by
        simp [Rubrik.tryOAuth2ClientCredentials, Run.bind_def, Run.pure_def, Run.bind_ret,
          logPrint, emit, hnew, hrt, hs, hde]⟩
  · exact ⟨"Rubrik service account authentication failed: HTTP " ++ toString resp.StatusCode, by
      simp [Rubrik.tryOAuth2ClientCredentials, Run.bind_def, Run.pure_def, Run.bind_ret,
        logPrint, emit, hnew, hrt, hs]⟩

/-- C15, the claim refuted. The token endpoint answers with status 201, which is in the 2xx
range, and a body that decodes; the OAuth2 step returns an error and leaves the client as it
was, and the Basic-auth fallback is attempted. -/
theorem oauth2_step_rejects_status_201 :
    ((200 : Int) ≤ 201 ∧ (201 : Int) < 300) ∧
    ((tokenWorld 201).decodeOAuth2TokenResponse "token").err = none ∧
    (bothFormsClient.tryOAuth2ClientCredentials (tokenWorld 201)).out =
      .ret (bothFormsClient, some "Rubrik service account authentication failed: HTTP 201") ∧
    "tryServiceAccountBasicAuth" ∈
      calledFns (bothFormsClient.loginWithServiceAccount (tokenWorld 201)).trace := by
  decide

/-- C15, amended. For every response of the token endpoint: when the status is 200 and the
body decodes, the OAuth2 step returns no error, the session token is the access token of the
response, the logged-in flag is true, and the Basic-auth fallback is not attempted; when the
status is not 200 (also another 2xx code) or the body does not decode, the step returns an
error, the client (session token and logged-in flag included) is as it was, and the
Basic-auth fallback is attempted. -/
theorem oauth2_step_outcome (w : World) (r : Rubrik) (resp : HttpResponse)
    (hnew : w.newRequest "POST" (r.tokenRequest w).url = none)
    (hrt : w.roundTrip (r.tokenRequest w) = .ok resp) :
    ((resp.StatusCode = 200 ∧ (w.decodeOAuth2TokenResponse resp.Body).err = none) →
      (r.tryOAuth2ClientCredentials w).out =
        .ret ({ r with
                sessionToken := (w.decodeOAuth2TokenResponse resp.Body).value.AccessToken,
                isLoggedIn := true }, none) ∧
      "tryServiceAccountBasicAuth" ∉ calledFns (r.loginWithServiceAccount w).trace) ∧
    (¬ (resp.StatusCode = 200 ∧ (w.decodeOAuth2TokenResponse resp.Body).err = none) →
      (∃ e, (r.tryOAuth2ClientCredentials w).out = .ret (r, some e)) ∧
      "tryServiceAccountBasicAuth" ∈ calledFns (r.loginWithServiceAccount w).trace) := by
  constructor
  · intro h
    have hout := tryOAuth2_out_ok w r resp hnew hrt h.1 h.2
    refine ⟨hout, ?_⟩
    rw [(loginWithServiceAccount_after_success w r _ hout).2]
    decide
  · intro h
    obtain ⟨e, he⟩ := tryOAuth2_out_rejected w r resp hnew hrt h
    refine ⟨⟨e, he⟩, ?_⟩
    rw [(loginWithServiceAccount_after_failure w r e he).2]
    decide

/-- Witness of C15, amended: the token endpoint answers 200 with a body that decodes to the
access token T-oauth. -/
theorem oauth2_step_outcome_witness :
    (bothFormsClient.tryOAuth2ClientCredentials (tokenWorld 200)).out =
      .ret ({ bothFormsClient with sessionToken := "T-oauth", isLoggedIn := true }, none) ∧
    "tryServiceAccountBasicAuth" ∉
      calledFns (bothFormsClient.loginWithServiceAccount (tokenWorld 200)).trace :=
  (oauth2_step_outcome (tokenWorld 200) bothFormsClient { StatusCode := 200, Body := "token" }
    rfl rfl).1 ⟨rfl, rfl⟩

/-- Where the two Basic strategies agree: a client whose username and password are its
service-account credentials gets the same result from both on a 200 response whose body
decodes. -/
theorem basic_strategies_agree_on_ok (w : World) (r : Rubrik) (resp : HttpResponse)
    (huser : r.username = r.serviceAccountClientID)
    (hpass : r.password = r.serviceAccountClientSecret)
    (hnew : w.newRequest "POST" (r.url ++ "/api/v1/session") = none)
    (hrt : w.roundTrip (r.sessionRequest r.serviceAccountClientID r.serviceAccountClientSecret)
      = .ok resp)
    (hstatus : resp.StatusCode = 200) (hdecode : (w.decodeSession resp.Body).err = none) :
    (r.loginWithUsernamePassword w).out = (r.tryServiceAccountBasicAuth w).out := by
  rw [tryBasic_out_ok w r resp hnew hrt hstatus hdecode]
  have hurl : (r.sessionRequest r.serviceAccountClientID r.serviceAccountClientSecret).url
      = r.url ++ "/api/v1/session" := rfl
  simp [Rubrik.loginWithUsernamePassword, Run.bind_def, Run.pure_def, Run.bind_ret, logPrint,
    emit, huser, hpass, hurl, hnew, hrt]

/-- C16, at the failing inputs. Both strategies send the same session request (same
credential pair) and get the same response. On a 401 response, and on a 200 response whose
body does not decode, tryServiceAccountBasicAuth returns an error and leaves the client as it
was, while loginWithUsernamePassword returns no error, sets the logged-in flag and takes the
(empty) token left by the decoder. On a transport error tryServiceAccountBasicAuth returns the
error and loginWithUsernamePassword ends the process. -/
theorem basic_strategies_differ_on_failure :
    httpCalls (sameCredsClient.loginWithUsernamePassword deniedWorld).trace
      = httpCalls (sameCredsClient.tryServiceAccountBasicAuth deniedWorld).trace ∧
    (sameCredsClient.tryServiceAccountBasicAuth deniedWorld).out
      = .ret (sameCredsClient, some "service account basic auth failed: HTTP 401") ∧
    (sameCredsClient.loginWithUsernamePassword deniedWorld).out
      = .ret ({ sameCredsClient with sessionToken := "", isLoggedIn := true }, none) ∧
    (sameCredsClient.tryServiceAccountBasicAuth garbageBodyWorld).out
      = .ret (sameCredsClient, some "failed to decode session response: invalid character") ∧
    (sameCredsClient.loginWithUsernamePassword garbageBodyWorld).out
      = .ret ({ sameCredsClient with sessionToken := "", isLoggedIn := true }, none) ∧
    (sameCredsClient.tryServiceAccountBasicAuth unreachableWorld).out
      = .ret (sameCredsClient, some "dial tcp: connection refused") ∧
    (sameCredsClient.loginWithUsernamePassword unreachableWorld).out = .exit 1 := by
  decide

/-- C17. ExecuteQuery returns what the graph-query run returns: an error exactly when the run
returns an error, and then that error; the decoded result when the run succeeds, whatever the
JSON text of the result is. When that text is empty (at most two bytes, as for the empty
object) the result is still returned as a success, after the log line on the empty result;
the graph-query run is made exactly once. -/
theorem execute_query_returns_run_result {ρ : Type} (g : GraphQLClient) (kind : GraphKind ρ)
    (query : String) (vars : List (String × String)) :
    (g.ExecuteQuery kind query vars).out = .ret (kind.run (g.request query vars)) ∧
    (∀ e, kind.run (g.request query vars) = .error e →
      (g.ExecuteQuery kind query vars).out = .ret (.error e)) ∧
    (∀ result, kind.run (g.request query vars) = .ok result →
      (g.ExecuteQuery kind query vars).out = .ret (.ok result)) ∧
    (∀ result, kind.run (g.request query vars) = .ok result →
      (kind.marshal result).utf8ByteSize ≤ 2 →
      (g.ExecuteQuery kind query vars).out = .ret (.ok result) ∧
      Event.log "GraphQL query succeeded but result is empty: %s"
        ∈ (g.ExecuteQuery kind query vars).trace) ∧
    graphRuns (g.ExecuteQuery kind query vars).trace = [g.request query vars] := by
  have hout : (g.ExecuteQuery kind query vars).out = .ret (kind.run (g.request query vars)) := by
    simp [GraphQLClient.ExecuteQuery, Run.bind_def, Run.pure_def, Run.bind_ret, logPrint, emit]
    cases kind.run (g.request query vars) with
    | error e => simp [Run.bind_ret]
    | ok result => simp; split <;> simp [Run.bind_ret]
  refine ⟨hout, ?_, ?_, ?_, ?_⟩
  · intro e h; rw [hout, h]
  · intro result h; rw [hout, h]
  · intro result h hsize
    refine ⟨by rw [hout, h], ?_⟩
    simp [GraphQLClient.ExecuteQuery, Run.bind_def, Run.pure_def, Run.bind_ret, logPrint, emit,
      h, hsize]
  · simp [GraphQLClient.ExecuteQuery, Run.bind_def, Run.pure_def, Run.bind_ret, logPrint, emit]
    cases kind.run (g.request query vars) with
    | error e => simp [Run.bind_ret, graphRuns]
    | ok result => simp; split <;> simp [Run.bind_ret, graphRuns]

/-- Witness of C17: the node query is answered with an empty result (an empty JSON object) in a
world where any REST round trip would end the process; ExecuteQuery returns the result as a
success and GetNodes returns the empty node list without a REST call. -/
theorem execute_query_returns_run_result_witness :
    (sampleGraph.ExecuteQuery emptyResultWorld.nodes NodesQuery []).out
      = .ret (.ok { Nodes := [] }) ∧
    Event.log "GraphQL query succeeded but result is empty: %s"
      ∈ (sampleGraph.ExecuteQuery emptyResultWorld.nodes NodesQuery []).trace ∧
    (sampleClient.GetNodes emptyResultWorld).out = .ret (Slice.mk []) ∧
    restCalls (sampleClient.GetNodes emptyResultWorld).trace = [] :=
  ⟨((execute_query_returns_run_result sampleGraph emptyResultWorld.nodes NodesQuery []).2.2.2.1
      { Nodes := [] } rfl (by decide)).1,
    ((execute_query_returns_run_result sampleGraph emptyResultWorld.nodes NodesQuery []).2.2.2.1
      { Nodes := [] } rfl (by decide)).2,
    by decide, by decide⟩

/-- C18, at the failing input. For the two location identifiers loc-1 and loc-2 and the same
range, GetArchivalBandwith runs the same graph-query request, whose only variable is the
range, and returns the same result: the location identifier is not part of the graph-query
request. On the REST path the identifier is sent as the parameter data_location_id. -/
theorem archival_bandwidth_graph_request_ignores_location :
    graphRuns (sampleClient.GetArchivalBandwith graphWorld "loc-1" "-1h").trace
      = [sampleGraph.request ArchivalBandwidthTimeSeriesQuery [("range", "-1h")]] ∧
    graphRuns (sampleClient.GetArchivalBandwith graphWorld "loc-2" "-1h").trace
      = graphRuns (sampleClient.GetArchivalBandwith graphWorld "loc-1" "-1h").trace ∧
    (sampleClient.GetArchivalBandwith graphWorld "loc-2" "-1h").out
      = (sampleClient.GetArchivalBandwith graphWorld "loc-1" "-1h").out ∧
    restCalls (sampleClient.GetArchivalBandwith unavailableWorld "loc-1" "-1h").trace
      = [("GET", "/api/internal/stats/archival/bandwidth/time_series",
          { params := Map.mk [("data_location_id", ["loc-1"]), ("range", ["-1h"])] })] ∧
    restCalls (sampleClient.GetArchivalBandwith unavailableWorld "loc-2" "-1h").trace
      = [("GET", "/api/internal/stats/archival/bandwidth/time_series",
          { params := Map.mk [("data_location_id", ["loc-2"]), ("range", ["-1h"])] })] := by
  decide

/-- C19, the claim refuted. GetArchivalBandwith called with the empty range expression sends
the range -1h, not the empty expression, on the graph-query path and on the REST path;
GetPhysicalIngest, which takes no range argument, sends the range -10min on both paths. -/
theorem time_series_range_is_not_always_the_callers :
    graphRuns (sampleClient.GetArchivalBandwith graphWorld "loc-1" "").trace
      = [sampleGraph.request ArchivalBandwidthTimeSeriesQuery [("range", "-1h")]] ∧
    graphRuns (sampleClient.GetArchivalBandwith graphWorld "loc-1" "").trace
      ≠ [sampleGraph.request ArchivalBandwidthTimeSeriesQuery [("range", "")]] ∧
    restCalls (sampleClient.GetArchivalBandwith unavailableWorld "loc-1" "").trace
      = [("GET", "/api/internal/stats/archival/bandwidth/time_series",
          { params := Map.mk [("data_location_id", ["loc-1"]), ("range", ["-1h"])] })] ∧
    graphRuns (sampleClient.GetPhysicalIngest graphWorld).trace
      = [sampleGraph.request PhysicalIngestTimeSeriesQuery [("range", "-10min")]] ∧
    restCalls (sampleClient.GetPhysicalIngest unavailableWorld).trace
      = [("GET", "/api/internal/stats/physical_ingest/time_series",
          { params := Map.mk [("range", ["-10min"])] })] := by
  decide

/-- C19, amended. GetArchivalBandwith takes a range expression from its caller and, when the
expression is not empty, sends exactly it as the range variable of its one graph-query run and
as the range query parameter of every REST call it makes; GetPhysicalIngest takes no range
expression and sends -10min as the range variable and as the range query parameter. -/
theorem time_series_range_sent (w : World) (r : Rubrik) (g : GraphQLClient)
    (hg : r.graphqlClient = some g) :
    (∀ locationID timerange, timerange ≠ "" →
      graphRuns (r.GetArchivalBandwith w locationID timerange).trace
        = [g.request ArchivalBandwidthTimeSeriesQuery [("range", timerange)]] ∧
      ∀ c ∈ restCalls (r.GetArchivalBandwith w locationID timerange).trace,
        c = ("GET", "/api/internal/stats/archival/bandwidth/time_series",
          { params := Map.mk [("data_location_id", [locationID]), ("range", [timerange])] })) ∧
    (graphRuns (r.GetPhysicalIngest w).trace
        = [g.request PhysicalIngestTimeSeriesQuery [("range", "-10min")]] ∧
      ∀ c ∈ restCalls (r.GetPhysicalIngest w).trace,
        c = ("GET", "/api/internal/stats/physical_ingest/time_series",
          { params := Map.mk [("range", ["-10min"])] })) := by
  constructor
  · intro locationID timerange hne
    simp [Rubrik.GetArchivalBandwith, hg, hne, GraphQLClient.ExecuteQuery, Run.pure_def,
      Run.bind_def, Run.bind_ret, logPrint, emit, Rubrik.makeRequest]
    repeat' split
    all_goals simp_all [Run.bind_ret, Run.bind_exit, logFatal, graphRuns, restCalls]
  · simp [Rubrik.GetPhysicalIngest, hg, GraphQLClient.ExecuteQuery, Run.pure_def,
      Run.bind_def, Run.bind_ret, logPrint, emit, Rubrik.makeRequest]
    repeat' split
    all_goals simp_all [Run.bind_ret, Run.bind_exit, logFatal, graphRuns, restCalls]

/-- Witness of C19, amended: the sample client asks for the archival bandwidth of loc-1 over
the range -30min, with the graph-query endpoint down and the REST API answering 503. -/
theorem time_series_range_sent_witness :
    sampleClient.graphqlClient = some sampleGraph ∧
    graphRuns (sampleClient.GetArchivalBandwith unavailableWorld "loc-1" "-30min").trace
      = [sampleGraph.request ArchivalBandwidthTimeSeriesQuery [("range", "-30min")]] ∧
    restCalls (sampleClient.GetArchivalBandwith unavailableWorld "loc-1" "-30min").trace
      = [("GET", "/api/internal/stats/archival/bandwidth/time_series",
          { params := Map.mk [("data_location_id", ["loc-1"]), ("range", ["-30min"])] })] :=
  ⟨rfl,
    ((time_series_range_sent unavailableWorld sampleClient sampleGraph rfl).1
      "loc-1" "-30min" (by decide)).1,
    by decide⟩

/-- C22. Request construction in `makeRequest`. For every base URL (the `url` of the client),
action, parameter set and session token: every HTTP request that `makeRequest` sends has the
given method, the URL base ++ action ++ "?" ++ the encoding of the parameters, the given body,
and the headers Content-Type text/JSON and Authorization "Bearer " ++ token; when
`http.NewRequest` accepts method and URL, exactly this one request is sent; and when the
encoding of the parameters is empty the URL is base ++ action ++ "?". -/
theorem make_request_construction (w : World) (r : Rubrik) (t a : String) (p : RequestParams) :
    (∀ q ∈ httpCalls (r.makeRequest w t a p).trace,
      q = { method := t, url := r.url ++ a ++ "?" ++ w.encode p.params, body := some p.body,
            header := [("Content-Type", "text/JSON"),
                       ("Authorization", "Bearer " ++ r.sessionToken)],
            basicAuth := none }) ∧
    (w.newRequest t (r.url ++ a ++ "?" ++ w.encode p.params) = none →
      httpCalls (r.makeRequest w t a p).trace =
        [{ method := t, url := r.url ++ a ++ "?" ++ w.encode p.params, body := some p.body,
           header := [("Content-Type", "text/JSON"),
                      ("Authorization", "Bearer " ++ r.sessionToken)],
           basicAuth := none }]) ∧
    (w.encode p.params = "" →
      ∀ q ∈ httpCalls (r.makeRequest w t a p).trace, q.url = r.url ++ a ++ "?") := by
  have hall : ∀ q ∈ httpCalls (r.makeRequest w t a p).trace,
      q = { method := t, url := r.url ++ a ++ "?" ++ w.encode p.params, body := some p.body,
            header := [("Content-Type", "text/JSON"),
                       ("Authorization", "Bearer " ++ r.sessionToken)],
            basicAuth := none } := by
    simp [Rubrik.makeRequest, Rubrik.restRequest, Run.bind_def, Run.pure_def, Run.bind_ret,
      logPrint, emit]
    repeat' split
    all_goals simp_all [Run.bind_ret, Run.bind_exit, logFatal, httpCalls]
  refine ⟨hall, ?_, ?_⟩
  · intro hnew
    simp [Rubrik.makeRequest, Rubrik.restRequest, Run.bind_def, Run.pure_def, Run.bind_ret,
      logPrint, emit, hnew]
    repeat' split
    all_goals simp_all [Run.bind_ret, Run.bind_exit, logFatal, httpCalls]
  · intro henc q hq
    rw [hall q hq]
    simp [henc]

/-- Witness of C22: GET /api/internal/node of the sample client with no parameters is sent to
the URL that ends in the question mark, with the bearer token `tok`. -/
theorem make_request_construction_witness :
    httpCalls (sampleClient.makeRequest unavailableWorld "GET" "/api/internal/node" {}).trace =
      [{ method := "GET", url := "https://rubrik.local/api/internal/node?", body := some "",
         header := [("Content-Type", "text/JSON"), ("Authorization", "Bearer tok")],
         basicAuth := none }] :=
  (make_request_construction unavailableWorld sampleClient "GET" "/api/internal/node" {}).2.1
    rfl

theorem locationEdgesCopied_map (edges : List (Edge ArchiveLocationsResponse.NodeT)) :
    LocationEdgesCopied edges (edges.map locationOfEdge) := by
  refine ⟨by simp, ?_⟩
  intro i e he
  refine ⟨locationOfEdge e, by simp [he], rfl, rfl, rfl, ?_, rfl, rfl⟩
  simp [locationOfEdge]

/-- C24. Archive-location transform on the graph-query path. When the graph-query run
succeeds, GetArchiveLocations returns one Location per edge, in edge order; each Location has
the ID, Name and LocationType of its edge (id, name, archivalLocationType), IsActive is true
if and only if the status of the edge is exactly the string CONNECTED, and IPAddress and
Bucket are the empty string. -/
theorem archive_location_transform (w : World) (r : Rubrik) (g : GraphQLClient)
    (resp : ArchiveLocationsResponse) (hg : r.graphqlClient = some g)
    (hrun : w.archiveLocations.run (g.request ArchiveLocationsQuery []) = .ok resp) :
    ∃ locs, (r.GetArchiveLocations w).out = .ret (Slice.mk locs) ∧
      LocationEdgesCopied resp.ArchiveLocations.Edges locs := by
  refine ⟨resp.ArchiveLocations.Edges.map locationOfEdge, ?_, locationEdgesCopied_map _⟩
  simp [Rubrik.GetArchiveLocations, hg, GraphQLClient.ExecuteQuery, hrun, Run.pure_def,
    Run.bind_def, Run.bind_ret, logPrint, emit, makeFilled_eq_map]
  split <;> simp [Run.bind_ret]

/-- Witness of C24: of the two sample locations the one with status CONNECTED is active and
the one with status connected in lower case is not. -/
theorem archive_location_transform_witness :
    (sampleClient.GetArchiveLocations archiveWorld).out
      = .ret (Slice.mk
          [ { ID := "loc-1", Name := "s3-eu", LocationType := "S3", IsActive := true,
              IPAddress := "", Bucket := "" },
            { ID := "loc-2", Name := "nfs-dr", LocationType := "NFS", IsActive := false,
              IPAddress := "", Bucket := "" } ]) ∧
    ∃ locs, (sampleClient.GetArchiveLocations archiveWorld).out = .ret (Slice.mk locs) ∧
      LocationEdgesCopied
        [ { Node := { ID := "loc-1", Name := "s3-eu", ArchivalLocationType := "S3",
                      Status := "CONNECTED" } },
          { Node := { ID := "loc-2", Name := "nfs-dr", ArchivalLocationType := "NFS",
                      Status := "connected" } } ] locs :=
  ⟨by decide,
    archive_location_transform archiveWorld sampleClient sampleGraph
      { ArchiveLocations := { Edges :=
          [ { Node := { ID := "loc-1", Name := "s3-eu", ArchivalLocationType := "S3",
                        Status := "CONNECTED" } },
            { Node := { ID := "loc-2", Name := "nfs-dr", ArchivalLocationType := "NFS",
                        Status := "connected" } } ] } } rfl rfl⟩

/-- C25. Default range of GetArchivalBandwith. Every graph-query run of the operation has the
single variable range, and every REST call of the operation the query parameter range, equal
to -1h when the operation is called with the empty string as timerange and to the timerange
itself, unchanged, when that is not empty. With a graph-query client the graph-query run is
made; without one, or when the run returns an error, the REST call is made. -/
theorem archival_bandwidth_default_range (w : World) (r : Rubrik) (locationID timerange : String) :
    sentRange "" = "-1h" ∧
    (timerange ≠ "" → sentRange timerange = timerange) ∧
    (∀ q ∈ graphRuns (r.GetArchivalBandwith w locationID timerange).trace,
      q.query = ArchivalBandwidthTimeSeriesQuery ∧ q.vars = [("range", sentRange timerange)]) ∧
    (∀ c ∈ restCalls (r.GetArchivalBandwith w locationID timerange).trace,
      c = ("GET", "/api/internal/stats/archival/bandwidth/time_series",
        { params := Map.mk [("data_location_id", [locationID]),
                            ("range", [sentRange timerange])] })) ∧
    (∀ g, r.graphqlClient = some g →
      graphRuns (r.GetArchivalBandwith w locationID timerange).trace
        = [g.request ArchivalBandwidthTimeSeriesQuery [("range", sentRange timerange)]]) ∧
    ((r.graphqlClient = none ∨
        ∃ g e, r.graphqlClient = some g ∧
          w.archivalBandwidth.run
            (g.request ArchivalBandwidthTimeSeriesQuery [("range", sentRange timerange)])
            = .error e) →
      restCalls (r.GetArchivalBandwith w locationID timerange).trace
        = [("GET", "/api/internal/stats/archival/bandwidth/time_series",
            { params := Map.mk [("data_location_id", [locationID]),
                                ("range", [sentRange timerange])] })]) := by
  refine ⟨rfl, fun h => by simp [sentRange, h], ?_, ?_, ?_, ?_⟩
  · cases hg : r.graphqlClient <;>
      simp [Rubrik.GetArchivalBandwith, sentRange, hg, GraphQLClient.ExecuteQuery,
        GraphQLClient.request, Run.pure_def, Run.bind_def, Run.bind_ret, logPrint, emit,
        Rubrik.makeRequest]
    all_goals repeat' split
    all_goals simp_all [Run.bind_ret, Run.bind_exit, logFatal, graphRuns]
  · cases hg : r.graphqlClient <;>
      simp [Rubrik.GetArchivalBandwith, sentRange, hg, GraphQLClient.ExecuteQuery,
        GraphQLClient.request, Run.pure_def, Run.bind_def, Run.bind_ret, logPrint, emit,
        Rubrik.makeRequest]
    all_goals repeat' split
    all_goals simp_all [Run.bind_ret, Run.bind_exit, logFatal, restCalls]
  · intro g hg
    simp [Rubrik.GetArchivalBandwith, sentRange, hg, GraphQLClient.ExecuteQuery,
      Run.pure_def, Run.bind_def, Run.bind_ret, logPrint, emit, Rubrik.makeRequest]
    repeat' split
    all_goals simp_all [Run.bind_ret, Run.bind_exit, logFatal, graphRuns]
  · rintro (hg | ⟨g, e, hg, hrun⟩)
    · simp [Rubrik.GetArchivalBandwith, sentRange, hg, Run.pure_def, Run.bind_def,
        Run.bind_ret, logPrint, emit, Rubrik.makeRequest]
      repeat' split
      all_goals simp_all [Run.bind_ret, Run.bind_exit, logFatal, restCalls]
    · simp only [sentRange] at hrun
      simp [Rubrik.GetArchivalBandwith, sentRange, hg, hrun, GraphQLClient.ExecuteQuery,
        Run.pure_def, Run.bind_def, Run.bind_ret, logPrint, emit, Rubrik.makeRequest]
      repeat' split
      all_goals simp_all [Run.bind_ret, Run.bind_exit, logFatal, restCalls]

/-- Witness of C25: called with the empty timerange, the sample client sends the range -1h in
the graph-query run and, the run failing, in the REST call. -/
theorem archival_bandwidth_default_range_witness :
    graphRuns (sampleClient.GetArchivalBandwith unavailableWorld "loc-1" "").trace
      = [sampleGraph.request ArchivalBandwidthTimeSeriesQuery [("range", "-1h")]] ∧
    restCalls (sampleClient.GetArchivalBandwith unavailableWorld "loc-1" "").trace
      = [("GET", "/api/internal/stats/archival/bandwidth/time_series",
          { params := Map.mk [("data_location_id", ["loc-1"]), ("range", ["-1h"])] })] :=
  ⟨(archival_bandwidth_default_range unavailableWorld sampleClient "loc-1" "").2.2.2.2.1
      sampleGraph rfl,
    (archival_bandwidth_default_range unavailableWorld sampleClient "loc-1" "").2.2.2.2.2
      (Or.inr ⟨sampleGraph, _, rfl, rfl⟩)⟩

theorem reduceColumns_eq_foldl (lower : String → String) (cols : List ReportDataColumn) :
    ∀ es : List (String × Float64),
      reduceColumns lower (Map.mk es) cols = Map.mk (cols.foldl (columnStep lower) es) := by
  induction cols with
  | nil => intro es; rfl
  | cons c rest ih =>
    intro es
    cases hdp : c.DataPoints with
    | nil => simp [reduceColumns, hdp, columnStep, ih]
    | cons p ps => simp [reduceColumns, hdp, columnStep, Map.set, Map.entries, ih]

theorem Map.lookup_setEntries {V : Type} (k : String) (v : V) (es : List (String × V))
    (k2 : String) :
    (Map.setEntries k v es).lookup k2 = if k2 = k then some v else es.lookup k2 := by
  induction es with
  | nil =>
    by_cases h : k2 = k
    · simp [Map.setEntries, List.lookup, h]
    · have : (k2 == k) = false := by simpa using h
      simp [Map.setEntries, List.lookup, h, this]
  | cons e rest ih =>
    obtain ⟨k0, v0⟩ := e
    by_cases h0 : k0 = k
    · subst h0
      by_cases h : k2 = k0
      · simp [Map.setEntries, List.lookup, h]
      · have : (k2 == k0) = false := by simpa using h
        simp [Map.setEntries, List.lookup, h, this]
    · by_cases h2 : k2 = k0
      · subst h2
        have hne : ¬ k2 = k := h0
        simp [Map.setEntries, List.lookup, h0, hne]
      · have : (k2 == k0) = false := by simpa using h2
        simp [Map.setEntries, List.lookup, h0, this, ih]

theorem Map.keys_setEntries {V : Type} (k : String) (v : V) (es : List (String × V)) :
    (Map.setEntries k v es).map Prod.fst
      = if k ∈ es.map Prod.fst then es.map Prod.fst else es.map Prod.fst ++ [k] := by
  induction es with
  | nil => simp [Map.setEntries]
  | cons e rest ih =>
    obtain ⟨k0, v0⟩ := e
    by_cases h0 : k0 = k
    · subst h0; simp [Map.setEntries]
    · have hne : ¬ k = k0 := fun h => h0 h.symm
      simp only [Map.setEntries, h0, if_false, List.map_cons, ih, List.mem_cons, hne, false_or]
      split <;> simp

/-- The keys after the loop: the keys before it, and the lower-cased labels of columns with a
data point. -/
theorem keys_foldl_columnStep (lower : String → String) (cols : List ReportDataColumn) :
    ∀ (es : List (String × Float64)) (k : String),
      k ∈ (cols.foldl (columnStep lower) es).map Prod.fst ↔
        k ∈ es.map Prod.fst ∨ ∃ c ∈ cols, c.DataPoints ≠ [] ∧ lower c.Label = k := by
  induction cols with
  | nil => intro es k; simp
  | cons c rest ih =>
    intro es k
    rw [List.foldl_cons, ih]
    cases hdp : c.DataPoints with
    | nil =>
      simp only [columnStep, hdp]
      constructor
      · rintro (h | ⟨d, hd, hne, hk⟩)
        · exact Or.inl h
        · exact Or.inr ⟨d, List.mem_cons_of_mem _ hd, hne, hk⟩
      · rintro (h | ⟨d, hd, hne, hk⟩)
        · exact Or.inl h
        · rcases List.mem_cons.mp hd with heq | hin
          · subst heq; exact absurd hdp hne
          · exact Or.inr ⟨d, hin, hne, hk⟩
    | cons p ps =>
      simp only [columnStep, hdp, Map.keys_setEntries]
      constructor
      · rintro (h | ⟨d, hd, hne, hk⟩)
        · split at h
          · exact Or.inl h
          · rcases List.mem_append.mp h with h1 | h1
            · exact Or.inl h1
            · simp only [List.mem_singleton] at h1
              exact Or.inr ⟨c, List.mem_cons_self _ _, by simp [hdp], h1.symm⟩
        · exact Or.inr ⟨d, List.mem_cons_of_mem _ hd, hne, hk⟩
      · rintro (h | ⟨d, hd, hne, hk⟩)
        · left; split
          · exact h
          · exact List.mem_append_left _ h
        · rcases List.mem_cons.mp hd with heq | hin
          · subst heq
            left; split
            · rename_i hmem; rw [← hk]; exact hmem
            · rw [← hk]; simp
          · exact Or.inr ⟨d, hin, hne, hk⟩

/-- The loop adds at most one entry per column. -/
theorem length_foldl_columnStep (lower : String → String) (cols : List ReportDataColumn) :
    ∀ es : List (String × Float64),
      (cols.foldl (columnStep lower) es).length ≤ es.length + cols.length := by
  induction cols with
  | nil => intro es; simp
  | cons c rest ih =>
    intro es
    rw [List.foldl_cons]
    have hstep : (columnStep lower es c).length ≤ es.length + 1 := by
      have hk := congrArg List.length (Map.keys_setEntries (lower c.Label)
        (match c.DataPoints with | p :: _ => p.Value | [] => default) es)
      cases hdp : c.DataPoints with
      | nil => simp [columnStep, hdp]
      | cons p ps =>
        simp only [hdp, List.length_map] at hk
        simp only [columnStep, hdp, hk]
        split <;> simp
    have := ih (columnStep lower es c)
    simp only [List.length_cons]
    omega

/-- Columns that do not set the key `k` leave its entry as it was. -/
theorem lookup_foldl_columnStep_unchanged (lower : String → String)
    (cols : List ReportDataColumn) (k : String) :
    ∀ es : List (String × Float64),
      (∀ d ∈ cols, lower d.Label = k → d.DataPoints = []) →
      (cols.foldl (columnStep lower) es).lookup k = es.lookup k := by
  induction cols with
  | nil => intro es _; rfl
  | cons c rest ih =>
    intro es h
    rw [List.foldl_cons, ih _ (fun d hd => h d (List.mem_cons_of_mem _ hd))]
    cases hdp : c.DataPoints with
    | nil => simp [columnStep, hdp]
    | cons p ps =>
      have hne : ¬ k = lower c.Label := by
        intro hk
        have := h c (List.mem_cons_self _ _) hk.symm
        rw [hdp] at this
        exact absurd this (by simp)
      simp [columnStep, hdp, Map.lookup_setEntries, hne]

/-- The entry at a key after the loop is the first data point of the last column with a data
point and that key. -/
theorem lookup_foldl_columnStep_last (lower : String → String)
    (pre post : List ReportDataColumn) (c : ReportDataColumn)
    (p : ReportDataPoint) (ps : List ReportDataPoint) (es : List (String × Float64))
    (hc : c.DataPoints = p :: ps)
    (hpost : ∀ d ∈ post, lower d.Label = lower c.Label → d.DataPoints = []) :
    ((pre ++ c :: post).foldl (columnStep lower) es).lookup (lower c.Label) = some p.Value := by
  rw [List.foldl_append, List.foldl_cons,
    lookup_foldl_columnStep_unchanged lower post (lower c.Label) _ hpost]
  simp [columnStep, hc, Map.lookup_setEntries]

/-- C23. Shape of the job-outcome mapping for arbitrary chart data. A report was retrieved and
the chart request for it was answered with a 2xx response whose decoded chart list starts with
`chart`; the columns of `chart` are arbitrary, and lower-casing is `strings.ToLower` of the Go
library, whatever it does to a label, non-ASCII letters included. Then GetTaskDetails returns a mapping in which
every key is the lower-cased label of a column with at least one data point, and every such
label is a key; a label that only columns without data points have is not a key; there are at
most as many entries as columns; and the value at a key is the first data point of the last
column with that lower-cased label that has a data point, so of two columns with data points
and labels equal after lower-casing the later one determines the value. -/
theorem task_details_mapping_shape (w : World) (r : Rubrik) (reports : Slice Report)
    (report : Report) (others : List Report) (resp : HttpResponse) (chart : ReportData)
    (charts : List ReportData)
    (hreports : (r.GetReports w taskReportFilter).out = .ret reports)
    (hfirst : reports.toList = report :: others)
    (hnew : w.newRequest "GET" (r.chartRequest w report).url = none)
    (hrt : w.roundTrip (r.chartRequest w report) = .ok resp)
    (hstatus : 200 ≤ resp.StatusCode ∧ resp.StatusCode < 300)
    (hdata : (w.decodeReportData resp.Body).value = chart :: charts) :
    ∃ m, (r.GetTaskDetails w).out = .ret m ∧
      (∀ k, k ∈ m.keys ↔
        ∃ c ∈ chart.DataColumns, c.DataPoints ≠ [] ∧ w.toLower c.Label = k) ∧
      (∀ k, (∀ c ∈ chart.DataColumns, w.toLower c.Label = k → c.DataPoints = []) →
        k ∉ m.keys ∧ m.get? k = none) ∧
      m.len ≤ chart.DataColumns.length ∧
      (∀ pre c post p ps, chart.DataColumns = pre ++ c :: post → c.DataPoints = p :: ps →
        (∀ d ∈ post, w.toLower d.Label = w.toLower c.Label → d.DataPoints = []) →
        m.get? (w.toLower c.Label) = some p.Value) ∧
      (∀ pre c1 mid c2 post p1 ps1 p2 ps2,
        chart.DataColumns = pre ++ c1 :: (mid ++ c2 :: post) →
        w.toLower c1.Label = w.toLower c2.Label →
        c1.DataPoints = p1 :: ps1 → c2.DataPoints = p2 :: ps2 →
        (∀ d ∈ post, w.toLower d.Label = w.toLower c2.Label → d.DataPoints = []) →
        m.get? (w.toLower c1.Label) = some p2.Value) := by
  have hout := getTaskDetails_out_chart w r reports report others resp chart charts hreports
    hfirst hnew hrt hstatus hdata
  rw [reduceColumns_eq_foldl] at hout
  have hkeys : ∀ k, k ∈ (Map.mk (chart.DataColumns.foldl (columnStep w.toLower) [])).keys ↔
      ∃ c ∈ chart.DataColumns, c.DataPoints ≠ [] ∧ w.toLower c.Label = k := by
    intro k
    have := keys_foldl_columnStep w.toLower chart.DataColumns [] k
    simpa [Map.keys, Map.entries] using this
  refine ⟨_, hout, hkeys, ?_, ?_, ?_, ?_⟩
  · intro k hk
    refine ⟨?_, ?_⟩
    · rw [hkeys]
      rintro ⟨c, hc, hne, hl⟩
      exact hne (hk c hc hl)
    · have := lookup_foldl_columnStep_unchanged w.toLower chart.DataColumns k [] hk
      simpa [Map.get?, Map.entries] using this
  · have := length_foldl_columnStep w.toLower chart.DataColumns []
    simpa [Map.len, Map.entries] using this
  · intro pre c post p ps hcols hc hpost
    have := lookup_foldl_columnStep_last w.toLower pre post c p ps [] hc hpost
    rw [hcols]
    simpa [Map.get?, Map.entries] using this
  · intro pre c1 mid c2 post p1 ps1 p2 ps2 hcols hl _ hc2 hpost
    have := lookup_foldl_columnStep_last w.toLower (pre ++ c1 :: mid) post c2 p2 ps2 [] hc2 hpost
    rw [hcols, hl]
    simpa [Map.get?, Map.entries, List.append_assoc] using this

/-- Witness of C23: the columns Succeeded (3), FAILED (no data point), succeeded (5, 9),
Canceled (2) give the two entries succeeded: 5 and canceled: 2. -/
theorem task_details_mapping_shape_witness :
    ∃ m, (sampleClient.GetTaskDetails duplicateColumnsWorld).out = .ret m ∧
      m = Map.mk [("succeeded", ⟨0x4014000000000000⟩),
                  ("canceled", ⟨0x4000000000000000⟩)] ∧
      m.len ≤ 4 ∧ "failed" ∉ m.keys := by
  obtain ⟨m, hout, _, hnone, hlen, _, _⟩ :=
    task_details_mapping_shape duplicateColumnsWorld sampleClient
      (Slice.mk [{ ID := "rep-1", Name := "Protection Tasks Details", ReportType := "Canned",
                   UpdateStatus := "Ready", UpdateTime := "", ReportTemplate := "" }])
      _ [] { StatusCode := 200, Body := "chart" } duplicateColumnsChart []
      (by decide) rfl (by decide) rfl (by decide) rfl
  have hm : m = Map.mk [("succeeded", ⟨0x4014000000000000⟩),
      ("canceled", ⟨0x4000000000000000⟩)] := by
    have h2 : (sampleClient.GetTaskDetails duplicateColumnsWorld).out
        = .ret (Map.mk [("succeeded", ⟨0x4014000000000000⟩),
            ("canceled", ⟨0x4000000000000000⟩)]) := by decide
    rw [h2] at hout
    exact (Outcome.ret.inj hout).symm
  exact ⟨m, hout, hm, hlen, (hnone "failed" (by decide)).1⟩

theorem mem_httpCalls_bind {α β : Type} (m : Run α) (f : α → Run β) (q : HttpRequest)
    (h : q ∈ httpCalls (Run.bind m f).trace) :
    q ∈ httpCalls m.trace ∨ ∃ a, q ∈ httpCalls (f a).trace := by
  cases hm : m.out with
  | ret v =>
    rw [Run.bind_trace_ret _ hm, httpCalls_append] at h
    rcases List.mem_append.mp h with h1 | h1
    · exact Or.inl h1
    · exact Or.inr ⟨v, h1⟩
  | exit c =>
    rw [Run.bind_trace_exit _ hm] at h
    exact Or.inl h

theorem sendsToken_bind {α β : Type} (m : Run α) (f : α → Run β) (token : String)
    (hm : m.SendsToken token) (hf : ∀ a, (f a).SendsToken token) :
    (Run.bind m f).SendsToken token := by
  intro q hq
  rcases mem_httpCalls_bind m f q hq with h | ⟨a, h⟩
  · exact hm q h
  · exact hf a q h

theorem sendsToken_pure {α : Type} (a : α) (token : String) :
    (Pure.pure a : Run α).SendsToken token := by
  intro q hq
  simp [Run.pure_def, httpCalls] at hq

theorem makeRequest_sendsToken (w : World) (r : Rubrik) (t a : String) (p : RequestParams) :
    (r.makeRequest w t a p).SendsToken r.sessionToken := by
  unfold Run.SendsToken
  simp [Rubrik.makeRequest, Rubrik.restRequest, Run.bind_def, Run.pure_def, Run.bind_ret,
    logPrint, emit]
  repeat' split
  all_goals simp_all [Run.bind_ret, Run.bind_exit, logFatal, httpCalls]

theorem logPrint_sendsToken (line token : String) : (logPrint line).SendsToken token := by
  intro q hq
  simp [logPrint, emit, httpCalls] at hq

theorem executeQuery_sendsToken {ρ : Type} (g : GraphQLClient) (kind : GraphKind ρ)
    (query : String) (vars : List (String × String)) (token : String) :
    (g.ExecuteQuery kind query vars).SendsToken token := by
  unfold Run.SendsToken
  simp [GraphQLClient.ExecuteQuery, Run.bind_def, Run.pure_def, Run.bind_ret, logPrint, emit]
  repeat' split
  all_goals simp_all [Run.bind_ret, httpCalls]

/-- Every HTTP request of each of the fifteen fetch-with-fallback operations carries the
session token of the client. -/
theorem retrieval_sendsToken (w : World) (r : Rubrik) :
    (r.GetNodes w).SendsToken r.sessionToken ∧
    (r.ListVmwareVM w).SendsToken r.sessionToken ∧
    (r.ListNutanixVM w).SendsToken r.sessionToken ∧
    (r.ListHypervVM w).SendsToken r.sessionToken ∧
    (r.GetManagedVolumes w).SendsToken r.sessionToken ∧
    (r.GetArchiveLocations w).SendsToken r.sessionToken ∧
    (r.GetSystemStorage w).SendsToken r.sessionToken ∧
    (r.GetPerVMStorage w).SendsToken r.sessionToken ∧
    (r.GetStreamCount w).SendsToken r.sessionToken ∧
    (r.GetDataLocationUsage w).SendsToken r.sessionToken ∧
    (r.GetPhysicalIngest w).SendsToken r.sessionToken ∧
    (∀ locationID timerange,
      (r.GetArchivalBandwith w locationID timerange).SendsToken r.sessionToken) ∧
    (r.GetRunawayRemaining w).SendsToken r.sessionToken ∧
    (r.GetAverageStorageGrowthPerDay w).SendsToken r.sessionToken ∧
    (∀ params, (r.GetReports w params).SendsToken r.sessionToken) := by
  refine ⟨?_, ?_, ?_, ?_, ?_, ?_, ?_, ?_, ?_, ?_, ?_, ?_, ?_, ?_, ?_⟩
  all_goals
    intros
    simp only [Rubrik.GetNodes, Rubrik.ListVmwareVM, Rubrik.ListNutanixVM,
      Rubrik.ListHypervVM, Rubrik.GetManagedVolumes, Rubrik.GetArchiveLocations,
      Rubrik.GetSystemStorage, Rubrik.GetPerVMStorage, Rubrik.GetStreamCount,
      Rubrik.GetDataLocationUsage, Rubrik.GetPhysicalIngest, Rubrik.GetArchivalBandwith,
      Rubrik.GetRunawayRemaining, Rubrik.GetAverageStorageGrowthPerDay, Rubrik.GetReports,
      Run.bind_def]
    repeat' first
      | with_reducible exact sendsToken_pure _ _
      | with_reducible exact makeRequest_sendsToken _ _ _ _ _
      | with_reducible exact executeQuery_sendsToken _ _ _ _ _
      | with_reducible exact logPrint_sendsToken _ _
      | with_reducible refine sendsToken_bind _ _ _ ?_ (fun _ => ?_)
      | split
/-- Every HTTP request of ListAllVM, of GetTaskDetails and of Logout carries the session token
of the client. -/
theorem composite_sendsToken (w : World) (r : Rubrik) :
    (r.ListAllVM w).SendsToken r.sessionToken ∧
    (r.GetTaskDetails w).SendsToken r.sessionToken ∧
    (r.Logout w).SendsToken r.sessionToken := by
  obtain ⟨_, hvmware, hnutanix, hhyperv, _, _, _, _, _, _, _, _, _, _, hreports⟩ :=
    retrieval_sendsToken w r
  refine ⟨?_, ?_, ?_⟩
  · simp only [Rubrik.ListAllVM, Run.bind_def]
    refine sendsToken_bind _ _ _ hvmware (fun _ => ?_)
    refine sendsToken_bind _ _ _ hnutanix (fun _ => ?_)
    refine sendsToken_bind _ _ _ hhyperv (fun _ => ?_)
    exact sendsToken_pure _ _
  · simp only [Rubrik.GetTaskDetails, Run.bind_def]
    refine sendsToken_bind _ _ _ (hreports _) (fun _ => ?_)
    repeat' first
      | with_reducible exact sendsToken_pure _ _
      | with_reducible exact makeRequest_sendsToken _ _ _ _ _
      | with_reducible refine sendsToken_bind _ _ _ ?_ (fun _ => ?_)
      | split
  · simp only [Rubrik.Logout, Run.bind_def]
    refine sendsToken_bind _ _ _ (makeRequest_sendsToken _ _ _ _ _) (fun _ => ?_)
    exact sendsToken_pure _ _

theorem SameButSession.refl (r : Rubrik) : r.SameButSession r :=
  ⟨rfl, rfl, rfl, rfl, rfl, rfl⟩

theorem tryOAuth2_sameButSession (w : World) (r r2 : Rubrik) (err : Option String)
    (h : (r.tryOAuth2ClientCredentials w).out = .ret (r2, err)) : r.SameButSession r2 := by
  simp [Rubrik.tryOAuth2ClientCredentials, Run.bind_def, Run.pure_def, Run.bind_ret, logPrint,
    emit] at h
  repeat' split at h
  all_goals simp_all [Run.bind_ret, Rubrik.SameButSession]
  all_goals (obtain ⟨h1, _⟩ := h; subst h1; simp)

theorem tryBasic_sameButSession (w : World) (r r2 : Rubrik) (err : Option String)
    (h : (r.tryServiceAccountBasicAuth w).out = .ret (r2, err)) : r.SameButSession r2 := by
  simp [Rubrik.tryServiceAccountBasicAuth, Run.bind_def, Run.pure_def, Run.bind_ret, logPrint,
    emit] at h
  repeat' split at h
  all_goals simp_all [Run.bind_ret, Rubrik.SameButSession]
  all_goals (obtain ⟨h1, _⟩ := h; subst h1; simp)

theorem loginWithUsernamePassword_sameButSession (w : World) (r r2 : Rubrik)
    (err : Option String)
    (h : (r.loginWithUsernamePassword w).out = .ret (r2, err)) : r.SameButSession r2 := by
  simp [Rubrik.loginWithUsernamePassword, Run.bind_def, Run.pure_def, Run.bind_ret, logPrint,
    emit] at h
  repeat' split at h
  all_goals simp_all [Run.bind_ret, Run.bind_exit, logFatal, Rubrik.SameButSession]
  all_goals (obtain ⟨h1, _⟩ := h; subst h1; simp)
theorem loginWithServiceAccount_sameButSession (w : World) (r r2 : Rubrik)
    (err : Option String)
    (h : (r.loginWithServiceAccount w).out = .ret (r2, err)) : r.SameButSession r2 := by
  obtain ⟨⟨r1, e1⟩, hres⟩ := tryOAuth2_returns w r
  cases e1 with
  | none =>
    rw [(loginWithServiceAccount_after_success w r r1 hres).1] at h
    have h1 : r1 = r2 := (Prod.mk.inj (Outcome.ret.inj h)).1
    rw [← h1]
    exact tryOAuth2_sameButSession w r r1 none hres
  | some e =>
    have hr1 : r1 = r := tryOAuth2_failure_keeps w r r1 e hres
    subst hr1
    rw [(loginWithServiceAccount_after_failure w r1 e hres).1] at h
    exact tryBasic_sameButSession w r1 r2 err h

/-- Login changes nothing of the client but the session token and the logged-in flag. -/
theorem login_sameButSession (w : World) (r r2 : Rubrik) (err : Option String)
    (h : (r.Login w).out = .ret (r2, err)) : r.SameButSession r2 := by
  unfold Rubrik.Login at h
  split at h
  · rw [Run.bind_def, Run.bind_out_ret _ (rfl : (logPrint _).out = .ret ())] at h
    exact loginWithServiceAccount_sameButSession w r r2 err h
  · rw [Run.bind_def, Run.bind_out_ret _ (rfl : (logPrint _).out = .ret ())] at h
    exact loginWithUsernamePassword_sameButSession w r r2 err h

/-- NewRubrik runs Login once on the client it built: the client it returns is the client
Login left behind, with the graph-query client added, and the strategy functions it entered
are those of that one run of Login. -/
theorem newRubrik_runs_login_once (w : World) (url username password clientID
    clientSecret : String) :
    (∀ c, (NewRubrik w url username password clientID clientSecret).out = .ret c →
      ∃ r2 err,
        ((initialClient url username password clientID clientSecret).Login w).out
          = .ret (r2, err) ∧
        c = r2.withGraphClient url) ∧
    calledFns (NewRubrik w url username password clientID clientSecret).trace
      = calledFns ((initialClient url username password clientID clientSecret).Login w).trace
    := by
  have hnew : NewRubrik w url username password clientID clientSecret =
      Run.bind (logPrint "Create new API Instance") (fun _ =>
        Run.bind ((initialClient url username password clientID clientSecret).Login w)
          (fun x =>
            Run.bind (logPrint "Session-Token: %s") (fun _ =>
              Run.bind (logPrint "GraphQL endpoint: %s") (fun _ =>
                Pure.pure (x.1.withGraphClient url))))) := rfl
  cases hl : ((initialClient url username password clientID clientSecret).Login w).out with
  | ret x =>
    obtain ⟨r2, err⟩ := x
    constructor
    · intro c hc
      rw [hnew, Run.bind_out_ret _ (rfl : (logPrint _).out = .ret ()),
        Run.bind_out_ret _ hl] at hc
      refine ⟨r2, err, rfl, ?_⟩
      exact (Outcome.ret.inj hc).symm
    · rw [hnew, Run.bind_trace_ret _ (rfl : (logPrint _).out = .ret ()),
        Run.bind_trace_ret _ hl, calledFns_append, calledFns_append]
      have h1 : calledFns (logPrint "Create new API Instance").trace = [] := rfl
      rw [h1, List.nil_append]
      exact List.append_nil _
  | exit code =>
    constructor
    · intro c hc
      rw [hnew, Run.bind_out_ret _ (rfl : (logPrint _).out = .ret ()),
        Run.bind_out_exit _ hl] at hc
      simp at hc
    · rw [hnew, Run.bind_trace_ret _ (rfl : (logPrint _).out = .ret ()),
        Run.bind_trace_exit _ hl, calledFns_append]
      rfl

theorem returnsClient_pure {α : Type} (r : Rubrik) (a : α) :
    (Pure.pure (r, a) : Run (Rubrik × α)).ReturnsClient r := by
  intro r2 b h
  simp [Run.pure_def] at h
  exact h.1.symm

theorem returnsClient_exit {α : Type} (err : String) (r : Rubrik) :
    (logFatal err : Run (Rubrik × α)).ReturnsClient r := by
  intro r2 b h
  simp [logFatal] at h

/-- After a step that hands back no client, the client is the one the rest hands back. -/
theorem returnsClient_bind {α β : Type} (m : Run α) (f : α → Run (Rubrik × β)) (r : Rubrik)
    (hf : ∀ a, (f a).ReturnsClient r) : (Run.bind m f).ReturnsClient r := by
  intro r2 b h
  cases hm : m.out with
  | ret v =>
    rw [Run.bind_out_ret _ hm] at h
    exact hf v r2 b h
  | exit c =>
    rw [Run.bind_out_exit _ hm] at h
    simp at h

/-- After a step that hands back the client `r`, the rest runs on `r`. -/
theorem returnsClient_bind_on {α β : Type} (m : Run (Rubrik × α))
    (f : Rubrik × α → Run (Rubrik × β)) (r : Rubrik) (hm : m.ReturnsClient r)
    (hf : ∀ a, (f (r, a)).ReturnsClient r) : (Run.bind m f).ReturnsClient r := by
  intro r2 b h
  cases hout : m.out with
  | ret v =>
    obtain ⟨r1, a⟩ := v
    rw [Run.bind_out_ret _ hout] at h
    have := hm r1 a hout
    subst this
    exact hf a r2 b h
  | exit c =>
    rw [Run.bind_out_exit _ hout] at h
    simp at h

/-- The body of makeRequest hands back the client it was called on. -/
theorem makeRequestOn_returnsClient (w : World) (r : Rubrik) (t a : String)
    (p : RequestParams) : (r.makeRequestOn w t a p).ReturnsClient r := by
  simp only [Rubrik.makeRequestOn, Run.bind_def]
  repeat' first
    | with_reducible exact returnsClient_pure _ _
    | with_reducible exact returnsClient_exit _ _
    | with_reducible refine returnsClient_bind _ _ _ (fun _ => ?_)
    | split

theorem logoutOn_returnsClient (w : World) (r : Rubrik) : (r.LogoutOn w).ReturnsClient r := by
  simp only [Rubrik.LogoutOn, Run.bind_def]
  refine returnsClient_bind_on _ _ _ (makeRequestOn_returnsClient _ _ _ _ _) (fun _ => ?_)
  exact returnsClient_pure _ _

theorem retrieval_returnsClient (w : World) (r : Rubrik) :
    (r.GetNodesOn w).ReturnsClient r ∧
    (r.ListVmwareVMOn w).ReturnsClient r ∧
    (r.ListNutanixVMOn w).ReturnsClient r ∧
    (r.ListHypervVMOn w).ReturnsClient r ∧
    (r.GetManagedVolumesOn w).ReturnsClient r ∧
    (r.GetArchiveLocationsOn w).ReturnsClient r ∧
    (r.GetSystemStorageOn w).ReturnsClient r ∧
    (r.GetPerVMStorageOn w).ReturnsClient r ∧
    (r.GetStreamCountOn w).ReturnsClient r ∧
    (r.GetDataLocationUsageOn w).ReturnsClient r ∧
    (r.GetPhysicalIngestOn w).ReturnsClient r ∧
    (∀ locationID timerange, (r.GetArchivalBandwithOn w locationID timerange).ReturnsClient r) ∧
    (r.GetRunawayRemainingOn w).ReturnsClient r ∧
    (r.GetAverageStorageGrowthPerDayOn w).ReturnsClient r ∧
    (∀ params, (r.GetReportsOn w params).ReturnsClient r) := by
  have hmk := makeRequestOn_returnsClient w
  refine ⟨?_, ?_, ?_, ?_, ?_, ?_, ?_, ?_, ?_, ?_, ?_, ?_, ?_, ?_, ?_⟩
  all_goals
    intros
    simp only [Rubrik.GetNodesOn, Rubrik.ListVmwareVMOn, Rubrik.ListNutanixVMOn,
      Rubrik.ListHypervVMOn, Rubrik.GetManagedVolumesOn, Rubrik.GetArchiveLocationsOn,
      Rubrik.GetSystemStorageOn, Rubrik.GetPerVMStorageOn, Rubrik.GetStreamCountOn,
      Rubrik.GetDataLocationUsageOn, Rubrik.GetPhysicalIngestOn, Rubrik.GetArchivalBandwithOn,
      Rubrik.GetRunawayRemainingOn, Rubrik.GetAverageStorageGrowthPerDayOn, Rubrik.GetReportsOn,
      Run.bind_def]
    repeat' first
      | with_reducible exact returnsClient_pure _ _
      | with_reducible refine returnsClient_bind_on _ _ _ (hmk _ _ _ _) (fun _ => ?_)
      | with_reducible refine returnsClient_bind _ _ _ (fun _ => ?_)
      | split


theorem composite_returnsClient (w : World) (r : Rubrik) :
    (r.ListAllVMOn w).ReturnsClient r ∧
    (r.GetTaskDetailsOn w).ReturnsClient r ∧
    (∀ (N I T : Type) [Inhabited N] [Inhabited I] [Inhabited T]
      (decodeNodeStat : String → Decoded (NodeStat N I T)) (id : String),
      (r.GetNodeStatsOn w decodeNodeStat id).ReturnsClient r) := by
  have hmk := makeRequestOn_returnsClient w
  refine ⟨?_, ?_, ?_⟩
  all_goals
    intros
    simp only [Rubrik.ListAllVMOn, Rubrik.GetTaskDetailsOn, Rubrik.GetNodeStatsOn, Run.bind_def]
    repeat' first
      | with_reducible exact returnsClient_pure _ _
      | with_reducible refine returnsClient_bind_on _ _ _ (hmk _ _ _ _) (fun _ => ?_)
      | with_reducible refine returnsClient_bind _ _ _ (fun _ => ?_)
      | split

theorem Run.bind_assoc {α β γ : Type} (m : Run α) (f : α → Run β) (g : β → Run γ) :
    Run.bind (Run.bind m f) g = Run.bind m (fun a => Run.bind (f a) g) := by
  obtain ⟨out, tr⟩ := m
  cases out with
  | exit c => rfl
  | ret a =>
    simp only [Run.bind_ret]
    cases hfa : f a with
    | mk out2 tr2 =>
      cases out2 with
      | exit c => simp [Run.bind, hfa]
      | ret b => simp [Run.bind, hfa]

theorem Run.pure_bind {α β : Type} (a : α) (f : α → Run β) :
    Run.bind (Pure.pure a) f = f a := by
  simp [Run.pure_def, Run.bind_ret]

theorem Run.bind_congr {α β : Type} (m : Run α) (f g : α → Run β) (h : ∀ a, f a = g a) :
    Run.bind m f = Run.bind m g := by
  have : f = g := funext h
  rw [this]

theorem Run.logFatal_bind {α β : Type} (err : String) (f : α → Run β) :
    Run.bind (logFatal err) f = logFatal err := rfl

/-- The threaded body of makeRequest is makeRequest, with the client it was called on handed
back. -/
theorem makeRequestOn_eq (w : World) (r : Rubrik) (t a : String) (p : RequestParams) :
    r.makeRequestOn w t a p = Run.bind (r.makeRequest w t a p) (fun res => Pure.pure (r, res)) := by
  simp only [Rubrik.makeRequestOn, Rubrik.makeRequest, Run.bind_def, Run.bind_assoc]
  repeat' first
    | rfl
    | with_reducible refine Run.bind_congr _ _ _ (fun _ => ?_)
    | simp only [Run.pure_bind, Run.logFatal_bind]
    | split

/-- Each threaded body is the operation it spells out: its result and its trace are those of
the operation. -/
theorem retrieval_result (w : World) (r : Rubrik) :
    (r.GetNodesOn w).result = r.GetNodes w ∧
    (r.ListVmwareVMOn w).result = r.ListVmwareVM w ∧
    (r.ListNutanixVMOn w).result = r.ListNutanixVM w ∧
    (r.ListHypervVMOn w).result = r.ListHypervVM w ∧
    (r.GetManagedVolumesOn w).result = r.GetManagedVolumes w ∧
    (r.GetArchiveLocationsOn w).result = r.GetArchiveLocations w ∧
    (r.GetSystemStorageOn w).result = r.GetSystemStorage w ∧
    (r.GetPerVMStorageOn w).result = r.GetPerVMStorage w ∧
    (r.GetStreamCountOn w).result = r.GetStreamCount w ∧
    (r.GetDataLocationUsageOn w).result = r.GetDataLocationUsage w ∧
    (r.GetPhysicalIngestOn w).result = r.GetPhysicalIngest w ∧
    (∀ locationID timerange, (r.GetArchivalBandwithOn w locationID timerange).result
      = r.GetArchivalBandwith w locationID timerange) ∧
    (r.GetRunawayRemainingOn w).result = r.GetRunawayRemaining w ∧
    (r.GetAverageStorageGrowthPerDayOn w).result = r.GetAverageStorageGrowthPerDay w ∧
    (∀ params, (r.GetReportsOn w params).result = r.GetReports w params) := by
  refine ⟨?_, ?_, ?_, ?_, ?_, ?_, ?_, ?_, ?_, ?_, ?_, ?_, ?_, ?_, ?_⟩
  all_goals
    intros
    simp only [Run.result, Rubrik.GetNodesOn, Rubrik.ListVmwareVMOn, Rubrik.ListNutanixVMOn,
      Rubrik.ListHypervVMOn, Rubrik.GetManagedVolumesOn, Rubrik.GetArchiveLocationsOn,
      Rubrik.GetSystemStorageOn, Rubrik.GetPerVMStorageOn, Rubrik.GetStreamCountOn,
      Rubrik.GetDataLocationUsageOn, Rubrik.GetPhysicalIngestOn, Rubrik.GetArchivalBandwithOn,
      Rubrik.GetRunawayRemainingOn, Rubrik.GetAverageStorageGrowthPerDayOn, Rubrik.GetReportsOn,
      Rubrik.GetNodes, Rubrik.ListVmwareVM, Rubrik.ListNutanixVM,
      Rubrik.ListHypervVM, Rubrik.GetManagedVolumes, Rubrik.GetArchiveLocations,
      Rubrik.GetSystemStorage, Rubrik.GetPerVMStorage, Rubrik.GetStreamCount,
      Rubrik.GetDataLocationUsage, Rubrik.GetPhysicalIngest, Rubrik.GetArchivalBandwith,
      Rubrik.GetRunawayRemaining, Rubrik.GetAverageStorageGrowthPerDay, Rubrik.GetReports,
      makeRequestOn_eq, Run.bind_def, Run.bind_assoc, Run.pure_bind]
    repeat' first
      | with_reducible rfl
      | with_reducible refine Run.bind_congr _ _ _ (fun _ => ?_)
      | simp only [Run.bind_assoc, Run.pure_bind]
      | split

theorem Run.bind_pure {α : Type} (m : Run α) : Run.bind m (fun a => Pure.pure a) = m := by
  obtain ⟨out, tr⟩ := m
  cases out with
  | ret a => simp [Run.bind_ret, Run.pure_def]
  | exit c => rfl


theorem composite_result (w : World) (r : Rubrik) :
    (r.ListAllVMOn w).result = r.ListAllVM w ∧
    (r.GetTaskDetailsOn w).result = r.GetTaskDetails w ∧
    (r.LogoutOn w).result = r.Logout w ∧
    (∀ (N I T : Type) [Inhabited N] [Inhabited I] [Inhabited T]
      (decodeNodeStat : String → Decoded (NodeStat N I T)) (id : String),
      (r.GetNodeStatsOn w decodeNodeStat id).result = r.GetNodeStats w decodeNodeStat id) := by
  obtain ⟨_, hvmware, hnutanix, hhyperv, _, _, _, _, _, _, _, _, _, _, hreports⟩ :=
    retrieval_result w r
  refine ⟨?_, ?_, ?_, ?_⟩
  · simp only [Rubrik.ListAllVM, ← hvmware, ← hnutanix, ← hhyperv]
    simp only [Run.result, Rubrik.ListAllVMOn, Run.bind_def, Run.bind_assoc, Run.pure_bind]
  · simp only [Rubrik.GetTaskDetails, ← hreports]
    simp only [Run.result, Rubrik.GetTaskDetailsOn, makeRequestOn_eq, Run.bind_def,
      Run.bind_assoc, Run.pure_bind]
    repeat' first
      | with_reducible rfl
      | with_reducible refine Run.bind_congr _ _ _ (fun _ => ?_)
      | simp only [Run.bind_assoc, Run.pure_bind]
      | split
  · simp only [Run.result, Rubrik.LogoutOn, Rubrik.Logout, makeRequestOn_eq, Run.bind_def,
      Run.bind_assoc, Run.pure_bind]
  · intros
    simp only [Run.result, Rubrik.GetNodeStatsOn, Rubrik.GetNodeStats, makeRequestOn_eq,
      Run.bind_def, Run.bind_assoc, Run.pure_bind]
    repeat' first
      | with_reducible rfl
      | with_reducible refine Run.bind_congr _ _ _ (fun _ => ?_)
      | simp only [Run.bind_assoc, Run.pure_bind]
      | split

theorem Run.result_trace {α : Type} (m : Run (Rubrik × α)) : m.result.trace = m.trace := by
  obtain ⟨out, tr⟩ := m
  cases out with
  | ret a => simp [Run.result, Run.bind_ret, Run.pure_def]
  | exit c => rfl

theorem sendsToken_of_result {α : Type} (m : Run (Rubrik × α)) (n : Run α) (token : String)
    (h : m.result = n) (hn : n.SendsToken token) : m.SendsToken token := by
  intro q hq
  rw [← Run.result_trace, h] at hq
  exact hn q hq

theorem getNodeStats_sendsToken {N I T : Type} [Inhabited N] [Inhabited I] [Inhabited T]
    (w : World) (decodeNodeStat : String → Decoded (NodeStat N I T)) (r : Rubrik)
    (id : String) : (r.GetNodeStats w decodeNodeStat id).SendsToken r.sessionToken := by
  simp only [Rubrik.GetNodeStats, Run.bind_def]
  repeat' first
    | with_reducible exact sendsToken_pure _ _
    | with_reducible exact makeRequest_sendsToken _ _ _ _ _
    | with_reducible refine sendsToken_bind _ _ _ ?_ (fun _ => ?_)
    | split

theorem sessionUntouchedBy_of {α : Type} (r : Rubrik) (body : Rubrik → Run (Rubrik × α))
    (op : Run α) (hkeeps : (body r).ReturnsClient r) (hresult : (body r).result = op)
    (hsends : op.SendsToken r.sessionToken) : r.SessionUntouchedBy body := by
  refine ⟨?_, sendsToken_of_result _ _ _ hresult hsends⟩
  intro r2 a hret
  rw [hkeeps r2 a hret]
  exact ⟨rfl, rfl⟩

/-- The session predicate is not met by a body that overwrites the token. -/
theorem overwritesToken_touches_session : ¬ sampleClient.SessionUntouchedBy overwritesToken := by
  intro h
  have := (h.1 _ _ rfl).1
  revert this
  decide

/-- C21. The session is written by Login alone. For every world, that is every outcome of the
network calls, and every client `r`: the body of each retrieval operation (the fifteen
fetch-with-fallback operations, ListAllVM, GetTaskDetails and GetNodeStats), of makeRequest
and of Logout, run on `r`, hands back, whenever it returns, a client whose session token and
logged-in flag are those of `r`, and every HTTP request it sends carries the session token of
`r`. A retrieval operation has a value receiver: the client it runs on is its own copy of the
client of its caller, so the statement is about the only client its body can assign to.
Login changes nothing of the client but the session token and the logged-in flag; and the
client that NewRubrik returns holds the session token and the logged-in flag that its one run
of Login left behind, and a graph-query client with that token; the strategy functions that
NewRubrik enters are those of that one run. -/
theorem session_written_only_by_login (w : World) (r : Rubrik) :
    r.SessionUntouchedBy (Rubrik.GetNodesOn w) ∧
    r.SessionUntouchedBy (Rubrik.ListVmwareVMOn w) ∧
    r.SessionUntouchedBy (Rubrik.ListNutanixVMOn w) ∧
    r.SessionUntouchedBy (Rubrik.ListHypervVMOn w) ∧
    r.SessionUntouchedBy (Rubrik.ListAllVMOn w) ∧
    r.SessionUntouchedBy (Rubrik.GetManagedVolumesOn w) ∧
    r.SessionUntouchedBy (Rubrik.GetArchiveLocationsOn w) ∧
    r.SessionUntouchedBy (Rubrik.GetSystemStorageOn w) ∧
    r.SessionUntouchedBy (Rubrik.GetPerVMStorageOn w) ∧
    r.SessionUntouchedBy (Rubrik.GetStreamCountOn w) ∧
    r.SessionUntouchedBy (Rubrik.GetDataLocationUsageOn w) ∧
    r.SessionUntouchedBy (Rubrik.GetPhysicalIngestOn w) ∧
    (∀ locationID timerange,
      r.SessionUntouchedBy (fun c => c.GetArchivalBandwithOn w locationID timerange)) ∧
    r.SessionUntouchedBy (Rubrik.GetRunawayRemainingOn w) ∧
    r.SessionUntouchedBy (Rubrik.GetAverageStorageGrowthPerDayOn w) ∧
    (∀ params, r.SessionUntouchedBy (fun c => c.GetReportsOn w params)) ∧
    r.SessionUntouchedBy (Rubrik.GetTaskDetailsOn w) ∧
    (∀ (N I T : Type) [Inhabited N] [Inhabited I] [Inhabited T]
      (decodeNodeStat : String → Decoded (NodeStat N I T)) (id : String),
      r.SessionUntouchedBy (fun c => c.GetNodeStatsOn w decodeNodeStat id)) ∧
    (∀ reqType action p, r.SessionUntouchedBy (fun c => c.makeRequestOn w reqType action p)) ∧
    r.SessionUntouchedBy (Rubrik.LogoutOn w) ∧
    (∀ r2 err, (r.Login w).out = .ret (r2, err) → r.SameButSession r2) ∧
    (∀ url username password clientID clientSecret c,
      (NewRubrik w url username password clientID clientSecret).out = .ret c →
      ∃ r2 err,
        ((initialClient url username password clientID clientSecret).Login w).out
          = .ret (r2, err) ∧
        c.sessionToken = r2.sessionToken ∧ c.isLoggedIn = r2.isLoggedIn ∧
        c.graphqlClient
          = some (NewGraphQLClient (TrimSuffixSlash url ++ "/api/graphql") r2.sessionToken)) ∧
    (∀ url username password clientID clientSecret,
      calledFns (NewRubrik w url username password clientID clientSecret).trace
        = calledFns ((initialClient url username password clientID clientSecret).Login w).trace)
    := by
  obtain ⟨k1, k2, k3, k4, k5, k6, k7, k8, k9, k10, k11, k12, k13, k14, k15⟩ :=
    retrieval_returnsClient w r
  obtain ⟨kall, ktask, kstats⟩ := composite_returnsClient w r
  obtain ⟨e1, e2, e3, e4, e5, e6, e7, e8, e9, e10, e11, e12, e13, e14, e15⟩ :=
    retrieval_result w r
  obtain ⟨eall, etask, elogout, estats⟩ := composite_result w r
  obtain ⟨h1, h2, h3, h4, h5, h6, h7, h8, h9, h10, h11, h12, h13, h14, h15⟩ :=
    retrieval_sendsToken w r
  obtain ⟨hall, htask, hlogout⟩ := composite_sendsToken w r
  refine ⟨sessionUntouchedBy_of r _ _ k1 e1 h1, sessionUntouchedBy_of r _ _ k2 e2 h2,
    sessionUntouchedBy_of r _ _ k3 e3 h3, sessionUntouchedBy_of r _ _ k4 e4 h4,
    sessionUntouchedBy_of r _ _ kall eall hall, sessionUntouchedBy_of r _ _ k5 e5 h5,
    sessionUntouchedBy_of r _ _ k6 e6 h6, sessionUntouchedBy_of r _ _ k7 e7 h7,
    sessionUntouchedBy_of r _ _ k8 e8 h8, sessionUntouchedBy_of r _ _ k9 e9 h9,
    sessionUntouchedBy_of r _ _ k10 e10 h10, sessionUntouchedBy_of r _ _ k11 e11 h11,
    fun loc tr => sessionUntouchedBy_of r _ _ (k12 loc tr) (e12 loc tr) (h12 loc tr),
    sessionUntouchedBy_of r _ _ k13 e13 h13, sessionUntouchedBy_of r _ _ k14 e14 h14,
    fun params => sessionUntouchedBy_of r _ _ (k15 params) (e15 params) (h15 params),
    sessionUntouchedBy_of r _ _ ktask etask htask,
    fun N I T _ _ _ decodeNodeStat id =>
      sessionUntouchedBy_of r _ _ (kstats N I T decodeNodeStat id)
        (estats N I T decodeNodeStat id) (getNodeStats_sendsToken w decodeNodeStat r id),
    fun t a p => sessionUntouchedBy_of r _ (r.makeRequest w t a p)
      (makeRequestOn_returnsClient w r t a p)
      (by simp only [Run.result, makeRequestOn_eq, Run.bind_assoc, Run.pure_bind]
          exact Run.bind_pure _)
      (makeRequest_sendsToken w r t a p),
    sessionUntouchedBy_of r _ _ (logoutOn_returnsClient w r) elogout hlogout,
    fun r2 err h => login_sameButSession w r r2 err h, ?_,
    fun url username password clientID clientSecret =>
      (newRubrik_runs_login_once w url username password clientID clientSecret).2⟩
  intro url username password clientID clientSecret c hc
  obtain ⟨r2, err, hl, hceq⟩ :=
    (newRubrik_runs_login_once w url username password clientID clientSecret).1 c hc
  exact ⟨r2, err, hl, by rw [hceq]; rfl, by rw [hceq]; rfl, by rw [hceq]; rfl⟩

/-- Witness of C21: against the appliance that answers 503, the bodies of Logout and GetNodes,
run on the sample client, return and hand back the sample client; against the appliance of
the Basic-auth example, the client that NewRubrik returns holds the token T-basic that Login
obtained. -/
theorem session_written_only_by_login_witness :
    (sampleClient.LogoutOn unavailableWorld).out = .ret (sampleClient, ()) ∧
    sampleClient.SessionUntouchedBy (Rubrik.LogoutOn unavailableWorld) ∧
    (sampleClient.GetNodesOn unavailableWorld).out = .ret (sampleClient, Slice.mk []) ∧
    sampleClient.SessionUntouchedBy (Rubrik.GetNodesOn unavailableWorld) ∧
    (NewRubrik basicOnlyWorld "https://rubrik.local" "admin" "pw" "client-id"
      "client-secret").out
      = .ret { url := "https://rubrik.local", username := "admin", password := "pw",
               serviceAccountClientID := "client-id",
               serviceAccountClientSecret := "client-secret",
               sessionToken := "T-basic", isLoggedIn := true,
               graphqlClient := some { endpoint := "https://rubrik.local/api/graphql",
                                       token := "T-basic" } } := by
  obtain ⟨hnodes, _, _, _, _, _, _, _, _, _, _, _, _, _, _, _, _, _, _, hlogout, _, _, _⟩ :=
    session_written_only_by_login unavailableWorld sampleClient
  exact ⟨by decide, hlogout, by decide, hnodes, by decide⟩

end RubrikExporter
